import Mathlib

/-!
# InterAPOMFX: a shallow embedding of `CInterAPOMFX`

Source: `audio/sysvad/APO/InterAPO/InterAPOMFX.cpp`.

Conventions of the embedding

* `UINT32`, `ULONG` values are natural numbers, `LONG` and `HRESULT` values are integers; the
  one conversion the code performs between them (`ULONG` to `LONG`) is written out with
  `% 2 ^ 32`.
* `FLOAT32` values are the rational numbers that finite binary32 numbers denote; an arithmetic
  result is rounded explicitly with `roundF32`.
* Sample memory is a map from `FLOAT32*` addresses (counted in samples) to samples, so that an
  input and an output buffer may be the same region, disjoint regions, or overlap.
* Calls that leave the translation unit (the property store, the allocator, the signal
  processing routines declared in `InterAPO.h`) are parameters of the embedding.
-/

namespace SysVAD

/-! ## Windows base types -/

abbrev HRESULT := Int
abbrev LONG := Int
abbrev UINT32 := Nat
abbrev ULONG := Nat
abbrev HNSTIME := Int
abbrev HANDLE := Nat

def S_OK : HRESULT := 0
def S_FALSE : HRESULT := 1
/-- The value 0x80004003 as a signed 32-bit number. -/
def E_POINTER : HRESULT := -2147467261
/-- The value 0x80070057 as a signed 32-bit number. -/
def E_INVALIDARG : HRESULT := -2147024809
/-- The value 0x8007000E as a signed 32-bit number. -/
def E_OUTOFMEMORY : HRESULT := -2147024882

def SUCCEEDED (hr : HRESULT) : Bool := decide (0 ≤ hr)
def FAILED (hr : HRESULT) : Bool := decide (hr < 0)

/-- The implicit conversion of a `ULONG` to a `LONG`: the same 32 bits read as two's complement. -/
def LONG_of_ULONG (u : ULONG) : LONG :=
  if u % 2 ^ 32 < 2 ^ 31 then ((u % 2 ^ 32 : Nat) : Int) else ((u % 2 ^ 32 : Nat) : Int) - 2 ^ 32

/-- A 128-bit identifier. -/
structure GUID where
  Data : Nat
deriving DecidableEq

def IsEqualGUID (a b : GUID) : Bool := decide (a = b)

def GUID_NULL : GUID := ⟨0⟩
def AUDIO_SIGNALPROCESSINGMODE_DEFAULT : GUID := ⟨0xC18E2F7E933D4965B7D11EEF228D2AF3⟩
def AUDIO_SIGNALPROCESSINGMODE_RAW : GUID := ⟨0x9E90EA20B4934FD1A1A87E1361A956CF⟩
def AUDIO_SIGNALPROCESSINGMODE_COMMUNICATIONS : GUID := ⟨0x98951333B9CD48B1A0A3FF40682D73F7⟩
def AUDIO_SIGNALPROCESSINGMODE_SPEECH : GUID := ⟨0xFC1CFC9BB9D64CFAB5E04BB2166878B2⟩
def AUDIO_SIGNALPROCESSINGMODE_MEDIA : GUID := ⟨0x4780004E713341D88C74660DADD2C0EE⟩
def AUDIO_SIGNALPROCESSINGMODE_MOVIE : GUID := ⟨0xB26FEB0DEC94477C9494D1AB8E753F6E⟩

structure PROPERTYKEY where
  fmtid : GUID
  pid : Nat
deriving DecidableEq

def PK_EQUAL (a b : PROPERTYKEY) : Bool := decide (a.fmtid = b.fmtid) && decide (a.pid = b.pid)

/-- The master switch of Windows that turns every system effect off. -/
def PKEY_AudioEndpoint_Disable_SysFx : PROPERTYKEY := ⟨⟨0x1DA5D803D4924EDD8C23E0C0FFEE7F0E⟩, 5⟩

def VT_EMPTY : Nat := 0
def VT_UI4 : Nat := 19

/-- The two members of a `PROPVARIANT` that the code reads. -/
structure PROPVARIANT where
  vt : Nat
  ulVal : ULONG
deriving DecidableEq

/-- A property store, as far as the code uses it: `GetValue` gives a result code and a value.
A key that the store does not hold reads as `S_OK` with a `VT_EMPTY` value. -/
structure IPropertyStore where
  GetValue : PROPERTYKEY → HRESULT × PROPVARIANT

/-! ## GetCurrentEffectsSetting -/

/-- The effective value of one control: the code of `GetCurrentEffectsSetting`, statement by
statement. -/
def GetCurrentEffectsSetting (properties : IPropertyStore) (pkeyEnable : PROPERTYKEY)
    (processingMode : GUID) : LONG :=
  let currentValue : LONG := 0
  -- Check the master disable property defined by Windows
  let r := properties.GetValue PKEY_AudioEndpoint_Disable_SysFx
  let enabled : Bool := SUCCEEDED r.1 && !(decide (r.2.vt = VT_UI4) && decide (r.2.ulVal ≠ 0))
  -- Check the APO's enable property, defined by this APO.
  let r := properties.GetValue pkeyEnable
  let enabled : Bool :=
    enabled && (SUCCEEDED r.1 && (decide (r.2.vt = VT_UI4) && decide (r.2.ulVal ≠ 0)))
  let currentValue : LONG := if enabled then LONG_of_ULONG r.2.ulVal else currentValue
  let enabled : Bool := enabled && !IsEqualGUID processingMode AUDIO_SIGNALPROCESSINGMODE_RAW
  let currentValue : LONG := if !enabled then 0 else currentValue
  currentValue

/-- The master disable flag reads as true: the read succeeds with a non-zero `VT_UI4`. -/
def masterDisableSet (properties : IPropertyStore) : Prop :=
  SUCCEEDED (properties.GetValue PKEY_AudioEndpoint_Disable_SysFx).1 = true ∧
    (properties.GetValue PKEY_AudioEndpoint_Disable_SysFx).2.vt = VT_UI4 ∧
    (properties.GetValue PKEY_AudioEndpoint_Disable_SysFx).2.ulVal ≠ 0

/-- The master disable flag reads as false or absent: the read succeeds and the value is not a
non-zero `VT_UI4` (an absent key reads as `VT_EMPTY`). -/
def masterDisableFalseOrAbsent (properties : IPropertyStore) : Prop :=
  SUCCEEDED (properties.GetValue PKEY_AudioEndpoint_Disable_SysFx).1 = true ∧
    ¬ ((properties.GetValue PKEY_AudioEndpoint_Disable_SysFx).2.vt = VT_UI4 ∧
      (properties.GetValue PKEY_AudioEndpoint_Disable_SysFx).2.ulVal ≠ 0)

/-- The control's own value is set: the read succeeds with a non-zero `VT_UI4`. -/
def controlSet (properties : IPropertyStore) (pkeyEnable : PROPERTYKEY) : Prop :=
  SUCCEEDED (properties.GetValue pkeyEnable).1 = true ∧
    (properties.GetValue pkeyEnable).2.vt = VT_UI4 ∧ (properties.GetValue pkeyEnable).2.ulVal ≠ 0

/-- The raw value a control's key holds, as the `LONG` the code returns. -/
def rawControlValue (properties : IPropertyStore) (pkeyEnable : PROPERTYKEY) : LONG :=
  LONG_of_ULONG (properties.GetValue pkeyEnable).2.ulVal

/-! ## Sample memory and the buffer helpers of the audio engine -/

/-- A finite binary32 value, as the rational number it denotes. -/
abbrev FLOAT32 := ℚ

/-- Sample memory: the sample stored at each `FLOAT32*` address (addresses count samples). -/
abbrev Memory := Nat → FLOAT32

/-- Helper `WriteSilence` of the audio engine base class (`baseaudioprocessingobject.h`):
zero-fills `u32FrameCount * u32SamplesPerFrame` samples starting at `pf32Frames`. -/
def WriteSilence (pf32Frames : Nat) (u32FrameCount u32SamplesPerFrame : UINT32)
    (mem : Memory) : Memory :=
  fun a =>
    if pf32Frames ≤ a ∧ a < pf32Frames + u32FrameCount * u32SamplesPerFrame then 0 else mem a

/-- Helper `CopyFrames` of the audio engine base class (`baseaudioprocessingobject.h`): copies
`u32FrameCount * u32SamplesPerFrame` samples from `pf32InFrames` to `pf32OutFrames`. -/
def CopyFrames (pf32OutFrames pf32InFrames : Nat) (u32FrameCount u32SamplesPerFrame : UINT32)
    (mem : Memory) : Memory :=
  fun a =>
    if pf32OutFrames ≤ a ∧ a < pf32OutFrames + u32FrameCount * u32SamplesPerFrame then
      mem (pf32InFrames + (a - pf32OutFrames))
    else mem a

def BUFFER_INVALID : UINT32 := 0
def BUFFER_VALID : UINT32 := 1
def BUFFER_SILENT : UINT32 := 2

/-- The per-call descriptor of one connection buffer. -/
structure APO_CONNECTION_PROPERTY where
  pBuffer : Nat
  u32ValidFrameCount : UINT32
  u32BufferFlags : UINT32
deriving DecidableEq

/-! ## Declarations of `InterAPO.h` and `CustomPropKeys.h` -/

/-- The property keys of `CustomPropKeys.h` that this file names. The header is not part of the
translation unit, so the keys are parameters. -/
structure CustomPropKeys where
  PKEY_Endpoint_Enable_Interface_MFX : PROPERTYKEY
  PKEY_Endpoint_Inter_Gain_Level_MFX : PROPERTYKEY
  PKEY_Endpoint_Inter_EQ_Low_MFX : PROPERTYKEY
  PKEY_Endpoint_Inter_EQ_Mid_MFX : PROPERTYKEY
  PKEY_Endpoint_Inter_EQ_High_MFX : PROPERTYKEY
  PKEY_Endpoint_Inter_EQ_Low_SFX : PROPERTYKEY
  PKEY_Endpoint_Inter_EQ_Mid_SFX : PROPERTYKEY
  PKEY_Endpoint_Inter_EQ_High_SFX : PROPERTYKEY

/-- What `InterAPOMFX.cpp` uses from `InterAPO.h` without defining it: the two signal
processing routines, `BiQuadFilter::Prepare`, the `HNS_INTER` constant and the sizes of the two
initialisation structures. `BiQuadFilter` is the state of one filter. A routine gets the
arguments of its call and the sample memory, and gives the memory it leaves behind. -/
structure InterAPO_h (BiQuadFilter : Type) where
  GainControl : (pf32OutputFrames pf32InputFrames : Nat) → (u32ValidFrameCount : UINT32) →
    (u32SamplesPerFrame : UINT32) → (gain : LONG) → Memory → Memory
  Equalizer : (pf32OutputFrames pf32InputFrames : Nat) → (u32ValidFrameCount : UINT32) →
    (u32SamplesPerFrame : UINT32) → BiQuadFilter → Memory → Memory × BiQuadFilter
  Prepare : BiQuadFilter → LONG → BiQuadFilter
  HNS_INTER : HNSTIME
  sizeof_APOInitSystemEffects : UINT32
  sizeof_APOInitSystemEffects2 : UINT32
  keys : CustomPropKeys

/-! ## The object -/

/-- The three filters of the equalizer member `m_EqMFX`. -/
structure CEqualizer (BiQuadFilter : Type) where
  m_LowFilter : BiQuadFilter
  m_MidFilter : BiQuadFilter
  m_HighFilter : BiQuadFilter

/-- The members of `CInterAPOMFX` (and of its base class) that the code reads or writes. A null
pointer is `none`. -/
structure CInterAPOMFX (BiQuadFilter : Type) where
  m_bIsLocked : Bool
  m_bIsInitialized : Bool
  m_u32SamplesPerFrame : UINT32
  m_AudioProcessingMode : GUID
  m_fEnableInterMFX : LONG
  m_iInterGainMFX : LONG
  m_iInterEqLowMFX : LONG
  m_iInterEqMidMFX : LONG
  m_iInterEqHighMFX : LONG
  m_EqMFX : CEqualizer BiQuadFilter
  m_pf32Coefficients : Option (List FLOAT32)
  m_spAPOSystemEffectsProperties : Option IPropertyStore
  m_hEffectsChangedEvent : Option HANDLE
  m_spEnumerator : Bool
  m_pf32InterBuffer : Option (List FLOAT32) := none
  m_nInterFrames : UINT32 := 0
  m_iInterIndex : UINT32 := 0

/-- Accessor `GetSamplesPerFrame` of the base class. -/
def GetSamplesPerFrame {B : Type} (this : CInterAPOMFX B) : UINT32 := this.m_u32SamplesPerFrame

/-! ## APOProcess -/

/-- What one `APOProcess` call leaves behind: the object (its filters), the output connection
descriptor and the sample memory. The input descriptor is only read. -/
structure ProcessResult (BiQuadFilter : Type) where
  this : CInterAPOMFX BiQuadFilter
  output : APO_CONNECTION_PROPERTY
  mem : Memory

/-- The silence step of `APOProcess`: a Silent input block is zero-filled in place. -/
def APOProcess_silence {B : Type} (this : CInterAPOMFX B) (input : APO_CONNECTION_PROPERTY)
    (mem : Memory) : Memory :=
  if BUFFER_SILENT = input.u32BufferFlags then
    WriteSilence input.pBuffer input.u32ValidFrameCount (GetSamplesPerFrame this) mem
  else mem

/-- The chain branch of `APOProcess`: gain, then the three equalizer bands in place. -/
def APOProcess_chain {B : Type} (h : InterAPO_h B) (this : CInterAPOMFX B)
    (input output : APO_CONNECTION_PROPERTY) (mem : Memory) : ProcessResult B :=
  let pf32InputFrames := input.pBuffer
  let pf32OutputFrames := output.pBuffer
  let mem := h.GainControl pf32OutputFrames pf32InputFrames input.u32ValidFrameCount
    (GetSamplesPerFrame this) this.m_iInterGainMFX mem
  let pf32InputFrames := pf32OutputFrames
  let r := h.Equalizer pf32OutputFrames pf32InputFrames input.u32ValidFrameCount
    (GetSamplesPerFrame this) this.m_EqMFX.m_LowFilter mem
  let mem := r.1
  let this := { this with m_EqMFX := { this.m_EqMFX with m_LowFilter := r.2 } }
  let pf32InputFrames := pf32OutputFrames
  let r := h.Equalizer pf32OutputFrames pf32InputFrames input.u32ValidFrameCount
    (GetSamplesPerFrame this) this.m_EqMFX.m_MidFilter mem
  let mem := r.1
  let this := { this with m_EqMFX := { this.m_EqMFX with m_MidFilter := r.2 } }
  let pf32InputFrames := pf32OutputFrames
  let r := h.Equalizer pf32OutputFrames pf32InputFrames input.u32ValidFrameCount
    (GetSamplesPerFrame this) this.m_EqMFX.m_HighFilter mem
  let mem := r.1
  let this := { this with m_EqMFX := { this.m_EqMFX with m_HighFilter := r.2 } }
  -- we don't try to remember silence
  let output := { output with u32BufferFlags := BUFFER_VALID }
  ⟨this, output, mem⟩

/-- The other branch of `APOProcess`: copy the frames if there is an output connection and the
buffer pointers differ, and pass the buffer flags along. -/
def APOProcess_passthrough {B : Type} (this : CInterAPOMFX B) (u32NumOutputConnections : UINT32)
    (input output : APO_CONNECTION_PROPERTY) (mem : Memory) : ProcessResult B :=
  let mem :=
    if 0 ≠ u32NumOutputConnections ∧ output.pBuffer ≠ input.pBuffer then
      CopyFrames output.pBuffer input.pBuffer input.u32ValidFrameCount (GetSamplesPerFrame this) mem
    else mem
  let output := { output with u32BufferFlags := input.u32BufferFlags }
  ⟨this, output, mem⟩

/-- The test of `APOProcess` that selects the chain: the mode is not Raw and `m_fEnableInterMFX`
is non-zero. -/
def chainRuns {B : Type} (this : CInterAPOMFX B) : Bool :=
  (!IsEqualGUID this.m_AudioProcessingMode AUDIO_SIGNALPROCESSINGMODE_RAW) &&
    decide (this.m_fEnableInterMFX ≠ 0)

/-- The method `APOProcess` on its first input and first output connection (release build: the
assertions are compiled out). -/
def APOProcess {B : Type} (h : InterAPO_h B) (this : CInterAPOMFX B)
    (_u32NumInputConnections : UINT32) (input : APO_CONNECTION_PROPERTY)
    (u32NumOutputConnections : UINT32) (output : APO_CONNECTION_PROPERTY)
    (mem : Memory) : ProcessResult B :=
  if input.u32BufferFlags = BUFFER_INVALID then
    -- invalid flag - should never occur.  don't do anything.
    ⟨this, output, mem⟩
  else if input.u32BufferFlags = BUFFER_VALID ∨ input.u32BufferFlags = BUFFER_SILENT then
    let mem := APOProcess_silence this input mem
    let r :=
      if chainRuns this then APOProcess_chain h this input output mem
      else APOProcess_passthrough this u32NumOutputConnections input output mem
    -- Set the valid frame count.
    { r with output := { r.output with u32ValidFrameCount := input.u32ValidFrameCount } }
  else
    -- invalid flag - should never occur
    ⟨this, output, mem⟩

/-! ## GetLatency -/

/-- The method `GetLatency`. The out-parameter `pTime` is `none` for a null pointer and holds
the pointed-to value otherwise; the result is the return code and the value left there. -/
def GetLatency {B : Type} (h : InterAPO_h B) (this : CInterAPOMFX B) (pTime : Option HNSTIME) :
    HRESULT × Option HNSTIME :=
  match pTime with
  | none => (E_POINTER, none)
  | some _ =>
    if IsEqualGUID this.m_AudioProcessingMode AUDIO_SIGNALPROCESSINGMODE_RAW then
      (S_OK, some 0)
    else
      (S_OK, some (if this.m_fEnableInterMFX ≠ 0 then h.HNS_INTER else 0))

/-! ## OnPropertyValueChanged -/

/-- The five `LONG` members that the `controls` table of `OnPropertyValueChanged` points to. -/
inductive ControlMember where
  | m_fEnableInterMFX
  | m_iInterGainMFX
  | m_iInterEqLowMFX
  | m_iInterEqMidMFX
  | m_iInterEqHighMFX
deriving DecidableEq

/-- The three filters that the `controls` table points to. -/
inductive FilterMember where
  | m_LowFilter
  | m_MidFilter
  | m_HighFilter
deriving DecidableEq

/-- Reading through a `LONG*` of the table. -/
def ControlMember.read {B : Type} (this : CInterAPOMFX B) : ControlMember → LONG
  | .m_fEnableInterMFX => this.m_fEnableInterMFX
  | .m_iInterGainMFX => this.m_iInterGainMFX
  | .m_iInterEqLowMFX => this.m_iInterEqLowMFX
  | .m_iInterEqMidMFX => this.m_iInterEqMidMFX
  | .m_iInterEqHighMFX => this.m_iInterEqHighMFX

/-- Writing through a `LONG*` of the table. -/
def ControlMember.write {B : Type} (this : CInterAPOMFX B) (v : LONG) :
    ControlMember → CInterAPOMFX B
  | .m_fEnableInterMFX => { this with m_fEnableInterMFX := v }
  | .m_iInterGainMFX => { this with m_iInterGainMFX := v }
  | .m_iInterEqLowMFX => { this with m_iInterEqLowMFX := v }
  | .m_iInterEqMidMFX => { this with m_iInterEqMidMFX := v }
  | .m_iInterEqHighMFX => { this with m_iInterEqHighMFX := v }

/-- Reading a filter through a `BiQuadFilter*` of the table. -/
def FilterMember.read {B : Type} (this : CInterAPOMFX B) : FilterMember → B
  | .m_LowFilter => this.m_EqMFX.m_LowFilter
  | .m_MidFilter => this.m_EqMFX.m_MidFilter
  | .m_HighFilter => this.m_EqMFX.m_HighFilter

/-- The call `filter->Prepare(v)` through a `BiQuadFilter*` of the table. -/
def FilterMember.Prepare {B : Type} (h : InterAPO_h B) (this : CInterAPOMFX B) (v : LONG) :
    FilterMember → CInterAPOMFX B
  | .m_LowFilter =>
    { this with m_EqMFX := { this.m_EqMFX with m_LowFilter := h.Prepare this.m_EqMFX.m_LowFilter v } }
  | .m_MidFilter =>
    { this with m_EqMFX := { this.m_EqMFX with m_MidFilter := h.Prepare this.m_EqMFX.m_MidFilter v } }
  | .m_HighFilter =>
    { this with m_EqMFX := { this.m_EqMFX with m_HighFilter := h.Prepare this.m_EqMFX.m_HighFilter v } }

/-- One row of the `controls` table: property key, stored value, filter (or null). -/
structure KeyControl where
  key : PROPERTYKEY
  value : ControlMember
  filter : Option FilterMember

/-- The `controls` table of `OnPropertyValueChanged`, with the keys the source names. -/
def controls (k : CustomPropKeys) : List KeyControl :=
  [ ⟨k.PKEY_Endpoint_Enable_Interface_MFX, .m_fEnableInterMFX, none⟩,
    ⟨k.PKEY_Endpoint_Inter_Gain_Level_MFX, .m_iInterGainMFX, none⟩,
    ⟨k.PKEY_Endpoint_Inter_EQ_Low_SFX, .m_iInterEqLowMFX, some .m_LowFilter⟩,
    ⟨k.PKEY_Endpoint_Inter_EQ_Mid_SFX, .m_iInterEqMidMFX, some .m_MidFilter⟩,
    ⟨k.PKEY_Endpoint_Inter_EQ_High_SFX, .m_iInterEqHighMFX, some .m_HighFilter⟩ ]

/-- The state of the loop of `OnPropertyValueChanged`: the object and `nChanges`. -/
structure ChangeLoop (BiQuadFilter : Type) where
  this : CInterAPOMFX BiQuadFilter
  nChanges : LONG

/-- One iteration of the loop of `OnPropertyValueChanged` over the `controls` table. -/
def OnPropertyValueChanged_body {B : Type} (h : InterAPO_h B) (properties : IPropertyStore)
    (st : ChangeLoop B) (c : KeyControl) : ChangeLoop B :=
  -- Get the registry values for the current processing mode
  let fNewValue := GetCurrentEffectsSetting properties c.key st.this.m_AudioProcessingMode
  -- InterlockedExchange: store the new value, get the old one
  let fOldValue := c.value.read st.this
  let this := c.value.write st.this fNewValue
  if fNewValue ≠ fOldValue then
    let this :=
      match c.filter with
      | some f => f.Prepare h this fNewValue
      | none => this
    ⟨this, st.nChanges + 1⟩
  else ⟨this, st.nChanges⟩

/-- What `OnPropertyValueChanged` leaves behind: the return code, the object, and `nSetEvent`,
the number of `SetEvent` calls made on the effects-changed handle. -/
structure ChangeResult (BiQuadFilter : Type) where
  hr : HRESULT
  this : CInterAPOMFX BiQuadFilter
  nSetEvent : LONG

/-- The method `OnPropertyValueChanged` (the device id is unreferenced). -/
def OnPropertyValueChanged {B : Type} (h : InterAPO_h B) (this : CInterAPOMFX B)
    (key : PROPERTYKEY) : ChangeResult B :=
  match this.m_spAPOSystemEffectsProperties with
  | none => ⟨S_OK, this, 0⟩
  | some properties =>
    -- If either the master disable or our APO's enable properties changed...
    if PK_EQUAL key h.keys.PKEY_Endpoint_Enable_Interface_MFX ||
        PK_EQUAL key PKEY_AudioEndpoint_Disable_SysFx then
      let st := (controls h.keys).foldl (OnPropertyValueChanged_body h properties) ⟨this, 0⟩
      -- If anything changed and a change event handle exists
      let nSetEvent : LONG :=
        if 0 < st.nChanges ∧ st.this.m_hEffectsChangedEvent ≠ none then 1 else 0
      ⟨S_OK, st.this, nSetEvent⟩
    else ⟨S_OK, this, 0⟩

/-! ## Initialize -/

/-- The initialisation data `pbyData` points to, read as an `APOInitSystemEffects2`. The legacy
`APOInitSystemEffects` is its prefix: it has the property store and the device collection and
ends before the processing mode; of it `Initialize` reads the property store only. -/
structure APOInitSystemEffects2 where
  pAPOSystemEffectsProperties : Option IPropertyStore
  pDeviceCollection : Option Nat
  AudioProcessingMode : GUID

/-- The block of `Initialize` under "Get current effects settings". -/
def Initialize_settings {B : Type} (h : InterAPO_h B) (this : CInterAPOMFX B) : CInterAPOMFX B :=
  match this.m_spAPOSystemEffectsProperties with
  | none => this
  | some properties =>
    let this := { this with m_fEnableInterMFX :=
      (GetCurrentEffectsSetting properties h.keys.PKEY_Endpoint_Enable_Interface_MFX this.m_AudioProcessingMode) }
    let this := { this with m_iInterGainMFX :=
      (GetCurrentEffectsSetting properties h.keys.PKEY_Endpoint_Inter_Gain_Level_MFX this.m_AudioProcessingMode) }
    let this := { this with m_iInterEqLowMFX :=
      (GetCurrentEffectsSetting properties h.keys.PKEY_Endpoint_Inter_EQ_Low_MFX this.m_AudioProcessingMode) }
    let this := { this with m_iInterEqMidMFX :=
      (GetCurrentEffectsSetting properties h.keys.PKEY_Endpoint_Inter_EQ_Mid_MFX this.m_AudioProcessingMode) }
    let this := { this with m_iInterEqHighMFX :=
      (GetCurrentEffectsSetting properties h.keys.PKEY_Endpoint_Inter_EQ_High_MFX this.m_AudioProcessingMode) }
    let this := FilterMember.Prepare h this this.m_iInterEqLowMFX .m_LowFilter
    let this := FilterMember.Prepare h this this.m_iInterEqMidMFX .m_MidFilter
    let this := FilterMember.Prepare h this this.m_iInterEqHighMFX .m_HighFilter
    this

/-- The part of `Initialize` after the initialisation data has been read: validate and save the
processing mode, read the settings, register for notifications. `hrCoCreateInstance` and
`hrRegister` are the results of the two calls into the device enumerator. -/
def Initialize_tail {B : Type} (h : InterAPO_h B) (this : CInterAPOMFX B) (processingMode : GUID)
    (hrCoCreateInstance hrRegister : HRESULT) : HRESULT × CInterAPOMFX B :=
  if processingMode ≠ AUDIO_SIGNALPROCESSINGMODE_DEFAULT ∧
      processingMode ≠ AUDIO_SIGNALPROCESSINGMODE_RAW ∧
      processingMode ≠ AUDIO_SIGNALPROCESSINGMODE_COMMUNICATIONS ∧
      processingMode ≠ AUDIO_SIGNALPROCESSINGMODE_SPEECH ∧
      processingMode ≠ AUDIO_SIGNALPROCESSINGMODE_MEDIA ∧
      processingMode ≠ AUDIO_SIGNALPROCESSINGMODE_MOVIE then
    (E_INVALIDARG, this)
  else
    let this := { this with m_AudioProcessingMode := processingMode }
    let this := Initialize_settings h this
    -- Register for notification of registry updates
    let this := { this with m_spEnumerator := SUCCEEDED hrCoCreateInstance }
    if FAILED hrCoCreateInstance then (hrCoCreateInstance, this)
    else if FAILED hrRegister then (hrRegister, this)
    else (hrRegister, { this with m_bIsInitialized := true })

/-- The method `Initialize`. A null `pbyData` is `none`. -/
def Initialize {B : Type} (h : InterAPO_h B) (this : CInterAPOMFX B) (cbDataSize : UINT32)
    (pbyData : Option APOInitSystemEffects2) (hrCoCreateInstance hrRegister : HRESULT) :
    HRESULT × CInterAPOMFX B :=
  if pbyData.isNone ∧ 0 ≠ cbDataSize then (E_INVALIDARG, this)
  else if pbyData.isSome ∧ 0 = cbDataSize then (E_INVALIDARG, this)
  else if cbDataSize = h.sizeof_APOInitSystemEffects2 then
    match pbyData with
    | none =>
      -- not reached: a null pointer comes this far with size 0 only, and the structure is
      -- not empty
      (E_INVALIDARG, this)
    | some init =>
      -- Initialize for mode-specific signal processing
      let this := { this with m_spAPOSystemEffectsProperties := init.pAPOSystemEffectsProperties }
      if init.pDeviceCollection = none then (E_INVALIDARG, this)
      else
        -- ProprietaryCommunicationWithDriver works on locals only and its result is dropped
        Initialize_tail h this init.AudioProcessingMode hrCoCreateInstance hrRegister
  else if cbDataSize = h.sizeof_APOInitSystemEffects then
    match pbyData with
    | none => (E_INVALIDARG, this)
    | some init =>
      -- Initialize for default signal processing
      let this := { this with m_spAPOSystemEffectsProperties := init.pAPOSystemEffectsProperties }
      Initialize_tail h this AUDIO_SIGNALPROCESSINGMODE_DEFAULT hrCoCreateInstance hrRegister
  else
    -- Invalid initialization size
    (E_INVALIDARG, this)

/-! ## Binary32 arithmetic -/

/-- Rounding of a rational to the nearest integer, a tie going to the even one. -/
def roundHalfEven (q : ℚ) : ℤ :=
  if q - ⌊q⌋ < 1 / 2 then ⌊q⌋
  else if 1 / 2 < q - ⌊q⌋ then ⌊q⌋ + 1
  else if ⌊q⌋ % 2 = 0 then ⌊q⌋ else ⌊q⌋ + 1

/-- The binary exponent of a non-zero value: the `e` with `2 ^ e ≤ |x| < 2 ^ (e + 1)`, and
the smallest normal exponent -126 for the values below it (the subnormal range). -/
def binade (x : ℚ) : ℤ := max (Int.log 2 |x|) (-126)

/-- Rounding to binary32, to nearest with ties to even: 24 significant bits at the exponent of
the value. Values beyond the largest binary32 number are not clipped; no operation of this file
reaches them. -/
def roundF32 (x : ℚ) : FLOAT32 :=
  if x = 0 then 0 else roundHalfEven (x / 2 ^ (binade x - 23)) * 2 ^ (binade x - 23)

/-- Conversion of a `UINT32` to `FLOAT32`. -/
def F32_of_UINT32 (n : UINT32) : FLOAT32 := roundF32 n

/-- Quotient of two `FLOAT32`, rounded. -/
def F32_div (a b : FLOAT32) : FLOAT32 := roundF32 (a / b)

/-- Product of two `FLOAT32`, rounded. -/
def F32_mul (a b : FLOAT32) : FLOAT32 := roundF32 (a * b)

/-- Difference of two `FLOAT32`, rounded. -/
def F32_sub (a b : FLOAT32) : FLOAT32 := roundF32 (a - b)

/-! ## ValidateAndCacheConnectionInfo -/

/-- The two members of an `UNCOMPRESSEDAUDIOFORMAT` that the code names. -/
structure UNCOMPRESSEDAUDIOFORMAT where
  dwSamplesPerFrame : UINT32
  fFramesPerSecond : FLOAT32

/-- A connection descriptor, as far as the code uses it: what
`pFormat->GetUncompressedAudioFormat` gives. -/
structure APO_CONNECTION_DESCRIPTOR where
  GetUncompressedAudioFormat : HRESULT × UNCOMPRESSEDAUDIOFORMAT

/-- The value the loop of `ValidateAndCacheConnectionInfo` stores at `u32Index`:
`1.0f - f32InverseChannelCount * u32Index`. -/
def coefficientAt (f32InverseChannelCount : FLOAT32) (u32Index : UINT32) : FLOAT32 :=
  F32_sub 1 (F32_mul f32InverseChannelCount (F32_of_UINT32 u32Index))

/-- The method `ValidateAndCacheConnectionInfo` on its first input and first output connection
(release build: the assertions are compiled out). `hrAllocate` is the result of `AERT_Allocate`,
which leaves a null pointer behind when it fails. -/
def ValidateAndCacheConnectionInfo {B : Type} (this : CInterAPOMFX B)
    (inputConnection outputConnection : APO_CONNECTION_DESCRIPTOR) (hrAllocate : HRESULT) :
    HRESULT × CInterAPOMFX B :=
  -- get the uncompressed formats and channel masks
  let hResult := inputConnection.GetUncompressedAudioFormat.1
  if FAILED hResult then (hResult, this)
  else
    let hResult := outputConnection.GetUncompressedAudioFormat.1
    if FAILED hResult then (hResult, this)
    else
      -- Allocate some locked memory.
      let hResult := hrAllocate
      if FAILED hResult then (hResult, { this with m_pf32Coefficients := none })
      else
        -- Set scalars to decrease volume from 1.0 to 1.0/N
        let f32InverseChannelCount := F32_div 1 (F32_of_UINT32 this.m_u32SamplesPerFrame)
        let coefficients :=
          (List.range this.m_u32SamplesPerFrame).map (coefficientAt f32InverseChannelCount)
        (hResult, { this with m_pf32Coefficients := some coefficients })

/-! ## Calls into the system -/

/-- One call the code makes on the effects lock, the handle table or an allocator, one
`WriteSilence` on a heap buffer, or one step of the notification handler on the shared state
(a store into a control through `InterlockedExchange`, a `Prepare` of a filter, the `SetEvent`
on the effects-changed handle); a method's calls are listed in the order it makes them. -/
inductive Call where
  | EffectsLock_Enter
  | EffectsLock_Leave
  | InterlockedExchange (target : ControlMember) (value : LONG)
  | Prepare (filter : FilterMember) (value : LONG)
  | SetEvent (h : HANDLE)
  | CloseHandle (h : HANDLE)
  | DuplicateHandle (source : HANDLE) (result : Option HANDLE)
  | CoTaskMemAlloc (succeeded : Bool)
  | CoTaskMemFree
  | AERT_Allocate (hr : HRESULT)
  | AERT_Free
  | WriteSilence (nullTarget : Bool) (samples : Nat)
  | UnregisterEndpointNotificationCallback
deriving DecidableEq

/-- The handle calls among a method's calls. -/
def Call.isHandleCall : Call → Bool
  | .CloseHandle _ => true
  | .DuplicateHandle _ _ => true
  | _ => false

/-- The number of duplicated event handles held open after the calls, `held` before them: a
`CloseHandle` releases one, a `DuplicateHandle` that succeeds adds one. -/
def heldHandles (held : Nat) : List Call → Nat
  | [] => held
  | .CloseHandle _ :: cs => heldHandles (held - 1) cs
  | .DuplicateHandle _ (some _) :: cs => heldHandles (held + 1) cs
  | _ :: cs => heldHandles held cs

/-- The number of locked memory blocks the calls allocate: the `AERT_Allocate` calls that
succeed. -/
def aertAllocated (calls : List Call) : Nat :=
  calls.countP (fun c => match c with
    | .AERT_Allocate hr => SUCCEEDED hr
    | _ => false)

/-- The number of locked memory blocks the calls free: the `AERT_Free` calls. -/
def aertFreed (calls : List Call) : Nat :=
  calls.countP (fun c => match c with
    | .AERT_Free => true
    | _ => false)

/-! ## GetEffectsList -/

/-- What `GetEffectsList` leaves behind: the return code, the object, the values at the two
out-parameters (`none` for a null pointer; `some none` is a null list) and the calls made. -/
structure EffectsListResult (BiQuadFilter : Type) where
  hr : HRESULT
  this : CInterAPOMFX BiQuadFilter
  ppEffectsIds : Option (Option (List GUID))
  pcEffects : Option UINT32
  calls : List Call

/-- The part of `GetEffectsList` in its naked scope: count the active effects, allocate and
fill the list, then leave the lock at `Exit`. `InterEffectId` is declared in a header. -/
def GetEffectsList_list {B : Type} (InterEffectId : GUID) (this : CInterAPOMFX B)
    (ppEffectsIds : Option (Option (List GUID))) (pcEffects : Option UINT32)
    (allocationSucceeds : Bool) (calls : List Call) : EffectsListResult B :=
  let list : List (GUID × LONG) := [(InterEffectId, this.m_fEnableInterMFX)]
  let cEffects : UINT32 :=
    if !IsEqualGUID this.m_AudioProcessingMode AUDIO_SIGNALPROCESSINGMODE_RAW then
      -- count the active effects
      list.countP (fun e => decide (e.2 ≠ 0))
    else 0
  if 0 = cEffects then
    ⟨S_OK, this, some none, some 0, calls ++ [Call.EffectsLock_Leave]⟩
  else
    let calls := calls ++ [Call.CoTaskMemAlloc allocationSucceeds]
    if !allocationSucceeds then
      ⟨E_OUTOFMEMORY, this, ppEffectsIds, pcEffects, calls ++ [Call.EffectsLock_Leave]⟩
    else
      -- pick up the active effects
      let pEffectsIds := (list.filter (fun e => decide (e.2 ≠ 0))).map (fun e => e.1)
      ⟨S_OK, this, some (some pEffectsIds), some cEffects, calls ++ [Call.EffectsLock_Leave]⟩

/-- The method `GetEffectsList`. A null pointer or handle is `none`; `duplicate` is the handle
`DuplicateHandle` gives (`none` when it fails), `hrLastError` the result code made from
`GetLastError` in that case, `allocationSucceeds` the outcome of `CoTaskMemAlloc`. -/
def GetEffectsList {B : Type} (InterEffectId : GUID) (this : CInterAPOMFX B)
    (ppEffectsIds : Option (Option (List GUID))) (pcEffects : Option UINT32)
    (Event : Option HANDLE) (duplicate : Option HANDLE) (hrLastError : HRESULT)
    (allocationSucceeds : Bool) : EffectsListResult B :=
  if ppEffectsIds.isNone then ⟨E_POINTER, this, ppEffectsIds, pcEffects, []⟩
  else if pcEffects.isNone then ⟨E_POINTER, this, ppEffectsIds, pcEffects, []⟩
  else
    -- Synchronize access to the effects list and effects changed event
    let calls := [Call.EffectsLock_Enter]
    -- Always close existing effects change event handle
    let calls :=
      match this.m_hEffectsChangedEvent with
      | some old => calls ++ [Call.CloseHandle old]
      | none => calls
    let this := { this with m_hEffectsChangedEvent := none }
    -- If an event handle was specified, save it here (duplicated to control lifetime)
    match Event with
    | none =>
      GetEffectsList_list InterEffectId this ppEffectsIds pcEffects allocationSucceeds calls
    | some event =>
      let calls := calls ++ [Call.DuplicateHandle event duplicate]
      match duplicate with
      | none =>
        ⟨hrLastError, this, ppEffectsIds, pcEffects, calls ++ [Call.EffectsLock_Leave]⟩
      | some d =>
        let this := { this with m_hEffectsChangedEvent := some d }
        GetEffectsList_list InterEffectId this ppEffectsIds pcEffects allocationSucceeds calls

/-! ## LockForProcess, UnlockForProcess and the destructor -/

/-- What a lock or the destructor leaves behind: the return code, the object and the calls
made. -/
structure LockResult (BiQuadFilter : Type) where
  hr : HRESULT
  this : CInterAPOMFX BiQuadFilter
  calls : List Call

/-- The allocator calls of `ValidateAndCacheConnectionInfo`: one `AERT_Allocate`, reached when
both format queries succeed. -/
def ValidateAndCacheConnectionInfo_calls
    (inputConnection outputConnection : APO_CONNECTION_DESCRIPTOR) (hrAllocate : HRESULT) :
    List Call :=
  if FAILED inputConnection.GetUncompressedAudioFormat.1 then []
  else if FAILED outputConnection.GetUncompressedAudioFormat.1 then []
  else [Call.AERT_Allocate hrAllocate]

/-- The value 0x887D0009 as a signed 32-bit number. -/
def APOERR_INVALID_CONNECTION_FORMAT : HRESULT := -2005073911

/-- Modelled from the spec: the validation of the connections that the base class method
`CBaseAudioProcessingObject::LockForProcess` makes before it calls
`ValidateAndCacheConnectionInfo`; the base class is not part of this source file. The spec has
the lock validate "that input and output share frame rate, channel count" and fail with a
format mismatch otherwise; the code returned is the one the source documents for
`LockForProcess`, `APOERR_INVALID_CONNECTION_FORMAT`. The sample representation, which the
spec also has validated, is not among the members of the format the code reads. -/
def CBaseAudioProcessingObject_ValidateConnections
    (inputConnection outputConnection : APO_CONNECTION_DESCRIPTOR) : HRESULT :=
  if outputConnection.GetUncompressedAudioFormat.2.fFramesPerSecond ≠
        inputConnection.GetUncompressedAudioFormat.2.fFramesPerSecond ∨
      outputConnection.GetUncompressedAudioFormat.2.dwSamplesPerFrame ≠
        inputConnection.GetUncompressedAudioFormat.2.dwSamplesPerFrame then
    APOERR_INVALID_CONNECTION_FORMAT
  else S_OK

/-- The base class method `CBaseAudioProcessingObject::LockForProcess`, as the comments of
this file describe it: the connections are first validated for conformance to the registration
properties (`hrConnections` is the result of that validation), then
`ValidateAndCacheConnectionInfo` is called and any failure code it passes back is returned;
otherwise the object is locked. -/
def CBaseAudioProcessingObject_LockForProcess {B : Type} (this : CInterAPOMFX B)
    (hrConnections : HRESULT) (inputConnection outputConnection : APO_CONNECTION_DESCRIPTOR)
    (hrAllocate : HRESULT) : LockResult B :=
  if FAILED hrConnections then ⟨hrConnections, this, []⟩
  else
    let r := ValidateAndCacheConnectionInfo this inputConnection outputConnection hrAllocate
    let calls := ValidateAndCacheConnectionInfo_calls inputConnection outputConnection hrAllocate
    if FAILED r.1 then ⟨r.1, r.2, calls⟩
    else ⟨r.1, { r.2 with m_bIsLocked := true }, calls⟩

/-- The base class method `CBaseAudioProcessingObject::UnlockForProcess`, which this class
does not override: it releases the lock. -/
def CBaseAudioProcessingObject_UnlockForProcess {B : Type} (this : CInterAPOMFX B) :
    CInterAPOMFX B :=
  { this with m_bIsLocked := false }

/-- The method `LockForProcess`. `nInterFrames` is the value of `FRAMES_FROM_HNS(HNS_INTER)`
and `interAllocationSucceeds` the outcome of `m_pf32InterBuffer.Allocate`; the other
parameters are those of the base class method. -/
def LockForProcess {B : Type} (this : CInterAPOMFX B) (hrConnections : HRESULT)
    (inputConnection outputConnection : APO_CONNECTION_DESCRIPTOR) (hrAllocate : HRESULT)
    (nInterFrames : UINT32) (interAllocationSucceeds : Bool) : LockResult B :=
  let r := CBaseAudioProcessingObject_LockForProcess this hrConnections inputConnection
    outputConnection hrAllocate
  if FAILED r.hr then r
  else
    let hr := r.hr
    let this := r.this
    let calls := r.calls
    if chainRuns this then
      let this := { this with m_nInterFrames := nInterFrames, m_iInterIndex := 0 }
      -- m_pf32InterBuffer.Free()
      let calls := if this.m_pf32InterBuffer.isSome then calls ++ [Call.CoTaskMemFree] else calls
      let this := { this with m_pf32InterBuffer := none }
      -- Allocate one second's worth of audio
      let calls := calls ++ [Call.CoTaskMemAlloc interAllocationSucceeds]
      -- WriteSilence on the buffer, before the test for null
      let calls := calls ++ [Call.WriteSilence (!interAllocationSucceeds)
        (this.m_nInterFrames * GetSamplesPerFrame this)]
      if interAllocationSucceeds then
        -- the element count is a UINT32 product
        let silence :=
          List.replicate ((GetSamplesPerFrame this * this.m_nInterFrames) % 2 ^ 32) (0 : FLOAT32)
        let this := { this with m_pf32InterBuffer := some silence }
        ⟨hr, this, calls⟩
      else ⟨E_OUTOFMEMORY, this, calls⟩
    else ⟨hr, this, calls⟩

/-- The destructor `~CInterAPOMFX`, followed by the destructor of the member
`m_pf32InterBuffer`, which frees its block. -/
def CInterAPOMFX_destructor {B : Type} (this : CInterAPOMFX B) : CInterAPOMFX B × List Call :=
  -- unregister for callbacks
  let calls : List Call :=
    if this.m_bIsInitialized ∧ this.m_spEnumerator = true then
      [Call.UnregisterEndpointNotificationCallback]
    else []
  let calls :=
    match this.m_hEffectsChangedEvent with
    | some event => calls ++ [Call.CloseHandle event]
    | none => calls
  -- Free locked memory allocations
  let calls := if this.m_pf32Coefficients.isSome then calls ++ [Call.AERT_Free] else calls
  let this := { this with m_pf32Coefficients := none }
  let calls := if this.m_pf32InterBuffer.isSome then calls ++ [Call.CoTaskMemFree] else calls
  let this := { this with m_pf32InterBuffer := none }
  (this, calls)

/-! ## The calls of OnPropertyValueChanged and the effects lock -/

/-- The calls of one iteration of the loop of `OnPropertyValueChanged`: the exchange, and the
`Prepare` of the row's filter if the value changed and the row has a filter. -/
def OnPropertyValueChanged_body_calls {B : Type} (_h : InterAPO_h B)
    (properties : IPropertyStore) (st : ChangeLoop B) (c : KeyControl) : List Call :=
  let fNewValue := GetCurrentEffectsSetting properties c.key st.this.m_AudioProcessingMode
  let fOldValue := c.value.read st.this
  let calls := [Call.InterlockedExchange c.value fNewValue]
  if fNewValue ≠ fOldValue then
    match c.filter with
    | some f => calls ++ [Call.Prepare f fNewValue]
    | none => calls
  else calls

/-- The calls of the loop of `OnPropertyValueChanged` over the rows still to visit. -/
def OnPropertyValueChanged_loop_calls {B : Type} (h : InterAPO_h B)
    (properties : IPropertyStore) : ChangeLoop B → List KeyControl → List Call
  | _, [] => []
  | st, c :: cs =>
    OnPropertyValueChanged_body_calls h properties st c ++
      OnPropertyValueChanged_loop_calls h properties
        (OnPropertyValueChanged_body h properties st c) cs

/-- The calls of `OnPropertyValueChanged`, in the order the method makes them. -/
def OnPropertyValueChanged_calls {B : Type} (h : InterAPO_h B) (this : CInterAPOMFX B)
    (key : PROPERTYKEY) : List Call :=
  match this.m_spAPOSystemEffectsProperties with
  | none => []
  | some properties =>
    if PK_EQUAL key h.keys.PKEY_Endpoint_Enable_Interface_MFX ||
        PK_EQUAL key PKEY_AudioEndpoint_Disable_SysFx then
      -- Synchronize access to the effects list and effects changed event
      let calls := [Call.EffectsLock_Enter]
      let calls := calls ++
        OnPropertyValueChanged_loop_calls h properties ⟨this, 0⟩ (controls h.keys)
      let st := (controls h.keys).foldl (OnPropertyValueChanged_body h properties) ⟨this, 0⟩
      -- If anything changed and a change event handle exists
      let calls :=
        match st.this.m_hEffectsChangedEvent with
        | some event => if 0 < st.nChanges then calls ++ [Call.SetEvent event] else calls
        | none => calls
      calls ++ [Call.EffectsLock_Leave]
    else []

/-- What a call does to the members of the object: an exchange stores the value, a `Prepare`
configures the filter; the other calls touch no member. -/
def Call.apply {B : Type} (h : InterAPO_h B) (this : CInterAPOMFX B) : Call → CInterAPOMFX B
  | .InterlockedExchange target value => target.write this value
  | .Prepare filter value => filter.Prepare h this value
  | _ => this

/-- The calls that change or signal the shared effects state. -/
def Call.isGuarded : Call → Bool
  | .InterlockedExchange _ _ => true
  | .Prepare _ _ => true
  | .SetEvent _ => true
  | _ => false

def Call.isSetEvent : Call → Bool
  | .SetEvent _ => true
  | _ => false

/-- The lock discipline read off a list of calls, `held` being the number of times the
effects lock is held before them: `none` if the lock is released while not held or a guarded
call is made while it is not held, and otherwise the number of times it is held at the end. -/
def lockScan (held : Nat) : List Call → Option Nat
  | [] => some held
  | .EffectsLock_Enter :: cs => lockScan (held + 1) cs
  | .EffectsLock_Leave :: cs => if held = 0 then none else lockScan (held - 1) cs
  | c :: cs => if c.isGuarded && decide (held = 0) then none else lockScan held cs

/-! ## Custom formats -/

def WAVE_FORMAT_EXTENSIBLE : Nat := 0xFFFE
def KSAUDIO_SPEAKER_STEREO : Nat := 3
def KSDATAFORMAT_SUBTYPE_PCM : GUID := ⟨0x00000001000000108000 * 2 ^ 48 + 0x00aa00389b71⟩
/-- The value of `sizeof(WAVEFORMATEXTENSIBLE)-sizeof(WAVEFORMATEX)`: 40 bytes less 18. -/
def sizeof_WAVEFORMATEXTENSIBLE_sub_sizeof_WAVEFORMATEX : Nat := 40 - 18

structure WAVEFORMATEX where
  wFormatTag : Nat
  nChannels : Nat
  nSamplesPerSec : Nat
  nAvgBytesPerSec : Nat
  nBlockAlign : Nat
  wBitsPerSample : Nat
  cbSize : Nat
deriving DecidableEq

structure WAVEFORMATEXTENSIBLE where
  Format : WAVEFORMATEX
  wValidBitsPerSample : Nat
  dwChannelMask : Nat
  SubFormat : GUID
deriving DecidableEq

structure CUSTOM_FORMAT_ITEM where
  wfxFmt : WAVEFORMATEXTENSIBLE
  pwszRep : String
deriving DecidableEq

/-- The table `_rgCustomFormats`: 44.1 kHz and 48 kHz, 16-bit stereo. -/
def _rgCustomFormats : List CUSTOM_FORMAT_ITEM :=
  [ ⟨⟨⟨WAVE_FORMAT_EXTENSIBLE, 2, 44100, 176400, 4, 16,
        sizeof_WAVEFORMATEXTENSIBLE_sub_sizeof_WAVEFORMATEX⟩, 16, KSAUDIO_SPEAKER_STEREO,
        KSDATAFORMAT_SUBTYPE_PCM⟩, "Custom #1 (really 44.1 KHz, 16-bit, stereo)"⟩,
    ⟨⟨⟨WAVE_FORMAT_EXTENSIBLE, 2, 48000, 192000, 4, 16,
        sizeof_WAVEFORMATEXTENSIBLE_sub_sizeof_WAVEFORMATEX⟩, 16, KSAUDIO_SPEAKER_STEREO,
        KSDATAFORMAT_SUBTYPE_PCM⟩, "Custom #2 (really 48 KHz, 16-bit, stereo)"⟩ ]

/-- The loop of `CheckCustomFormats` over the entries still to try; `hResult` is the value the
variable holds when the loop condition is tested. -/
def CheckCustomFormats_loop (waveFormat : WAVEFORMATEX) :
    List CUSTOM_FORMAT_ITEM → HRESULT → HRESULT
  | [], hResult => hResult
  | item :: rest, _ =>
    let hResult := S_OK
    let hResult :=
      if waveFormat.wFormatTag ≠ item.wfxFmt.Format.wFormatTag then S_FALSE else hResult
    let hResult :=
      if waveFormat.nChannels ≠ item.wfxFmt.Format.nChannels then S_FALSE else hResult
    let hResult :=
      if waveFormat.nSamplesPerSec ≠ item.wfxFmt.Format.nSamplesPerSec then S_FALSE else hResult
    let hResult :=
      if waveFormat.nAvgBytesPerSec ≠ item.wfxFmt.Format.nAvgBytesPerSec then S_FALSE
      else hResult
    let hResult :=
      if waveFormat.nBlockAlign ≠ item.wfxFmt.Format.nBlockAlign then S_FALSE else hResult
    let hResult :=
      if waveFormat.wBitsPerSample ≠ item.wfxFmt.Format.wBitsPerSample then S_FALSE else hResult
    let hResult :=
      if waveFormat.cbSize ≠ item.wfxFmt.Format.cbSize then S_FALSE else hResult
    if hResult = S_OK then hResult
    else CheckCustomFormats_loop waveFormat rest hResult

/-- The method `CheckCustomFormats`; `waveFormat` is what `pRequestedFormat->GetAudioFormat()`
points to. -/
def CheckCustomFormats (waveFormat : WAVEFORMATEX) : HRESULT :=
  CheckCustomFormats_loop waveFormat _rgCustomFormats S_OK

/-- The requested format equals a table entry on the seven compared fields. -/
def equalsOnSevenFields (waveFormat : WAVEFORMATEX) (item : CUSTOM_FORMAT_ITEM) : Prop :=
  waveFormat.wFormatTag = item.wfxFmt.Format.wFormatTag ∧
  waveFormat.nChannels = item.wfxFmt.Format.nChannels ∧
  waveFormat.nSamplesPerSec = item.wfxFmt.Format.nSamplesPerSec ∧
  waveFormat.nAvgBytesPerSec = item.wfxFmt.Format.nAvgBytesPerSec ∧
  waveFormat.nBlockAlign = item.wfxFmt.Format.nBlockAlign ∧
  waveFormat.wBitsPerSample = item.wfxFmt.Format.wBitsPerSample ∧
  waveFormat.cbSize = item.wfxFmt.Format.cbSize

instance (waveFormat : WAVEFORMATEX) (item : CUSTOM_FORMAT_ITEM) :
    Decidable (equalsOnSevenFields waveFormat item) := by
  unfold equalsOnSevenFields
  infer_instance

/-! ## Filters and levels -/

/-- Each band's filter is configured with the band's stored level: it is what a
`Prepare` call with that level leaves. -/
def filtersPrepared {B : Type} (h : InterAPO_h B) (this : CInterAPOMFX B) : Prop :=
  (∃ b, this.m_EqMFX.m_LowFilter = h.Prepare b this.m_iInterEqLowMFX) ∧
  (∃ b, this.m_EqMFX.m_MidFilter = h.Prepare b this.m_iInterEqMidMFX) ∧
  (∃ b, this.m_EqMFX.m_HighFilter = h.Prepare b this.m_iInterEqHighMFX)

/-! ## Concrete instances, for evaluating the definitions -/

/-- An assignment of eight pairwise different keys to the names of `CustomPropKeys.h`. -/
def exampleKeys : CustomPropKeys where
  PKEY_Endpoint_Enable_Interface_MFX := ⟨⟨1⟩, 1⟩
  PKEY_Endpoint_Inter_Gain_Level_MFX := ⟨⟨1⟩, 2⟩
  PKEY_Endpoint_Inter_EQ_Low_MFX := ⟨⟨1⟩, 3⟩
  PKEY_Endpoint_Inter_EQ_Mid_MFX := ⟨⟨1⟩, 4⟩
  PKEY_Endpoint_Inter_EQ_High_MFX := ⟨⟨1⟩, 5⟩
  PKEY_Endpoint_Inter_EQ_Low_SFX := ⟨⟨1⟩, 6⟩
  PKEY_Endpoint_Inter_EQ_Mid_SFX := ⟨⟨1⟩, 7⟩
  PKEY_Endpoint_Inter_EQ_High_SFX := ⟨⟨1⟩, 8⟩

/-- An instance of the header with a filter state that records the level last prepared, a gain
routine that scales by the gain level and an equalizer that adds the level of its filter;
ten million units of 100 ns for `HNS_INTER`. -/
def exampleHeader : InterAPO_h LONG where
  GainControl := fun out inp n spf gain mem a =>
    if out ≤ a ∧ a < out + n * spf then mem (inp + (a - out)) * gain else mem a
  Equalizer := fun out inp n spf filter mem =>
    (fun a => if out ≤ a ∧ a < out + n * spf then mem (inp + (a - out)) + filter else mem a,
      filter)
  Prepare := fun _ v => v
  HNS_INTER := 10000000
  sizeof_APOInitSystemEffects := 56
  sizeof_APOInitSystemEffects2 := 88
  keys := exampleKeys

/-- An unlocked, uninitialised object in the given mode with the given enable value, one sample
per frame, no property store and no event handle. -/
def exampleObject (mode : GUID) (enable : LONG) : CInterAPOMFX LONG where
  m_bIsLocked := false
  m_bIsInitialized := false
  m_u32SamplesPerFrame := 1
  m_AudioProcessingMode := mode
  m_fEnableInterMFX := enable
  m_iInterGainMFX := 0
  m_iInterEqLowMFX := 0
  m_iInterEqMidMFX := 0
  m_iInterEqHighMFX := 0
  m_EqMFX := ⟨0, 0, 0⟩
  m_pf32Coefficients := none
  m_spAPOSystemEffectsProperties := none
  m_hEffectsChangedEvent := none
  m_spEnumerator := false

/-- A property store that holds the `VT_UI4` value `v` under each key of the list and nothing
else; a key it does not hold reads as `S_OK` with `VT_EMPTY`. -/
def exampleStore (held : List (PROPERTYKEY × ULONG)) : IPropertyStore where
  GetValue := fun k =>
    match held.lookup k with
    | some v => (S_OK, ⟨VT_UI4, v⟩)
    | none => (S_OK, ⟨VT_EMPTY, 0⟩)

/-- A connection descriptor whose format query succeeds with the given channel count at a
frame rate of 48000. -/
def exampleDescriptor (dwSamplesPerFrame : UINT32) : APO_CONNECTION_DESCRIPTOR where
  GetUncompressedAudioFormat := (S_OK, ⟨dwSamplesPerFrame, 48000⟩)

/-! ## Theorems -/

/-- Claim C1. `GetCurrentEffectsSetting` returns the control's raw stored value exactly when the
master disable flag reads as false or absent, the processing mode is not Raw and the control's
own value is set (a non-zero `VT_UI4`); in every other case it returns 0, in particular when the
master disable flag is set and when the mode is Raw. The value returned is the stored `ULONG`
as a `LONG`: the same number below `2 ^ 31`, the same 32 bits always. -/
theorem GetCurrentEffectsSetting_policy (properties : IPropertyStore) (pkeyEnable : PROPERTYKEY)
    (processingMode : GUID) :
    ((masterDisableFalseOrAbsent properties ∧ processingMode ≠ AUDIO_SIGNALPROCESSINGMODE_RAW ∧
        controlSet properties pkeyEnable) →
      GetCurrentEffectsSetting properties pkeyEnable processingMode =
        rawControlValue properties pkeyEnable) ∧
    (¬ (masterDisableFalseOrAbsent properties ∧
        processingMode ≠ AUDIO_SIGNALPROCESSINGMODE_RAW ∧ controlSet properties pkeyEnable) →
      GetCurrentEffectsSetting properties pkeyEnable processingMode = 0) ∧
    (masterDisableSet properties →
      GetCurrentEffectsSetting properties pkeyEnable processingMode = 0) ∧
    (processingMode = AUDIO_SIGNALPROCESSINGMODE_RAW →
      GetCurrentEffectsSetting properties pkeyEnable processingMode = 0) ∧
    ((properties.GetValue pkeyEnable).2.ulVal < 2 ^ 31 →
      rawControlValue properties pkeyEnable = ((properties.GetValue pkeyEnable).2.ulVal : Int)) ∧
    rawControlValue properties pkeyEnable % 2 ^ 32 =
      ((properties.GetValue pkeyEnable).2.ulVal : Int) % 2 ^ 32 := by
  have hconv : ∀ u : Nat, (u < 2 ^ 31 → LONG_of_ULONG u = (u : Int)) ∧
      LONG_of_ULONG u % 2 ^ 32 = (u : Int) % 2 ^ 32 := by
    intro u
    unfold LONG_of_ULONG
    constructor
    · intro hu
      have : u % 2 ^ 32 = u := Nat.mod_eq_of_lt (by omega)
      rw [this, if_pos hu]
    · split_ifs
      · push_cast
        exact Int.emod_emod_of_dvd _ (dvd_refl _)
      · push_cast
        rw [Int.sub_emod, Int.emod_emod_of_dvd _ (dvd_refl _), Int.emod_self, sub_zero,
          Int.emod_emod_of_dvd _ (dvd_refl _)]
  refine ⟨?_, ?_, ?_, ?_, (hconv _).1, (hconv _).2⟩ <;>
    simp only [GetCurrentEffectsSetting, masterDisableFalseOrAbsent, masterDisableSet,
      controlSet, rawControlValue, IsEqualGUID]
  · rintro ⟨⟨h1, h2⟩, h3, h4, h5, h6⟩
    simp [h1, h2, h3, h4, h5, h6]
  · intro h
    by_cases h1 : SUCCEEDED (properties.GetValue PKEY_AudioEndpoint_Disable_SysFx).1 = true <;>
    by_cases h2 : (properties.GetValue PKEY_AudioEndpoint_Disable_SysFx).2.vt = VT_UI4 <;>
    by_cases h3 : (properties.GetValue PKEY_AudioEndpoint_Disable_SysFx).2.ulVal = 0 <;>
    by_cases h4 : processingMode = AUDIO_SIGNALPROCESSINGMODE_RAW <;>
    by_cases h5 : SUCCEEDED (properties.GetValue pkeyEnable).1 = true <;>
    by_cases h6 : (properties.GetValue pkeyEnable).2.vt = VT_UI4 <;>
    by_cases h7 : (properties.GetValue pkeyEnable).2.ulVal = 0 <;>
    simp_all
  · rintro ⟨h1, h2, h3⟩
    simp [h1, h2, h3]
  · intro h
    simp [h]

/-- Claim C2. For an input tagged Valid or Silent, the output tag after `APOProcess` is Valid
when the chain runs (mode not Raw and `m_fEnableInterMFX` non-zero), also for a Silent input,
and is the input's tag otherwise. -/
theorem APOProcess_output_flags {B : Type} (h : InterAPO_h B) (this : CInterAPOMFX B)
    (nIn nOut : UINT32) (input output : APO_CONNECTION_PROPERTY) (mem : Memory)
    (hflag : input.u32BufferFlags = BUFFER_VALID ∨ input.u32BufferFlags = BUFFER_SILENT) :
    ((this.m_AudioProcessingMode ≠ AUDIO_SIGNALPROCESSINGMODE_RAW ∧ this.m_fEnableInterMFX ≠ 0) →
      (APOProcess h this nIn input nOut output mem).output.u32BufferFlags = BUFFER_VALID) ∧
    (¬ (this.m_AudioProcessingMode ≠ AUDIO_SIGNALPROCESSINGMODE_RAW ∧
        this.m_fEnableInterMFX ≠ 0) →
      (APOProcess h this nIn input nOut output mem).output.u32BufferFlags =
        input.u32BufferFlags) := by
  have hne : input.u32BufferFlags ≠ BUFFER_INVALID := by
    rcases hflag with hv | hs
    · rw [hv]; decide
    · rw [hs]; decide
  constructor
  · rintro ⟨hmode, hen⟩
    simp [APOProcess, hne, hflag, chainRuns, IsEqualGUID, hmode, hen, APOProcess_chain]
  · intro hno
    have hc : chainRuns this = false := by
      by_cases hmode : this.m_AudioProcessingMode = AUDIO_SIGNALPROCESSINGMODE_RAW
      · simp [chainRuns, IsEqualGUID, hmode]
      · have hen : this.m_fEnableInterMFX = 0 := by
          by_contra hen
          exact hno ⟨hmode, hen⟩
        simp [chainRuns, IsEqualGUID, hen]
    simp [APOProcess, hne, hflag, hc, APOProcess_passthrough]

/-- The statement of `APOProcess_output_flags` at a Silent input on an enabled, non-Raw
object, and on a Raw one. -/
theorem APOProcess_output_flags_witness :
    (BUFFER_SILENT = BUFFER_VALID ∨ BUFFER_SILENT = BUFFER_SILENT) ∧
    (APOProcess exampleHeader (exampleObject AUDIO_SIGNALPROCESSINGMODE_DEFAULT 1) 1
      ⟨0, 1, BUFFER_SILENT⟩ 1 ⟨8, 0, BUFFER_INVALID⟩ (fun _ => 1)).output.u32BufferFlags =
      BUFFER_VALID ∧
    (APOProcess exampleHeader (exampleObject AUDIO_SIGNALPROCESSINGMODE_RAW 1) 1
      ⟨0, 1, BUFFER_SILENT⟩ 1 ⟨8, 0, BUFFER_INVALID⟩ (fun _ => 1)).output.u32BufferFlags =
      BUFFER_SILENT :=
  ⟨Or.inr rfl,
    (APOProcess_output_flags exampleHeader (exampleObject AUDIO_SIGNALPROCESSINGMODE_DEFAULT 1)
      1 1 ⟨0, 1, BUFFER_SILENT⟩ ⟨8, 0, BUFFER_INVALID⟩ (fun _ => 1) (Or.inr rfl)).1
      ⟨by decide, by decide⟩,
    (APOProcess_output_flags exampleHeader (exampleObject AUDIO_SIGNALPROCESSINGMODE_RAW 1)
      1 1 ⟨0, 1, BUFFER_SILENT⟩ ⟨8, 0, BUFFER_INVALID⟩ (fun _ => 1) (Or.inr rfl)).2
      (by decide)⟩

/-- Claim C3. For an input tagged Valid or Silent, on the chain path and on the passthrough path
alike, `APOProcess` sets the output's valid frame count to the input's valid frame count. -/
theorem APOProcess_valid_frame_count {B : Type} (h : InterAPO_h B) (this : CInterAPOMFX B)
    (nIn nOut : UINT32) (input output : APO_CONNECTION_PROPERTY) (mem : Memory)
    (hflag : input.u32BufferFlags = BUFFER_VALID ∨ input.u32BufferFlags = BUFFER_SILENT) :
    (APOProcess h this nIn input nOut output mem).output.u32ValidFrameCount =
      input.u32ValidFrameCount := by
  have hne : input.u32BufferFlags ≠ BUFFER_INVALID := by
    rcases hflag with hv | hs
    · rw [hv]; decide
    · rw [hs]; decide
  simp [APOProcess, hne, hflag]

/-- The statement of `APOProcess_valid_frame_count` at a Valid three-frame input whose output
descriptor held a count of 7. -/
theorem APOProcess_valid_frame_count_witness :
    (BUFFER_VALID = BUFFER_VALID ∨ BUFFER_VALID = BUFFER_SILENT) ∧
    (APOProcess exampleHeader (exampleObject AUDIO_SIGNALPROCESSINGMODE_DEFAULT 1) 1
      ⟨0, 3, BUFFER_VALID⟩ 1 ⟨8, 7, BUFFER_INVALID⟩ (fun _ => 1)).output.u32ValidFrameCount = 3 :=
  ⟨Or.inl rfl,
    APOProcess_valid_frame_count exampleHeader
      (exampleObject AUDIO_SIGNALPROCESSINGMODE_DEFAULT 1) 1 1 ⟨0, 3, BUFFER_VALID⟩
      ⟨8, 7, BUFFER_INVALID⟩ (fun _ => 1) (Or.inl rfl)⟩

/-- Claim C4, as stated, fails. In Raw mode, with one buffer at address 0 serving as input and
output, a Silent one-frame input whose sample is 1 comes back as 0: the sample is not left as it
was, the silence step has overwritten it. -/
theorem APOProcess_raw_silent_in_place_overwrites :
    (exampleObject AUDIO_SIGNALPROCESSINGMODE_RAW 1).m_AudioProcessingMode =
      AUDIO_SIGNALPROCESSINGMODE_RAW ∧
    (⟨0, 1, BUFFER_SILENT⟩ : APO_CONNECTION_PROPERTY).pBuffer =
      (⟨0, 0, BUFFER_INVALID⟩ : APO_CONNECTION_PROPERTY).pBuffer ∧
    (fun _ => 1 : Memory) 0 = 1 ∧
    (APOProcess exampleHeader (exampleObject AUDIO_SIGNALPROCESSINGMODE_RAW 1) 1
      ⟨0, 1, BUFFER_SILENT⟩ 1 ⟨0, 0, BUFFER_INVALID⟩ (fun _ => 1)).mem 0 = 0 := by
  refine ⟨rfl, rfl, rfl, ?_⟩
  simp [APOProcess, BUFFER_SILENT, BUFFER_INVALID, BUFFER_VALID, chainRuns, IsEqualGUID,
    exampleObject, APOProcess_passthrough, APOProcess_silence, WriteSilence, GetSamplesPerFrame]

/-- Claim C4, amended. In Raw mode, for every value of the enabled control, `APOProcess` on a
Valid or Silent input runs no gain or EQ stage: the object and its filters are unchanged, and
the memory is what the silence step left (the input block zero-filled for a Silent input, the
memory untouched for a Valid one) up to the copy. With an output connection and different
buffer pointers the first `frameCount * channelCount` output samples are the corresponding
input samples and no other sample is written; with the same pointer nothing is copied. -/
theorem APOProcess_raw {B : Type} (h : InterAPO_h B) (this : CInterAPOMFX B)
    (nIn nOut : UINT32) (input output : APO_CONNECTION_PROPERTY) (mem : Memory)
    (hraw : this.m_AudioProcessingMode = AUDIO_SIGNALPROCESSINGMODE_RAW)
    (hflag : input.u32BufferFlags = BUFFER_VALID ∨ input.u32BufferFlags = BUFFER_SILENT) :
    (APOProcess h this nIn input nOut output mem).this = this ∧
    (output.pBuffer = input.pBuffer →
      (APOProcess h this nIn input nOut output mem).mem = APOProcess_silence this input mem) ∧
    (0 ≠ nOut → output.pBuffer ≠ input.pBuffer →
      (∀ i, i < input.u32ValidFrameCount * this.m_u32SamplesPerFrame →
        (APOProcess h this nIn input nOut output mem).mem (output.pBuffer + i) =
          APOProcess_silence this input mem (input.pBuffer + i)) ∧
      (∀ a, ¬ (output.pBuffer ≤ a ∧
          a < output.pBuffer + input.u32ValidFrameCount * this.m_u32SamplesPerFrame) →
        (APOProcess h this nIn input nOut output mem).mem a =
          APOProcess_silence this input mem a)) ∧
    (input.u32BufferFlags = BUFFER_VALID → APOProcess_silence this input mem = mem) ∧
    (input.u32BufferFlags = BUFFER_SILENT →
      APOProcess_silence this input mem =
        WriteSilence input.pBuffer input.u32ValidFrameCount this.m_u32SamplesPerFrame mem) := by
  have hne : input.u32BufferFlags ≠ BUFFER_INVALID := by
    rcases hflag with hv | hs
    · rw [hv]; decide
    · rw [hs]; decide
  have hc : chainRuns this = false := by simp [chainRuns, IsEqualGUID, hraw]
  refine ⟨?_, ?_, ?_, ?_, ?_⟩
  · simp [APOProcess, hne, hflag, hc, APOProcess_passthrough]
  · intro hp
    simp [APOProcess, hne, hflag, hc, APOProcess_passthrough, hp]
  · intro hn hp
    have hmem : (APOProcess h this nIn input nOut output mem).mem =
        CopyFrames output.pBuffer input.pBuffer input.u32ValidFrameCount this.m_u32SamplesPerFrame
          (APOProcess_silence this input mem) := by
      simp [APOProcess, hne, hflag, hc, APOProcess_passthrough, hp, GetSamplesPerFrame]
      intro e
      exact absurd e hn
    rw [hmem]
    constructor
    · intro i hi
      simp [CopyFrames, hi]
    · intro a ha
      simp only [CopyFrames, if_neg ha]
  · intro hv
    have : ¬ BUFFER_SILENT = input.u32BufferFlags := by rw [hv]; decide
    simp [APOProcess_silence, this]
  · intro hs
    simp [APOProcess_silence, hs, GetSamplesPerFrame]

/-- The statement of `APOProcess_raw` at a Raw object with the effect enabled, a Valid
one-frame input at address 0 holding the sample 5 and an output at address 8: the output
sample becomes 5. -/
theorem APOProcess_raw_witness :
    (exampleObject AUDIO_SIGNALPROCESSINGMODE_RAW 1).m_AudioProcessingMode =
      AUDIO_SIGNALPROCESSINGMODE_RAW ∧
    (BUFFER_VALID = BUFFER_VALID ∨ BUFFER_VALID = BUFFER_SILENT) ∧
    (APOProcess exampleHeader (exampleObject AUDIO_SIGNALPROCESSINGMODE_RAW 1) 1
      ⟨0, 1, BUFFER_VALID⟩ 1 ⟨8, 0, BUFFER_INVALID⟩ (fun a => a + 5)).mem 8 = 5 := by
  refine ⟨rfl, Or.inl rfl, ?_⟩
  have h := APOProcess_raw exampleHeader (exampleObject AUDIO_SIGNALPROCESSINGMODE_RAW 1) 1 1
    ⟨0, 1, BUFFER_VALID⟩ ⟨8, 0, BUFFER_INVALID⟩ (fun a => a + 5) rfl (Or.inl rfl)
  have hcopy := (h.2.2.1 (by decide) (by decide)).1 0 (by decide)
  rw [h.2.2.2.1 rfl] at hcopy
  simpa using hcopy

/-- Claim C5. On the chain path (mode not Raw, `m_fEnableInterMFX` non-zero, input Valid or
Silent) the memory after `APOProcess` is EQ-high(EQ-mid(EQ-low(Gain(memory after the silence
step)))): the gain stage reads at the input pointer and writes at the output pointer, each
equalizer stage reads and writes at the output pointer, in the order low, mid, high, always over
the input's valid frame count and `m_u32SamplesPerFrame`; each filter is left in the state its
stage returns. -/
theorem APOProcess_chain_order {B : Type} (h : InterAPO_h B) (this : CInterAPOMFX B)
    (nIn nOut : UINT32) (input output : APO_CONNECTION_PROPERTY) (mem : Memory)
    (hmode : this.m_AudioProcessingMode ≠ AUDIO_SIGNALPROCESSINGMODE_RAW)
    (hen : this.m_fEnableInterMFX ≠ 0)
    (hflag : input.u32BufferFlags = BUFFER_VALID ∨ input.u32BufferFlags = BUFFER_SILENT) :
    (APOProcess h this nIn input nOut output mem).mem =
      (h.Equalizer output.pBuffer output.pBuffer input.u32ValidFrameCount
        this.m_u32SamplesPerFrame this.m_EqMFX.m_HighFilter
        (h.Equalizer output.pBuffer output.pBuffer input.u32ValidFrameCount
          this.m_u32SamplesPerFrame this.m_EqMFX.m_MidFilter
          (h.Equalizer output.pBuffer output.pBuffer input.u32ValidFrameCount
            this.m_u32SamplesPerFrame this.m_EqMFX.m_LowFilter
            (h.GainControl output.pBuffer input.pBuffer input.u32ValidFrameCount
              this.m_u32SamplesPerFrame this.m_iInterGainMFX
              (APOProcess_silence this input mem))).1).1).1 ∧
    (APOProcess h this nIn input nOut output mem).this.m_EqMFX.m_LowFilter =
      (h.Equalizer output.pBuffer output.pBuffer input.u32ValidFrameCount
        this.m_u32SamplesPerFrame this.m_EqMFX.m_LowFilter
        (h.GainControl output.pBuffer input.pBuffer input.u32ValidFrameCount
          this.m_u32SamplesPerFrame this.m_iInterGainMFX
          (APOProcess_silence this input mem))).2 ∧
    (APOProcess h this nIn input nOut output mem).this.m_EqMFX.m_MidFilter =
      (h.Equalizer output.pBuffer output.pBuffer input.u32ValidFrameCount
        this.m_u32SamplesPerFrame this.m_EqMFX.m_MidFilter
        (h.Equalizer output.pBuffer output.pBuffer input.u32ValidFrameCount
          this.m_u32SamplesPerFrame this.m_EqMFX.m_LowFilter
          (h.GainControl output.pBuffer input.pBuffer input.u32ValidFrameCount
            this.m_u32SamplesPerFrame this.m_iInterGainMFX
            (APOProcess_silence this input mem))).1).2 ∧
    (APOProcess h this nIn input nOut output mem).this.m_EqMFX.m_HighFilter =
      (h.Equalizer output.pBuffer output.pBuffer input.u32ValidFrameCount
        this.m_u32SamplesPerFrame this.m_EqMFX.m_HighFilter
        (h.Equalizer output.pBuffer output.pBuffer input.u32ValidFrameCount
          this.m_u32SamplesPerFrame this.m_EqMFX.m_MidFilter
          (h.Equalizer output.pBuffer output.pBuffer input.u32ValidFrameCount
            this.m_u32SamplesPerFrame this.m_EqMFX.m_LowFilter
            (h.GainControl output.pBuffer input.pBuffer input.u32ValidFrameCount
              this.m_u32SamplesPerFrame this.m_iInterGainMFX
              (APOProcess_silence this input mem))).1).1).2 := by
  have hne : input.u32BufferFlags ≠ BUFFER_INVALID := by
    rcases hflag with hv | hs
    · rw [hv]; decide
    · rw [hs]; decide
  have hc : chainRuns this = true := by simp [chainRuns, IsEqualGUID, hmode, hen]
  simp [APOProcess, hne, hflag, hc, APOProcess_chain, GetSamplesPerFrame]

/-- The statement of `APOProcess_chain_order` on a Default-mode object with gain level 3 and
filters at levels 10, 20 and 40, fed the Valid one-sample block 2 at address 0 with the
output at address 8: the output sample is ((2 * 3 + 10) + 20) + 40. -/
theorem APOProcess_chain_order_witness :
    ({ exampleObject AUDIO_SIGNALPROCESSINGMODE_DEFAULT 1 with
        m_iInterGainMFX := 3, m_EqMFX := ⟨10, 20, 40⟩ } : CInterAPOMFX LONG).m_AudioProcessingMode ≠
      AUDIO_SIGNALPROCESSINGMODE_RAW ∧
    (APOProcess exampleHeader
      { exampleObject AUDIO_SIGNALPROCESSINGMODE_DEFAULT 1 with
        m_iInterGainMFX := 3, m_EqMFX := ⟨10, 20, 40⟩ }
      1 ⟨0, 1, BUFFER_VALID⟩ 1 ⟨8, 0, BUFFER_INVALID⟩ (fun _ => 2)).mem 8 = 76 := by
  refine ⟨by decide, ?_⟩
  rw [(APOProcess_chain_order exampleHeader
      { exampleObject AUDIO_SIGNALPROCESSINGMODE_DEFAULT 1 with
        m_iInterGainMFX := 3, m_EqMFX := ⟨10, 20, 40⟩ }
      1 1 ⟨0, 1, BUFFER_VALID⟩ ⟨8, 0, BUFFER_INVALID⟩ (fun _ => 2) (by decide) (by decide)
      (Or.inl rfl)).1]
  simp [exampleHeader, exampleObject, APOProcess_silence, BUFFER_SILENT, BUFFER_VALID]
  norm_num

/-- Claim C6, the code at the call. The gain stage of the chain is
`GainControl(output, input, frames, samples per frame, m_iInterGainMFX)`: the coefficient buffer
`m_pf32Coefficients` is not an argument, and replacing it by any other buffer (or by null)
changes nothing in what `APOProcess` leaves behind in memory, in the output descriptor and in
the filters. -/
theorem APOProcess_ignores_coefficients {B : Type} (h : InterAPO_h B) (this : CInterAPOMFX B)
    (coefficients : Option (List FLOAT32)) (nIn nOut : UINT32)
    (input output : APO_CONNECTION_PROPERTY) (mem : Memory) :
    (APOProcess h { this with m_pf32Coefficients := coefficients } nIn input nOut output mem).mem =
      (APOProcess h this nIn input nOut output mem).mem ∧
    (APOProcess h { this with m_pf32Coefficients := coefficients } nIn input nOut
      output mem).output = (APOProcess h this nIn input nOut output mem).output ∧
    (APOProcess h { this with m_pf32Coefficients := coefficients } nIn input nOut
      output mem).this.m_EqMFX = (APOProcess h this nIn input nOut output mem).this.m_EqMFX := by
  unfold APOProcess
  by_cases h0 : input.u32BufferFlags = BUFFER_INVALID
  · simp [h0]
  · by_cases h1 : input.u32BufferFlags = BUFFER_VALID ∨ input.u32BufferFlags = BUFFER_SILENT
    · by_cases hc : chainRuns this = true
      · have hc2 : chainRuns { this with m_pf32Coefficients := coefficients } = true := hc
        simp [h0, h1, hc, hc2, APOProcess_chain, APOProcess_silence, GetSamplesPerFrame]
      · have hc2 : ¬ chainRuns { this with m_pf32Coefficients := coefficients } = true := hc
        simp [h0, h1, hc, hc2, APOProcess_passthrough, APOProcess_silence, GetSamplesPerFrame]
    · simp [h0, h1]

/-- No routine called the way `APOProcess` calls `GainControl` can multiply channel `c` by
entry `c` of the coefficient buffer for every object: two objects that differ in the
coefficient buffer only hand it the same arguments. -/
theorem GainControl_call_cannot_follow_coefficients :
    ¬ ∃ h : InterAPO_h LONG, ∀ (this : CInterAPOMFX LONG) (coefficients : List FLOAT32)
        (mem : Memory), this.m_pf32Coefficients = some coefficients →
        coefficients.length = this.m_u32SamplesPerFrame →
        ∀ c, c < this.m_u32SamplesPerFrame →
          h.GainControl 8 0 1 this.m_u32SamplesPerFrame this.m_iInterGainMFX mem (8 + c) =
            mem (0 + c) * coefficients.getD c 0 := by
  rintro ⟨h, hh⟩
  have h1 := hh { exampleObject AUDIO_SIGNALPROCESSINGMODE_DEFAULT 1 with
    m_pf32Coefficients := some [1] } [1] (fun _ => 1) rfl rfl 0 (by decide)
  have h2 := hh { exampleObject AUDIO_SIGNALPROCESSINGMODE_DEFAULT 1 with
    m_pf32Coefficients := some [2] } [2] (fun _ => 1) rfl rfl 0 (by decide)
  simp only [exampleObject, List.getD_cons_zero, mul_one, one_mul] at h1 h2
  rw [h1] at h2
  norm_num at h2

/-- Claim C8. `GetLatency` with a non-null out-parameter succeeds; it reports zero in Raw mode
whatever `m_fEnableInterMFX` is, zero outside Raw mode when `m_fEnableInterMFX` is zero, and the
constant `HNS_INTER` outside Raw mode when `m_fEnableInterMFX` is non-zero. -/
theorem GetLatency_reports {B : Type} (h : InterAPO_h B) (this : CInterAPOMFX B)
    (old : HNSTIME) :
    (GetLatency h this (some old)).1 = S_OK ∧
    (this.m_AudioProcessingMode = AUDIO_SIGNALPROCESSINGMODE_RAW →
      (GetLatency h this (some old)).2 = some 0) ∧
    (this.m_AudioProcessingMode ≠ AUDIO_SIGNALPROCESSINGMODE_RAW → this.m_fEnableInterMFX = 0 →
      (GetLatency h this (some old)).2 = some 0) ∧
    (this.m_AudioProcessingMode ≠ AUDIO_SIGNALPROCESSINGMODE_RAW → this.m_fEnableInterMFX ≠ 0 →
      (GetLatency h this (some old)).2 = some h.HNS_INTER) := by
  refine ⟨?_, ?_, ?_, ?_⟩
  · unfold GetLatency
    split_ifs <;> rfl
  · intro hm
    simp [GetLatency, IsEqualGUID, hm]
  · intro hm he
    simp [GetLatency, IsEqualGUID, hm, he]
  · intro hm he
    simp [GetLatency, IsEqualGUID, hm, he]

/-- One iteration of the notification loop leaves the processing mode alone. -/
theorem OnPropertyValueChanged_body_mode {B : Type} (h : InterAPO_h B)
    (properties : IPropertyStore) (st : ChangeLoop B) (c : KeyControl) :
    (OnPropertyValueChanged_body h properties st c).this.m_AudioProcessingMode =
      st.this.m_AudioProcessingMode := by
  obtain ⟨k, v, f⟩ := c
  unfold OnPropertyValueChanged_body
  cases v <;> rcases f with _ | f <;> try cases f
  all_goals
    simp only [ControlMember.read, ControlMember.write, FilterMember.Prepare]
    split_ifs <;> rfl

/-- One iteration of the notification loop stores the derived setting of its row. -/
theorem OnPropertyValueChanged_body_read_self {B : Type} (h : InterAPO_h B)
    (properties : IPropertyStore) (st : ChangeLoop B) (k : PROPERTYKEY) (v : ControlMember)
    (f : Option FilterMember) :
    v.read (OnPropertyValueChanged_body h properties st ⟨k, v, f⟩).this =
      GetCurrentEffectsSetting properties k st.this.m_AudioProcessingMode := by
  unfold OnPropertyValueChanged_body
  cases v <;> rcases f with _ | f <;> try cases f
  all_goals
    simp only [ControlMember.read, ControlMember.write, FilterMember.Prepare]
    split_ifs <;> rfl

/-- One iteration of the notification loop leaves the controls of the other rows alone. -/
theorem OnPropertyValueChanged_body_read_other {B : Type} (h : InterAPO_h B)
    (properties : IPropertyStore) (st : ChangeLoop B) (k : PROPERTYKEY) (v : ControlMember)
    (f : Option FilterMember) (m : ControlMember) (hm : m ≠ v) :
    m.read (OnPropertyValueChanged_body h properties st ⟨k, v, f⟩).this = m.read st.this := by
  unfold OnPropertyValueChanged_body
  cases v <;> cases m <;> first | exact absurd rfl hm | skip
  all_goals
    rcases f with _ | f <;> try cases f
    all_goals
      simp only [ControlMember.read, ControlMember.write, FilterMember.Prepare]
      split_ifs <;> rfl

/-- Claim C9, as stated, fails. With a property store present that holds gain level 5, a change
notification for the gain-level key leaves the stored gain level at its old value 0, although
the effective setting derived from the store is 5: the key is neither the enable key nor the
master disable key, so nothing is re-derived. -/
theorem OnPropertyValueChanged_other_key_ignored :
    GetCurrentEffectsSetting
      (exampleStore [(exampleKeys.PKEY_Endpoint_Inter_Gain_Level_MFX, 5)])
      exampleKeys.PKEY_Endpoint_Inter_Gain_Level_MFX AUDIO_SIGNALPROCESSINGMODE_DEFAULT = 5 ∧
    (OnPropertyValueChanged exampleHeader
      { exampleObject AUDIO_SIGNALPROCESSINGMODE_DEFAULT 0 with
        m_spAPOSystemEffectsProperties :=
          some (exampleStore [(exampleKeys.PKEY_Endpoint_Inter_Gain_Level_MFX, 5)]) }
      exampleKeys.PKEY_Endpoint_Inter_Gain_Level_MFX).this.m_iInterGainMFX = 0 := by
  constructor
  · decide
  · rfl

/-- Claim C9, amended. While a property store is present, a change notification whose key is
the enable key or the master disable key re-derives all five tracked controls: after the call
each stored control equals the effective setting `GetCurrentEffectsSetting` gives, in the
object's processing mode, for the key its row of the `controls` table holds. A notification for
any other key leaves the object as it was. -/
theorem OnPropertyValueChanged_rederives {B : Type} (h : InterAPO_h B) (this : CInterAPOMFX B)
    (properties : IPropertyStore) (key : PROPERTYKEY)
    (hp : this.m_spAPOSystemEffectsProperties = some properties) :
    ((PK_EQUAL key h.keys.PKEY_Endpoint_Enable_Interface_MFX = true ∨
        PK_EQUAL key PKEY_AudioEndpoint_Disable_SysFx = true) →
      ∀ c ∈ controls h.keys,
        c.value.read (OnPropertyValueChanged h this key).this =
          GetCurrentEffectsSetting properties c.key this.m_AudioProcessingMode) ∧
    (¬ (PK_EQUAL key h.keys.PKEY_Endpoint_Enable_Interface_MFX = true ∨
        PK_EQUAL key PKEY_AudioEndpoint_Disable_SysFx = true) →
      (OnPropertyValueChanged h this key).this = this) := by
  constructor
  · intro hk
    have hk2 : (PK_EQUAL key h.keys.PKEY_Endpoint_Enable_Interface_MFX ||
        PK_EQUAL key PKEY_AudioEndpoint_Disable_SysFx) = true := by
      rcases hk with hk | hk <;> simp [hk]
    intro c hc
    simp only [OnPropertyValueChanged, hp, hk2, if_true, controls, List.foldl]
    simp only [controls, List.mem_cons, List.mem_singleton, List.not_mem_nil, or_false] at hc
    rcases hc with rfl | rfl | rfl | rfl | rfl <;>
    simp [OnPropertyValueChanged_body_read_self, OnPropertyValueChanged_body_read_other,
      OnPropertyValueChanged_body_mode]
  · intro hk
    have hk2 : (PK_EQUAL key h.keys.PKEY_Endpoint_Enable_Interface_MFX ||
        PK_EQUAL key PKEY_AudioEndpoint_Disable_SysFx) = false := by
      simp only [not_or, Bool.not_eq_true] at hk
      simp [hk.1, hk.2]
    simp [OnPropertyValueChanged, hp, hk2]

/-- The statement of `OnPropertyValueChanged_rederives` on an object whose store holds enable
1 and gain level 5, notified of a change of the enable key: the stored gain level becomes 5. -/
theorem OnPropertyValueChanged_rederives_witness :
    ({ exampleObject AUDIO_SIGNALPROCESSINGMODE_DEFAULT 0 with
        m_spAPOSystemEffectsProperties :=
          some (exampleStore [(exampleKeys.PKEY_Endpoint_Enable_Interface_MFX, 1),
            (exampleKeys.PKEY_Endpoint_Inter_Gain_Level_MFX, 5)]) } :
        CInterAPOMFX LONG).m_spAPOSystemEffectsProperties =
      some (exampleStore [(exampleKeys.PKEY_Endpoint_Enable_Interface_MFX, 1),
        (exampleKeys.PKEY_Endpoint_Inter_Gain_Level_MFX, 5)]) ∧
    (OnPropertyValueChanged exampleHeader
      { exampleObject AUDIO_SIGNALPROCESSINGMODE_DEFAULT 0 with
        m_spAPOSystemEffectsProperties :=
          some (exampleStore [(exampleKeys.PKEY_Endpoint_Enable_Interface_MFX, 1),
            (exampleKeys.PKEY_Endpoint_Inter_Gain_Level_MFX, 5)]) }
      exampleKeys.PKEY_Endpoint_Enable_Interface_MFX).this.m_iInterGainMFX = 5 := by
  refine ⟨rfl, ?_⟩
  have hw := (OnPropertyValueChanged_rederives exampleHeader
      { exampleObject AUDIO_SIGNALPROCESSINGMODE_DEFAULT 0 with
        m_spAPOSystemEffectsProperties :=
          some (exampleStore [(exampleKeys.PKEY_Endpoint_Enable_Interface_MFX, 1),
            (exampleKeys.PKEY_Endpoint_Inter_Gain_Level_MFX, 5)]) }
      (exampleStore [(exampleKeys.PKEY_Endpoint_Enable_Interface_MFX, 1),
        (exampleKeys.PKEY_Endpoint_Inter_Gain_Level_MFX, 5)])
      exampleKeys.PKEY_Endpoint_Enable_Interface_MFX rfl).1 (Or.inl (by decide))
      ⟨exampleKeys.PKEY_Endpoint_Inter_Gain_Level_MFX, .m_iInterGainMFX, none⟩
      (by simp [controls, exampleHeader])
  simp only [ControlMember.read] at hw
  rw [hw]
  decide

/-- Claim C10, the code at a failing input. The store holds EQ-low level 3 under the MFX key
(and enable 1), and nothing under the SFX keys. `Initialize` with the legacy structure succeeds
in Default mode and stores EQ-low level 3; a change notification for the enable key on the
object so initialised, same store and same mode, stores EQ-low level 0, because its table reads
`PKEY_Endpoint_Inter_EQ_Low_SFX` where `Initialize` reads `PKEY_Endpoint_Inter_EQ_Low_MFX`. -/
theorem Initialize_and_notification_disagree :
    (Initialize exampleHeader (exampleObject GUID_NULL 0) 56
      (some ⟨some (exampleStore [(exampleKeys.PKEY_Endpoint_Enable_Interface_MFX, 1),
        (exampleKeys.PKEY_Endpoint_Inter_EQ_Low_MFX, 3)]), none, GUID_NULL⟩) S_OK S_OK).1 = S_OK ∧
    (Initialize exampleHeader (exampleObject GUID_NULL 0) 56
      (some ⟨some (exampleStore [(exampleKeys.PKEY_Endpoint_Enable_Interface_MFX, 1),
        (exampleKeys.PKEY_Endpoint_Inter_EQ_Low_MFX, 3)]), none, GUID_NULL⟩)
      S_OK S_OK).2.m_iInterEqLowMFX = 3 ∧
    (OnPropertyValueChanged exampleHeader
      (Initialize exampleHeader (exampleObject GUID_NULL 0) 56
        (some ⟨some (exampleStore [(exampleKeys.PKEY_Endpoint_Enable_Interface_MFX, 1),
          (exampleKeys.PKEY_Endpoint_Inter_EQ_Low_MFX, 3)]), none, GUID_NULL⟩) S_OK S_OK).2
      exampleKeys.PKEY_Endpoint_Enable_Interface_MFX).this.m_iInterEqLowMFX = 0 := by
  refine ⟨?_, ?_, ?_⟩ <;> decide

/-! ### Binary32 rounding -/

/-- Rounding to the nearest integer moves a value by at most one half. -/
theorem roundHalfEven_err (q : ℚ) : |(roundHalfEven q : ℚ) - q| ≤ 1 / 2 := by
  unfold roundHalfEven
  have h1 := Int.floor_le q
  have h2 := Int.lt_floor_add_one q
  split_ifs with a b c
  · rw [abs_le]; constructor <;> linarith
  · push_cast; rw [abs_le]; constructor <;> linarith
  · rw [abs_le]; constructor <;> linarith
  · push_cast; rw [abs_le]; constructor <;> linarith

/-- An integer rounds to itself. -/
theorem roundHalfEven_intCast (m : ℤ) : roundHalfEven (m : ℚ) = m := by
  simp [roundHalfEven]

/-- The error of one rounding to binary32: at most `2 ^ (-24)` relative to the value, or to the
smallest normal number for a value below it. -/
theorem roundF32_err (x : ℚ) :
    |roundF32 x - x| ≤ 2 ^ (-24 : ℤ) * max |x| (2 ^ (-126 : ℤ)) := by
  unfold roundF32
  split_ifs with h0
  · subst h0; simp; positivity
  · have hq : (2 : ℚ) ^ (binade x - 23) > 0 := by positivity
    have key : (roundHalfEven (x / 2 ^ (binade x - 23)) : ℚ) * 2 ^ (binade x - 23) - x =
        ((roundHalfEven (x / 2 ^ (binade x - 23)) : ℚ) - x / 2 ^ (binade x - 23)) *
          2 ^ (binade x - 23) := by
      field_simp
    rw [key, abs_mul, abs_of_pos hq]
    have hb : (2 : ℚ) ^ (binade x) ≤ max |x| (2 ^ (-126 : ℤ)) := by
      unfold binade
      rcases le_total (Int.log 2 |x|) (-126) with hle | hle
      · rw [max_eq_right hle]; exact le_max_right _ _
      · rw [max_eq_left hle]
        exact le_trans
          (by simpa using Int.zpow_log_le_self (b := 2) (by norm_num) (abs_pos.mpr h0))
          (le_max_left _ _)
    have h2 : (2 : ℚ) ^ (binade x - 23) = 2 ^ (binade x) * 2 ^ (-23 : ℤ) := by
      rw [← zpow_add₀ (by norm_num : (2 : ℚ) ≠ 0)]; congr 1
    calc |(roundHalfEven (x / 2 ^ (binade x - 23)) : ℚ) - x / 2 ^ (binade x - 23)| *
          2 ^ (binade x - 23)
        ≤ 1 / 2 * 2 ^ (binade x - 23) :=
          mul_le_mul_of_nonneg_right (roundHalfEven_err _) hq.le
      _ = 2 ^ (-24 : ℤ) * 2 ^ (binade x) := by rw [h2]; norm_num; ring
      _ ≤ 2 ^ (-24 : ℤ) * max |x| (2 ^ (-126 : ℤ)) :=
          mul_le_mul_of_nonneg_left hb (by positivity)

/-- The error of one rounding to binary32 of a value of magnitude at most `b`. -/
theorem roundF32_err_le (x b : ℚ) (hb : |x| ≤ b) (hb2 : 1 / 16777216 / 16777216 ≤ b) :
    |roundF32 x - x| ≤ b / 16777216 := by
  have hsmall : (2 : ℚ) ^ (-126 : ℤ) ≤ 1 / 16777216 / 16777216 := by
    rw [show (1 : ℚ) / 16777216 / 16777216 = 2 ^ (-48 : ℤ) by norm_num]
    exact zpow_le_zpow_right₀ (by norm_num) (by norm_num)
  refine le_trans (roundF32_err x) ?_
  have h24 : (2 : ℚ) ^ (-24 : ℤ) = 1 / 16777216 := by norm_num
  rw [h24]
  have : max |x| (2 ^ (-126 : ℤ)) ≤ b := max_le hb (le_trans hsmall hb2)
  calc 1 / 16777216 * max |x| (2 ^ (-126 : ℤ)) ≤ 1 / 16777216 * b :=
        mul_le_mul_of_nonneg_left this (by norm_num)
    _ = b / 16777216 := by ring

/-- A value with a 24-bit significand and an exponent in range is a binary32 number: it rounds
to itself. -/
theorem roundF32_exact (m k : ℤ) (hm : |m| < 2 ^ 24) (hk : -149 ≤ k) :
    roundF32 (m * 2 ^ k) = m * 2 ^ k := by
  unfold roundF32
  split_ifs with h0
  · exact h0.symm
  · have hlog : Int.log 2 |(m : ℚ) * 2 ^ k| < 24 + k := by
      rw [← Int.lt_zpow_iff_log_lt (by norm_num) (abs_pos.mpr h0)]
      rw [abs_mul, abs_of_pos (by positivity : (0 : ℚ) < 2 ^ k),
        zpow_add₀ (by norm_num : ((2 : ℕ) : ℚ) ≠ 0)]
      apply mul_lt_mul_of_pos_right _ (by positivity)
      have : |(m : ℚ)| = ((|m| : ℤ) : ℚ) := by simp
      rw [this]
      have h24 : ((2 : ℕ) : ℚ) ^ (24 : ℤ) = (((2 : ℤ) ^ 24 : ℤ) : ℚ) := by norm_num
      rw [h24]
      exact_mod_cast hm
    have hd : 0 ≤ k - (binade ((m : ℚ) * 2 ^ k) - 23) := by
      unfold binade
      rcases le_total (Int.log 2 |(m : ℚ) * 2 ^ k|) (-126) with hle | hle
      · rw [max_eq_right hle]; omega
      · rw [max_eq_left hle]; omega
    obtain ⟨d, hd2⟩ := Int.eq_ofNat_of_zero_le hd
    have hk2 : k = (binade ((m : ℚ) * 2 ^ k) - 23) + d := by omega
    have h2 : (2 : ℚ) ^ (binade ((m : ℚ) * 2 ^ k) - 23) ≠ 0 := by positivity
    have hq : (m : ℚ) * 2 ^ k / 2 ^ (binade ((m : ℚ) * 2 ^ k) - 23) =
        ((m * 2 ^ d : ℤ) : ℚ) := by
      rw [div_eq_iff h2]
      conv_lhs => rw [hk2]
      rw [zpow_add₀ (by norm_num : (2 : ℚ) ≠ 0)]
      push_cast
      rw [zpow_natCast]
      ring
    rw [hq, roundHalfEven_intCast, ← hq]
    field_simp

/-- A natural number below `2 ^ 24` converts to `FLOAT32` without error. -/
theorem roundF32_natCast (n : ℕ) (hn : n < 2 ^ 24) : roundF32 (n : ℚ) = n := by
  have := roundF32_exact (n : ℤ) 0
    (by rw [abs_of_nonneg (by positivity)]; exact_mod_cast hn) (by norm_num)
  simpa using this

/-- Evaluation of one rounding to binary32 from the exponent `e` of the value and the integer
part `f` of its significand scaled to 24 bits. -/
theorem roundF32_eval (x : ℚ) (e f : ℤ) (hx : 0 < x) (he : -126 ≤ e) (h1 : 2 ^ e ≤ x)
    (h2 : x < 2 ^ (e + 1)) (hf1 : (f : ℚ) ≤ x / 2 ^ (e - 23))
    (hf2 : x / 2 ^ (e - 23) < f + 1) :
    roundF32 x =
      ((if x / 2 ^ (e - 23) - f < 1 / 2 then f
        else if 1 / 2 < x / 2 ^ (e - 23) - f then f + 1
        else if f % 2 = 0 then f else f + 1 : ℤ) : ℚ) * 2 ^ (e - 23) := by
  have hlog : Int.log 2 |x| = e := by
    rw [abs_of_pos hx]
    apply le_antisymm
    · have : Int.log 2 x < e + 1 := by
        rw [← Int.lt_zpow_iff_log_lt (by norm_num) hx]
        simpa using h2
      omega
    · rw [← Int.zpow_le_iff_le_log (by norm_num) hx]
      simpa using h1
  have hb : binade x = e := by
    unfold binade
    rw [hlog]
    exact max_eq_left he
  have hfl : ⌊x / 2 ^ (e - 23)⌋ = f := by
    rw [Int.floor_eq_iff]
    exact ⟨hf1, hf2⟩
  unfold roundF32 roundHalfEven
  rw [if_neg hx.ne', hb, hfl]

/-- The binary32 number nearest to one third. -/
theorem roundF32_one_third : roundF32 (1 / 3) = 11184811 / 33554432 := by
  rw [roundF32_eval (1 / 3) (-2) 11184810 (by norm_num) (by norm_num) (by norm_num)
    (by norm_num) (by norm_num) (by norm_num)]
  norm_num

/-- Rounding the difference of 1 and the binary32 third: a tie, resolved to the even side. -/
theorem roundF32_two_thirds_tie : roundF32 (1 - 11184811 / 33554432) = 5592405 / 8388608 := by
  rw [roundF32_eval (1 - 11184811 / 33554432) (-1) 11184810 (by norm_num) (by norm_num)
    (by norm_num) (by norm_num) (by norm_num) (by norm_num)]
  norm_num

/-- The first coefficient is exactly 1 whatever the reciprocal is. -/
theorem coefficientAt_zero (f32InverseChannelCount : FLOAT32) :
    coefficientAt f32InverseChannelCount 0 = 1 := by
  have h0 : roundF32 0 = 0 := by simp [roundF32]
  have h1 : roundF32 1 = 1 := by simpa using roundF32_natCast 1 (by norm_num)
  simp [coefficientAt, F32_sub, F32_mul, F32_of_UINT32, h0, h1]

/-- For fewer than `2 ^ 24` channels the coefficient stored at index `c` is within `2 ^ (-22)`
of `1 - c / N`. -/
theorem coefficientAt_near (N c : ℕ) (hN : 1 ≤ N) (hN2 : N < 2 ^ 24) (hc : c < N) :
    |coefficientAt (F32_div 1 (F32_of_UINT32 N)) c - (1 - (c : ℚ) / N)| ≤ 1 / 4194304 := by
  unfold coefficientAt F32_sub F32_mul F32_div F32_of_UINT32
  rw [roundF32_natCast N hN2, roundF32_natCast c (lt_trans hc hN2)]
  have hNpos : (0 : ℚ) < N := by exact_mod_cast hN
  have hNlt : (N : ℚ) < 16777216 := by exact_mod_cast hN2
  have hcN : (c : ℚ) / N ≤ 1 := by
    rw [div_le_one hNpos]; exact_mod_cast hc.le
  have hc0 : (0 : ℚ) ≤ (c : ℚ) / N := by positivity
  have hcc : (0 : ℚ) ≤ c := by positivity
  have hinv : (1 : ℚ) / 16777216 ≤ 1 / N := by
    rw [div_le_div_iff₀ (by norm_num) hNpos]; linarith
  have e1 := roundF32_err_le (1 / (N : ℚ)) (1 / N)
    (by rw [abs_of_pos (by positivity : (0 : ℚ) < 1 / N)]) (by linarith)
  generalize roundF32 (1 / (N : ℚ)) = i at e1
  have e2 : |i * c - c / N| ≤ c / N / 16777216 := by
    have : i * c - c / N = (i - 1 / N) * c := by ring
    rw [this, abs_mul, abs_of_nonneg hcc]
    calc |i - 1 / N| * c ≤ (1 / N / 16777216) * c := mul_le_mul_of_nonneg_right e1 hcc
      _ = c / N / 16777216 := by ring
  have h2 := abs_le.mp e2
  have e2b : |i * c| ≤ 1 + 1 / 16777216 := by
    rw [abs_le]
    constructor <;> linarith [h2.1, h2.2]
  have e3 := roundF32_err_le (i * c) _ e2b (by norm_num)
  generalize roundF32 (i * c) = p at e3
  have h3 := abs_le.mp e3
  have e5 : |1 - p| ≤ 1 + 3 / 16777216 := by
    rw [abs_le]
    constructor <;> linarith [h2.1, h2.2, h3.1, h3.2]
  have e6 := roundF32_err_le (1 - p) _ e5 (by norm_num)
  generalize roundF32 (1 - p) = r at e6
  have h6 := abs_le.mp e6
  rw [abs_le]
  constructor <;> linarith [h2.1, h2.2, h3.1, h3.2, h6.1, h6.2]

/-- Claim C7, as stated, fails. A successful `ValidateAndCacheConnectionInfo` with three
channels stores 1, 5592405/8388608 and 5592405/16777216: entry 1 is not 1 - 1/3 and the last
entry is neither 1/3 nor the binary32 number nearest to 1/3. -/
theorem ValidateAndCacheConnectionInfo_three_channels :
    (ValidateAndCacheConnectionInfo
      { exampleObject AUDIO_SIGNALPROCESSINGMODE_DEFAULT 1 with m_u32SamplesPerFrame := 3 }
      (exampleDescriptor 3) (exampleDescriptor 3) S_OK).1 = S_OK ∧
    (ValidateAndCacheConnectionInfo
      { exampleObject AUDIO_SIGNALPROCESSINGMODE_DEFAULT 1 with m_u32SamplesPerFrame := 3 }
      (exampleDescriptor 3) (exampleDescriptor 3) S_OK).2.m_pf32Coefficients =
      some [1, 5592405 / 8388608, 5592405 / 16777216] ∧
    (5592405 / 8388608 : ℚ) ≠ 1 - 1 / 3 ∧
    (5592405 / 16777216 : ℚ) ≠ 1 - 2 / 3 ∧
    (5592405 / 16777216 : ℚ) ≠ roundF32 (1 / 3) := by
  have h3 : roundF32 3 = 3 := by simpa using roundF32_natCast 3 (by norm_num)
  have h2 : roundF32 2 = 2 := by simpa using roundF32_natCast 2 (by norm_num)
  have h1 : roundF32 1 = 1 := by simpa using roundF32_natCast 1 (by norm_num)
  have hi : roundF32 (11184811 / 33554432) = 11184811 / 33554432 := by
    have := roundF32_exact 11184811 (-25) (by norm_num) (by norm_num)
    norm_num at this
    exact this
  have h2i : roundF32 (11184811 / 16777216) = 11184811 / 16777216 := by
    have := roundF32_exact 11184811 (-24) (by norm_num) (by norm_num)
    norm_num at this
    exact this
  have hl : roundF32 (5592405 / 16777216) = 5592405 / 16777216 := by
    have := roundF32_exact 5592405 (-24) (by norm_num) (by norm_num)
    norm_num at this
    exact this
  have c1 : coefficientAt (11184811 / 33554432) 1 = 5592405 / 8388608 := by
    simp only [coefficientAt, F32_sub, F32_mul, F32_of_UINT32, Nat.cast_one, h1, mul_one, hi]
    exact roundF32_two_thirds_tie
  have c2 : coefficientAt (11184811 / 33554432) 2 = 5592405 / 16777216 := by
    simp only [coefficientAt, F32_sub, F32_mul, F32_of_UINT32, Nat.cast_ofNat, h2]
    rw [show (11184811 / 33554432 : ℚ) * 2 = 11184811 / 16777216 by norm_num, h2i,
      show (1 : ℚ) - 11184811 / 16777216 = 5592405 / 16777216 by norm_num, hl]
  refine ⟨rfl, ?_, by norm_num, by norm_num, ?_⟩
  · simp only [ValidateAndCacheConnectionInfo, exampleDescriptor, FAILED, S_OK]
    simp only [lt_self_iff_false, decide_False, Bool.false_eq_true, if_false, F32_div,
      F32_of_UINT32, Nat.cast_ofNat, h3, roundF32_one_third]
    simp [List.range_succ, coefficientAt_zero, c1, c2]
  · rw [roundF32_one_third]; norm_num

/-- Claim C7, amended. For every channel count N >= 1, a successful
`ValidateAndCacheConnectionInfo` fills the coefficient buffer with exactly N entries; entry c
is the binary32 result of `1.0f - (1.0f / N) * c`, each operation rounded; entry 0 is exactly
1.0; for N below `2 ^ 24` every entry is within `2 ^ (-22)` of 1 - c/N; N = 1 gives exactly
[1.0] and N = 2 gives exactly [1.0, 0.5]. -/
theorem ValidateAndCacheConnectionInfo_coefficients {B : Type} (this : CInterAPOMFX B)
    (inputConnection outputConnection : APO_CONNECTION_DESCRIPTOR) (hrAllocate : HRESULT)
    (hin : SUCCEEDED inputConnection.GetUncompressedAudioFormat.1 = true)
    (hout : SUCCEEDED outputConnection.GetUncompressedAudioFormat.1 = true)
    (halloc : SUCCEEDED hrAllocate = true) (hN : 1 ≤ this.m_u32SamplesPerFrame) :
    SUCCEEDED (ValidateAndCacheConnectionInfo this inputConnection outputConnection
      hrAllocate).1 = true ∧
    ∃ l : List FLOAT32,
      (ValidateAndCacheConnectionInfo this inputConnection outputConnection
        hrAllocate).2.m_pf32Coefficients = some l ∧
      l.length = this.m_u32SamplesPerFrame ∧
      (∀ c, c < this.m_u32SamplesPerFrame →
        l[c]? = some (roundF32 (1 - roundF32
          (roundF32 (1 / roundF32 this.m_u32SamplesPerFrame) * roundF32 c)))) ∧
      l[0]? = some 1 ∧
      (this.m_u32SamplesPerFrame < 2 ^ 24 → ∀ c, c < this.m_u32SamplesPerFrame →
        |l.getD c 0 - (1 - (c : ℚ) / this.m_u32SamplesPerFrame)| ≤ 1 / 4194304) ∧
      (this.m_u32SamplesPerFrame = 1 → l = [1]) ∧
      (this.m_u32SamplesPerFrame = 2 → l = [1, 1 / 2]) := by
  have fin : FAILED inputConnection.GetUncompressedAudioFormat.1 = false := by
    simp only [SUCCEEDED, decide_eq_true_eq] at hin
    simp only [FAILED, decide_eq_false_iff_not, not_lt]
    exact hin
  have fout : FAILED outputConnection.GetUncompressedAudioFormat.1 = false := by
    simp only [SUCCEEDED, decide_eq_true_eq] at hout
    simp only [FAILED, decide_eq_false_iff_not, not_lt]
    exact hout
  have falloc : FAILED hrAllocate = false := by
    simp only [SUCCEEDED, decide_eq_true_eq] at halloc
    simp only [FAILED, decide_eq_false_iff_not, not_lt]
    exact halloc
  have hres : ValidateAndCacheConnectionInfo this inputConnection outputConnection hrAllocate =
      (hrAllocate, { this with m_pf32Coefficients := some ((List.range
        this.m_u32SamplesPerFrame).map (coefficientAt
          (F32_div 1 (F32_of_UINT32 this.m_u32SamplesPerFrame)))) }) := by
    simp [ValidateAndCacheConnectionInfo, fin, fout, falloc]
  rw [hres]
  refine ⟨halloc, _, rfl, by simp, ?_, ?_, ?_, ?_, ?_⟩
  · intro c hc
    simp [hc, coefficientAt, F32_sub, F32_mul, F32_div, F32_of_UINT32]
  · have h0 : 0 < this.m_u32SamplesPerFrame := hN
    simp [h0, coefficientAt_zero]
  · intro hN2 c hc
    have hget : ((List.range this.m_u32SamplesPerFrame).map (coefficientAt
        (F32_div 1 (F32_of_UINT32 this.m_u32SamplesPerFrame)))).getD c 0 =
        coefficientAt (F32_div 1 (F32_of_UINT32 this.m_u32SamplesPerFrame)) c := by
      simp [List.getD, hc]
    rw [hget]
    exact coefficientAt_near _ c hN hN2 hc
  · intro h1
    rw [h1]
    simp [List.range_succ, coefficientAt_zero]
  · intro h2
    rw [h2]
    have hh : roundF32 (1 / 2) = 1 / 2 := by
      have := roundF32_exact 1 (-1) (by norm_num) (by norm_num)
      norm_num at this
      exact this
    have r2 : roundF32 2 = 2 := by simpa using roundF32_natCast 2 (by norm_num)
    have r1 : roundF32 1 = 1 := by simpa using roundF32_natCast 1 (by norm_num)
    have c1 : coefficientAt (1 / 2) 1 = 1 / 2 := by
      simp only [coefficientAt, F32_sub, F32_mul, F32_of_UINT32, Nat.cast_one, r1, mul_one, hh]
      rw [show (1 : ℚ) - 1 / 2 = 1 / 2 by norm_num, hh]
    simp only [F32_div, F32_of_UINT32, Nat.cast_ofNat, r2, hh]
    simp [List.range_succ, coefficientAt_zero]
    simpa using c1

/-- The statement of `ValidateAndCacheConnectionInfo_coefficients` at a two-channel lock whose
format queries and allocation succeed. -/
theorem ValidateAndCacheConnectionInfo_coefficients_witness :
    SUCCEEDED S_OK = true ∧ 1 ≤ (2 : UINT32) ∧
    (ValidateAndCacheConnectionInfo
      { exampleObject AUDIO_SIGNALPROCESSINGMODE_DEFAULT 1 with m_u32SamplesPerFrame := 2 }
      (exampleDescriptor 2) (exampleDescriptor 2) S_OK).2.m_pf32Coefficients =
      some [1, 1 / 2] := by
  refine ⟨by decide, by decide, ?_⟩
  obtain ⟨_, l, hl, _, _, _, _, _, h2⟩ := ValidateAndCacheConnectionInfo_coefficients
    { exampleObject AUDIO_SIGNALPROCESSINGMODE_DEFAULT 1 with m_u32SamplesPerFrame := 2 }
    (exampleDescriptor 2) (exampleDescriptor 2) S_OK (by decide) (by decide) (by decide)
    (by decide)
  rw [hl, h2 rfl]

/-! ### Silent and invalid input blocks -/

/-- Claim C19. For a Silent input `APOProcess` zero-fills the input block's
`frameCount * channelCount` samples before anything else, on both paths: the call leaves the
memory and the object that the same call on a Valid block leaves in the zero-filled memory. On
the chain path the gain stage, which reads the input block, is handed the zero-filled memory;
on the passthrough path a copy reads the zero-filled block, so the copied output samples are
all zero. -/
theorem APOProcess_silent_zero_first {B : Type} (h : InterAPO_h B) (this : CInterAPOMFX B)
    (nIn nOut : UINT32) (input output : APO_CONNECTION_PROPERTY) (mem : Memory)
    (hs : input.u32BufferFlags = BUFFER_SILENT) :
    (∀ i, i < input.u32ValidFrameCount * this.m_u32SamplesPerFrame →
      WriteSilence input.pBuffer input.u32ValidFrameCount this.m_u32SamplesPerFrame mem
        (input.pBuffer + i) = 0) ∧
    (APOProcess h this nIn input nOut output mem).mem =
      (APOProcess h this nIn { input with u32BufferFlags := BUFFER_VALID } nOut output
        (WriteSilence input.pBuffer input.u32ValidFrameCount this.m_u32SamplesPerFrame mem)).mem ∧
    (APOProcess h this nIn input nOut output mem).this =
      (APOProcess h this nIn { input with u32BufferFlags := BUFFER_VALID } nOut output
        (WriteSilence input.pBuffer input.u32ValidFrameCount this.m_u32SamplesPerFrame mem)).this ∧
    (this.m_AudioProcessingMode ≠ AUDIO_SIGNALPROCESSINGMODE_RAW → this.m_fEnableInterMFX ≠ 0 →
      (APOProcess h this nIn input nOut output mem).mem =
        (h.Equalizer output.pBuffer output.pBuffer input.u32ValidFrameCount
          this.m_u32SamplesPerFrame this.m_EqMFX.m_HighFilter
          (h.Equalizer output.pBuffer output.pBuffer input.u32ValidFrameCount
            this.m_u32SamplesPerFrame this.m_EqMFX.m_MidFilter
            (h.Equalizer output.pBuffer output.pBuffer input.u32ValidFrameCount
              this.m_u32SamplesPerFrame this.m_EqMFX.m_LowFilter
              (h.GainControl output.pBuffer input.pBuffer input.u32ValidFrameCount
                this.m_u32SamplesPerFrame this.m_iInterGainMFX
                (WriteSilence input.pBuffer input.u32ValidFrameCount
                  this.m_u32SamplesPerFrame mem))).1).1).1) ∧
    (¬ (this.m_AudioProcessingMode ≠ AUDIO_SIGNALPROCESSINGMODE_RAW ∧
        this.m_fEnableInterMFX ≠ 0) → 0 ≠ nOut → output.pBuffer ≠ input.pBuffer →
      ∀ i, i < input.u32ValidFrameCount * this.m_u32SamplesPerFrame →
        (APOProcess h this nIn input nOut output mem).mem (output.pBuffer + i) = 0) := by
  have hz : ∀ i, i < input.u32ValidFrameCount * this.m_u32SamplesPerFrame →
      WriteSilence input.pBuffer input.u32ValidFrameCount this.m_u32SamplesPerFrame mem
        (input.pBuffer + i) = 0 := by
    intro i hi
    simp [WriteSilence, hi]
  have h0 : ¬ BUFFER_SILENT = BUFFER_INVALID := by decide
  have h1 : ¬ BUFFER_VALID = BUFFER_INVALID := by decide
  have h2 : ¬ BUFFER_SILENT = BUFFER_VALID := by decide
  refine ⟨hz, ?_, ?_, ?_, ?_⟩
  · by_cases hc : chainRuns this = true
    · simp [APOProcess, hs, h0, h1, h2, hc, APOProcess_silence, APOProcess_chain,
        GetSamplesPerFrame]
    · simp [APOProcess, hs, h0, h1, h2, hc, APOProcess_silence, APOProcess_passthrough,
        GetSamplesPerFrame]
  · by_cases hc : chainRuns this = true
    · simp [APOProcess, hs, h0, h1, h2, hc, APOProcess_silence, APOProcess_chain,
        GetSamplesPerFrame]
    · simp [APOProcess, hs, h0, h1, h2, hc, APOProcess_silence, APOProcess_passthrough,
        GetSamplesPerFrame]
  · intro hmode hen
    have hc : chainRuns this = true := by simp [chainRuns, IsEqualGUID, hmode, hen]
    simp [APOProcess, hs, h0, hc, APOProcess_silence, APOProcess_chain, GetSamplesPerFrame]
  · intro hno hn hp i hi
    have hc : chainRuns this = false := by
      by_cases hmode : this.m_AudioProcessingMode = AUDIO_SIGNALPROCESSINGMODE_RAW
      · simp [chainRuns, IsEqualGUID, hmode]
      · have hen : this.m_fEnableInterMFX = 0 := by
          by_contra hen
          exact hno ⟨hmode, hen⟩
        simp [chainRuns, IsEqualGUID, hen]
    have hmem : (APOProcess h this nIn input nOut output mem).mem =
        CopyFrames output.pBuffer input.pBuffer input.u32ValidFrameCount this.m_u32SamplesPerFrame
          (WriteSilence input.pBuffer input.u32ValidFrameCount this.m_u32SamplesPerFrame mem) := by
      simp [APOProcess, hs, h0, hc, APOProcess_passthrough, APOProcess_silence, hp,
        GetSamplesPerFrame]
      intro e
      exact absurd e hn
    rw [hmem]
    simp only [CopyFrames]
    rw [if_pos ⟨Nat.le_add_right _ _, Nat.add_lt_add_left hi _⟩, Nat.add_sub_cancel_left]
    exact hz i hi

/-- The statement of `APOProcess_silent_zero_first` at a disabled Default-mode object: a Silent
one-frame input at address 0 holding 5, output at address 8 holding 5; the output sample
becomes 0. -/
theorem APOProcess_silent_zero_first_witness :
    (⟨0, 1, BUFFER_SILENT⟩ : APO_CONNECTION_PROPERTY).u32BufferFlags = BUFFER_SILENT ∧
    (APOProcess exampleHeader (exampleObject AUDIO_SIGNALPROCESSINGMODE_DEFAULT 0) 1
      ⟨0, 1, BUFFER_SILENT⟩ 1 ⟨8, 0, BUFFER_INVALID⟩ (fun _ => 5)).mem 8 = 0 :=
  ⟨rfl, (APOProcess_silent_zero_first exampleHeader
    (exampleObject AUDIO_SIGNALPROCESSINGMODE_DEFAULT 0) 1 1 ⟨0, 1, BUFFER_SILENT⟩
    ⟨8, 0, BUFFER_INVALID⟩ (fun _ => 5) rfl).2.2.2.2 (by decide) (by decide) (by decide) 0
    (by decide)⟩

/-- Claim C20. With an input tag that is neither Valid nor Silent (Invalid, or any other
value) `APOProcess` does nothing in a release build: the output tag, the output valid frame
count, every sample and the object with all its filter state are as before the call, and the
call returns. -/
theorem APOProcess_invalid_noop {B : Type} (h : InterAPO_h B) (this : CInterAPOMFX B)
    (nIn nOut : UINT32) (input output : APO_CONNECTION_PROPERTY) (mem : Memory)
    (hv : input.u32BufferFlags ≠ BUFFER_VALID) (hs : input.u32BufferFlags ≠ BUFFER_SILENT) :
    APOProcess h this nIn input nOut output mem = ⟨this, output, mem⟩ := by
  have h1 : ¬ (input.u32BufferFlags = BUFFER_VALID ∨ input.u32BufferFlags = BUFFER_SILENT) := by
    rintro (h1 | h1)
    · exact hv h1
    · exact hs h1
  unfold APOProcess
  rw [if_neg h1]
  split_ifs <;> rfl

/-- The statement of `APOProcess_invalid_noop` at an Invalid input and at the tag value 7, on
an enabled Default-mode object. -/
theorem APOProcess_invalid_noop_witness :
    BUFFER_INVALID ≠ BUFFER_VALID ∧ BUFFER_INVALID ≠ BUFFER_SILENT ∧
    APOProcess exampleHeader (exampleObject AUDIO_SIGNALPROCESSINGMODE_DEFAULT 1) 1
      ⟨0, 3, BUFFER_INVALID⟩ 1 ⟨8, 7, BUFFER_SILENT⟩ (fun _ => 5) =
      ⟨exampleObject AUDIO_SIGNALPROCESSINGMODE_DEFAULT 1, ⟨8, 7, BUFFER_SILENT⟩, fun _ => 5⟩ ∧
    APOProcess exampleHeader (exampleObject AUDIO_SIGNALPROCESSINGMODE_DEFAULT 1) 1
      ⟨0, 3, 7⟩ 1 ⟨8, 7, BUFFER_SILENT⟩ (fun _ => 5) =
      ⟨exampleObject AUDIO_SIGNALPROCESSINGMODE_DEFAULT 1, ⟨8, 7, BUFFER_SILENT⟩, fun _ => 5⟩ :=
  ⟨by decide, by decide,
    APOProcess_invalid_noop exampleHeader (exampleObject AUDIO_SIGNALPROCESSINGMODE_DEFAULT 1)
      1 1 ⟨0, 3, BUFFER_INVALID⟩ ⟨8, 7, BUFFER_SILENT⟩ (fun _ => 5) (by decide) (by decide),
    APOProcess_invalid_noop exampleHeader (exampleObject AUDIO_SIGNALPROCESSINGMODE_DEFAULT 1)
      1 1 ⟨0, 3, 7⟩ ⟨8, 7, BUFFER_SILENT⟩ (fun _ => 5) (by decide) (by decide)⟩

/-! ### The effects-changed signal -/

/-- One iteration of the notification loop counts a change exactly when the derived setting
of its row differs from the stored one. -/
theorem OnPropertyValueChanged_body_nChanges {B : Type} (h : InterAPO_h B)
    (properties : IPropertyStore) (st : ChangeLoop B) (k : PROPERTYKEY) (v : ControlMember)
    (f : Option FilterMember) :
    (OnPropertyValueChanged_body h properties st ⟨k, v, f⟩).nChanges =
      st.nChanges +
        (if GetCurrentEffectsSetting properties k st.this.m_AudioProcessingMode ≠ v.read st.this
          then 1 else 0) := by
  by_cases hne : GetCurrentEffectsSetting properties k st.this.m_AudioProcessingMode =
      v.read st.this <;>
    simp [OnPropertyValueChanged_body, hne]

/-- One iteration of the notification loop leaves the event handle alone. -/
theorem OnPropertyValueChanged_body_handle {B : Type} (h : InterAPO_h B)
    (properties : IPropertyStore) (st : ChangeLoop B) (c : KeyControl) :
    (OnPropertyValueChanged_body h properties st c).this.m_hEffectsChangedEvent =
      st.this.m_hEffectsChangedEvent := by
  obtain ⟨k, v, f⟩ := c
  unfold OnPropertyValueChanged_body
  cases v <;> rcases f with _ | f <;> try cases f
  all_goals
    simp only [ControlMember.read, ControlMember.write, FilterMember.Prepare]
    split_ifs <;> rfl

/-- A sum of five 0-or-1 indicators is positive exactly when one of the conditions holds. -/
theorem indicator_sum_pos (p1 p2 p3 p4 p5 : Prop) [Decidable p1] [Decidable p2] [Decidable p3]
    [Decidable p4] [Decidable p5] :
    (0 : Int) < (if p1 then 1 else 0) + (if p2 then 1 else 0) + (if p3 then 1 else 0) +
        (if p4 then 1 else 0) + (if p5 then 1 else 0) ↔ p1 ∨ p2 ∨ p3 ∨ p4 ∨ p5 := by
  by_cases h1 : p1 <;> by_cases h2 : p2 <;> by_cases h3 : p3 <;> by_cases h4 : p4 <;>
    by_cases h5 : p5 <;> simp [h1, h2, h3, h4, h5]

/-- Claim C11, as stated, fails. The store holds gain level 5, the stored gain level is 0 and
an event handle is registered; the notification for the gain-level key makes no `SetEvent`
call, although the effective gain level has changed from 0 to 5. -/
theorem OnPropertyValueChanged_other_key_no_signal :
    GetCurrentEffectsSetting
      (exampleStore [(exampleKeys.PKEY_Endpoint_Inter_Gain_Level_MFX, 5)])
      exampleKeys.PKEY_Endpoint_Inter_Gain_Level_MFX AUDIO_SIGNALPROCESSINGMODE_DEFAULT = 5 ∧
    ({ exampleObject AUDIO_SIGNALPROCESSINGMODE_DEFAULT 0 with
        m_spAPOSystemEffectsProperties :=
          some (exampleStore [(exampleKeys.PKEY_Endpoint_Inter_Gain_Level_MFX, 5)]),
        m_hEffectsChangedEvent := some 7 } : CInterAPOMFX LONG).m_iInterGainMFX = 0 ∧
    (OnPropertyValueChanged exampleHeader
      { exampleObject AUDIO_SIGNALPROCESSINGMODE_DEFAULT 0 with
        m_spAPOSystemEffectsProperties :=
          some (exampleStore [(exampleKeys.PKEY_Endpoint_Inter_Gain_Level_MFX, 5)]),
        m_hEffectsChangedEvent := some 7 }
      exampleKeys.PKEY_Endpoint_Inter_Gain_Level_MFX).nSetEvent = 0 := by
  refine ⟨by decide, rfl, rfl⟩

/-- Claim C11, amended. One `OnPropertyValueChanged` call makes exactly one `SetEvent` call on
the registered handle if a property store is present, the changed key is the enable key or the
master disable key, the newly derived effective value of at least one of the five controls
differs from the stored one, and a handle is registered; it makes none if no control's derived
value differs, if no handle is registered, if the key is any other key, or if no store is
present. -/
theorem OnPropertyValueChanged_signal_count {B : Type} (h : InterAPO_h B)
    (this : CInterAPOMFX B) (key : PROPERTYKEY) :
    (∀ properties, this.m_spAPOSystemEffectsProperties = some properties →
      (PK_EQUAL key h.keys.PKEY_Endpoint_Enable_Interface_MFX = true ∨
        PK_EQUAL key PKEY_AudioEndpoint_Disable_SysFx = true) →
      ((∃ c ∈ controls h.keys,
          GetCurrentEffectsSetting properties c.key this.m_AudioProcessingMode ≠
            c.value.read this) →
        this.m_hEffectsChangedEvent ≠ none →
        (OnPropertyValueChanged h this key).nSetEvent = 1) ∧
      (¬ (∃ c ∈ controls h.keys,
          GetCurrentEffectsSetting properties c.key this.m_AudioProcessingMode ≠
            c.value.read this) →
        (OnPropertyValueChanged h this key).nSetEvent = 0)) ∧
    (this.m_hEffectsChangedEvent = none → (OnPropertyValueChanged h this key).nSetEvent = 0) ∧
    (¬ (PK_EQUAL key h.keys.PKEY_Endpoint_Enable_Interface_MFX = true ∨
        PK_EQUAL key PKEY_AudioEndpoint_Disable_SysFx = true) →
      (OnPropertyValueChanged h this key).nSetEvent = 0) ∧
    (this.m_spAPOSystemEffectsProperties = none →
      (OnPropertyValueChanged h this key).nSetEvent = 0) := by
  have hfold : ∀ properties,
      ((controls h.keys).foldl (OnPropertyValueChanged_body h properties) ⟨this, 0⟩).nChanges =
        (if GetCurrentEffectsSetting properties h.keys.PKEY_Endpoint_Enable_Interface_MFX
            this.m_AudioProcessingMode ≠ this.m_fEnableInterMFX then 1 else 0) +
        (if GetCurrentEffectsSetting properties h.keys.PKEY_Endpoint_Inter_Gain_Level_MFX
            this.m_AudioProcessingMode ≠ this.m_iInterGainMFX then 1 else 0) +
        (if GetCurrentEffectsSetting properties h.keys.PKEY_Endpoint_Inter_EQ_Low_SFX
            this.m_AudioProcessingMode ≠ this.m_iInterEqLowMFX then 1 else 0) +
        (if GetCurrentEffectsSetting properties h.keys.PKEY_Endpoint_Inter_EQ_Mid_SFX
            this.m_AudioProcessingMode ≠ this.m_iInterEqMidMFX then 1 else 0) +
        (if GetCurrentEffectsSetting properties h.keys.PKEY_Endpoint_Inter_EQ_High_SFX
            this.m_AudioProcessingMode ≠ this.m_iInterEqHighMFX then 1 else 0) ∧
      ((controls h.keys).foldl (OnPropertyValueChanged_body h properties)
        ⟨this, 0⟩).this.m_hEffectsChangedEvent = this.m_hEffectsChangedEvent := by
    intro properties
    simp (disch := decide) only [controls, List.foldl, OnPropertyValueChanged_body_nChanges,
      OnPropertyValueChanged_body_handle, OnPropertyValueChanged_body_mode, and_true,
      OnPropertyValueChanged_body_read_other]
    simp only [ControlMember.read, zero_add]
  refine ⟨?_, ?_, ?_, ?_⟩
  · intro properties hp hk
    have hk2 : (PK_EQUAL key h.keys.PKEY_Endpoint_Enable_Interface_MFX ||
        PK_EQUAL key PKEY_AudioEndpoint_Disable_SysFx) = true := by
      rcases hk with hk | hk <;> simp [hk]
    have hn : (OnPropertyValueChanged h this key).nSetEvent =
        if 0 < ((controls h.keys).foldl (OnPropertyValueChanged_body h properties)
            ⟨this, 0⟩).nChanges ∧ this.m_hEffectsChangedEvent ≠ none then 1 else 0 := by
      simp only [OnPropertyValueChanged, hp, hk2, if_true, (hfold properties).2]
    rw [hn, (hfold properties).1]
    simp only [controls, List.mem_cons, List.mem_singleton, List.not_mem_nil, or_false,
      exists_eq_or_imp, exists_eq_left, ControlMember.read]
    constructor
    · intro hex hh
      rw [if_pos]
      exact ⟨(indicator_sum_pos _ _ _ _ _).mpr hex, hh⟩
    · intro hno
      simp only [not_or, not_not] at hno
      obtain ⟨e1, e2, e3, e4, e5⟩ := hno
      simp [e1, e2, e3, e4, e5]
  · intro hh
    unfold OnPropertyValueChanged
    cases hp : this.m_spAPOSystemEffectsProperties with
    | none => rfl
    | some properties =>
      simp only
      split_ifs with hk hc
      · exact absurd ((hfold properties).2.trans hh) hc.2
      · rfl
      · rfl
  · intro hk
    have hk2 : (PK_EQUAL key h.keys.PKEY_Endpoint_Enable_Interface_MFX ||
        PK_EQUAL key PKEY_AudioEndpoint_Disable_SysFx) = false := by
      simp only [not_or, Bool.not_eq_true] at hk
      simp [hk.1, hk.2]
    unfold OnPropertyValueChanged
    cases this.m_spAPOSystemEffectsProperties <;> simp [hk2]
  · intro hp
    simp [OnPropertyValueChanged, hp]

/-- The statement of `OnPropertyValueChanged_signal_count` at the scenario of the enable key:
the stored enable value is 1, the store no longer holds the enable key, a handle is registered;
the notification for the enable key makes exactly one `SetEvent` call. -/
theorem OnPropertyValueChanged_signal_count_witness :
    (OnPropertyValueChanged exampleHeader
      { exampleObject AUDIO_SIGNALPROCESSINGMODE_DEFAULT 1 with
        m_spAPOSystemEffectsProperties := some (exampleStore []),
        m_hEffectsChangedEvent := some 7 }
      exampleKeys.PKEY_Endpoint_Enable_Interface_MFX).nSetEvent = 1 :=
  ((OnPropertyValueChanged_signal_count exampleHeader
      { exampleObject AUDIO_SIGNALPROCESSINGMODE_DEFAULT 1 with
        m_spAPOSystemEffectsProperties := some (exampleStore []),
        m_hEffectsChangedEvent := some 7 }
      exampleKeys.PKEY_Endpoint_Enable_Interface_MFX).1 (exampleStore []) rfl
      (Or.inl (by decide))).1
    ⟨⟨exampleKeys.PKEY_Endpoint_Enable_Interface_MFX, .m_fEnableInterMFX, none⟩,
      by simp [controls, exampleHeader], by decide⟩
    (by simp)

/-- Without a registered handle a notification makes no `SetEvent` call. -/
theorem OnPropertyValueChanged_no_handle {B : Type} (h : InterAPO_h B) (this : CInterAPOMFX B)
    (key : PROPERTYKEY) (hh : this.m_hEffectsChangedEvent = none) :
    (OnPropertyValueChanged h this key).nSetEvent = 0 := by
  have hfold : ∀ (l : List KeyControl) (properties : IPropertyStore) (st : ChangeLoop B),
      (l.foldl (OnPropertyValueChanged_body h properties) st).this.m_hEffectsChangedEvent =
        st.this.m_hEffectsChangedEvent := by
    intro l properties
    induction l with
    | nil => intro st; rfl
    | cons c l ih =>
      intro st
      rw [List.foldl_cons, ih, OnPropertyValueChanged_body_handle]
  unfold OnPropertyValueChanged
  cases hp : this.m_spAPOSystemEffectsProperties with
  | none => rfl
  | some properties =>
    simp only
    split_ifs with hk hc
    · exact absurd ((hfold _ properties _).trans hh) hc.2
    · rfl
    · rfl

/-! ### GetEffectsList -/

/-- Claim C16. A registration call (`GetEffectsList` with non-null output pointers) whose
handle duplication, if one is made, succeeds first closes the previously stored effects-changed
handle, if there is one, and then stores the duplicate of the new handle: these are its only
handle calls, in this order. When the passed handle is NULL the object afterwards holds no
handle and no later notification signals. The object holding at most one duplicated handle
before the call, it holds at most one after each call the method makes. -/
theorem GetEffectsList_registers {B : Type} (InterEffectId : GUID) (this : CInterAPOMFX B)
    (pp : Option (List GUID)) (pc : UINT32) (Event duplicate : Option HANDLE)
    (hrLastError : HRESULT) (allocationSucceeds : Bool)
    (hdup : Event ≠ none → duplicate ≠ none) :
    (GetEffectsList InterEffectId this (some pp) (some pc) Event duplicate hrLastError
      allocationSucceeds).calls.filter Call.isHandleCall =
      (match this.m_hEffectsChangedEvent with
        | some old => [Call.CloseHandle old]
        | none => []) ++
      (match Event with
        | some event => [Call.DuplicateHandle event duplicate]
        | none => []) ∧
    (Event ≠ none →
      (GetEffectsList InterEffectId this (some pp) (some pc) Event duplicate hrLastError
        allocationSucceeds).this.m_hEffectsChangedEvent = duplicate) ∧
    (Event = none →
      (GetEffectsList InterEffectId this (some pp) (some pc) Event duplicate hrLastError
        allocationSucceeds).this.m_hEffectsChangedEvent = none ∧
      ∀ (h : InterAPO_h B) (key : PROPERTYKEY),
        (OnPropertyValueChanged h
          (GetEffectsList InterEffectId this (some pp) (some pc) Event duplicate hrLastError
            allocationSucceeds).this key).nSetEvent = 0) ∧
    (∀ n, heldHandles (if this.m_hEffectsChangedEvent.isSome then 1 else 0)
      ((GetEffectsList InterEffectId this (some pp) (some pc) Event duplicate hrLastError
        allocationSucceeds).calls.take n) ≤ 1) := by
  have hlist : ∀ (t : CInterAPOMFX B) (calls : List Call),
      (GetEffectsList_list InterEffectId t (some pp) (some pc) allocationSucceeds calls).this = t ∧
      ∃ rest, (GetEffectsList_list InterEffectId t (some pp) (some pc) allocationSucceeds
          calls).calls = calls ++ rest ∧
        (rest = [Call.EffectsLock_Leave] ∨
          rest = [Call.CoTaskMemAlloc allocationSucceeds, Call.EffectsLock_Leave]) := by
    intro t calls
    unfold GetEffectsList_list
    simp only
    split_ifs
    all_goals
      first
        | exact ⟨rfl, [Call.EffectsLock_Leave], rfl, Or.inl rfl⟩
        | exact ⟨rfl, [Call.CoTaskMemAlloc allocationSucceeds, Call.EffectsLock_Leave],
            by simp, Or.inr rfl⟩
  have hheld : ∀ (k : Nat) (calls rest : List Call), k ≤ 1 →
      (∀ m, heldHandles k (calls.take m) ≤ 1) → heldHandles k calls ≤ 1 →
      (rest = [Call.EffectsLock_Leave] ∨
        rest = [Call.CoTaskMemAlloc allocationSucceeds, Call.EffectsLock_Leave]) →
      ∀ n, heldHandles k ((calls ++ rest).take n) ≤ 1 := by
    intro k calls rest _ hpre hall hrest n
    have happ : ∀ (cs : List Call) (k : Nat) (tail : List Call),
        (∀ c ∈ tail, c.isHandleCall = false) →
        heldHandles k (cs ++ tail) = heldHandles k cs := by
      intro cs
      induction cs with
      | nil =>
        intro k tail ht
        induction tail generalizing k with
        | nil => rfl
        | cons c tail ih =>
          have hc := ht c (List.mem_cons_self _ _)
          have ih2 := ih k (fun c2 hc2 => ht c2 (List.mem_cons_of_mem _ hc2))
          cases c <;> simp_all [heldHandles, Call.isHandleCall]
      | cons c cs ih =>
        intro k tail ht
        cases c with
        | DuplicateHandle s r =>
          cases r <;> simp [heldHandles, ih _ _ ht]
        | _ => simp [heldHandles, ih _ _ ht]
    rw [List.take_append_eq_append_take]
    rw [happ]
    · exact hpre n
    · intro c hc
      have hc2 := List.mem_of_mem_take hc
      rcases hrest with rfl | rfl <;> simp at hc2 <;> rcases hc2 with rfl | rfl <;> rfl
  rcases Event with _ | event
  · cases hold : this.m_hEffectsChangedEvent with
    | none =>
      obtain ⟨ht, rest, hc, hrest⟩ := hlist { this with m_hEffectsChangedEvent := none }
        [Call.EffectsLock_Enter]
      have hcalls : (GetEffectsList InterEffectId this (some pp) (some pc) none duplicate
          hrLastError allocationSucceeds).calls = [Call.EffectsLock_Enter] ++ rest := by
        simp only [GetEffectsList, hold, Option.isNone_some, Bool.false_eq_true, if_false]
        exact hc
      have hthis : (GetEffectsList InterEffectId this (some pp) (some pc) none duplicate
          hrLastError allocationSucceeds).this = { this with m_hEffectsChangedEvent := none } := by
        simp only [GetEffectsList, hold, Option.isNone_some, Bool.false_eq_true, if_false]
        exact ht
      refine ⟨?_, fun hne => absurd rfl hne, fun _ => ⟨?_, ?_⟩, ?_⟩
      · rw [hcalls]
        rcases hrest with rfl | rfl <;> simp [Call.isHandleCall]
      · rw [hthis]
      · intro h key
        exact OnPropertyValueChanged_no_handle h _ key (by rw [hthis])
      · rw [hcalls]
        simp only [Option.isSome_none, Bool.false_eq_true, if_false]
        refine hheld 0 _ rest (by omega) ?_ ?_ hrest
        · intro m
          rcases m with _ | m <;> simp [heldHandles]
        · simp [heldHandles]
    | some old =>
      obtain ⟨ht, rest, hc, hrest⟩ := hlist { this with m_hEffectsChangedEvent := none }
        [Call.EffectsLock_Enter, Call.CloseHandle old]
      have hcalls : (GetEffectsList InterEffectId this (some pp) (some pc) none duplicate
          hrLastError allocationSucceeds).calls =
          [Call.EffectsLock_Enter, Call.CloseHandle old] ++ rest := by
        simp only [GetEffectsList, hold, Option.isNone_some, Bool.false_eq_true, if_false]
        exact hc
      have hthis : (GetEffectsList InterEffectId this (some pp) (some pc) none duplicate
          hrLastError allocationSucceeds).this = { this with m_hEffectsChangedEvent := none } := by
        simp only [GetEffectsList, hold, Option.isNone_some, Bool.false_eq_true, if_false]
        exact ht
      refine ⟨?_, fun hne => absurd rfl hne, fun _ => ⟨?_, ?_⟩, ?_⟩
      · rw [hcalls]
        rcases hrest with rfl | rfl <;> simp [Call.isHandleCall]
      · rw [hthis]
      · intro h key
        exact OnPropertyValueChanged_no_handle h _ key (by rw [hthis])
      · rw [hcalls]
        simp only [Option.isSome_some, if_true]
        refine hheld 1 _ rest (by omega) ?_ ?_ hrest
        · intro m
          rcases m with _ | _ | m <;> simp [heldHandles]
        · simp [heldHandles]
  · have hd : duplicate ≠ none := hdup (by simp)
    obtain ⟨d, rfl⟩ := Option.ne_none_iff_exists'.mp hd
    cases hold : this.m_hEffectsChangedEvent with
    | none =>
      obtain ⟨ht, rest, hc, hrest⟩ := hlist { this with m_hEffectsChangedEvent := some d }
        [Call.EffectsLock_Enter, Call.DuplicateHandle event (some d)]
      have hcalls : (GetEffectsList InterEffectId this (some pp) (some pc) (some event) (some d)
          hrLastError allocationSucceeds).calls =
          [Call.EffectsLock_Enter, Call.DuplicateHandle event (some d)] ++ rest := by
        simp only [GetEffectsList, hold, Option.isNone_some, Bool.false_eq_true, if_false]
        exact hc
      have hthis : (GetEffectsList InterEffectId this (some pp) (some pc) (some event) (some d)
          hrLastError allocationSucceeds).this =
          { this with m_hEffectsChangedEvent := some d } := by
        simp only [GetEffectsList, hold, Option.isNone_some, Bool.false_eq_true, if_false]
        exact ht
      refine ⟨?_, fun _ => ?_, fun hne => by simp at hne, ?_⟩
      · rw [hcalls]
        rcases hrest with rfl | rfl <;> simp [Call.isHandleCall]
      · rw [hthis]
      · rw [hcalls]
        simp only [Option.isSome_none, Bool.false_eq_true, if_false]
        refine hheld 0 _ rest (by omega) ?_ ?_ hrest
        · intro m
          rcases m with _ | _ | m <;> simp [heldHandles]
        · simp [heldHandles]
    | some old =>
      obtain ⟨ht, rest, hc, hrest⟩ := hlist { this with m_hEffectsChangedEvent := some d }
        [Call.EffectsLock_Enter, Call.CloseHandle old, Call.DuplicateHandle event (some d)]
      have hcalls : (GetEffectsList InterEffectId this (some pp) (some pc) (some event) (some d)
          hrLastError allocationSucceeds).calls =
          [Call.EffectsLock_Enter, Call.CloseHandle old, Call.DuplicateHandle event (some d)] ++
            rest := by
        simp only [GetEffectsList, hold, Option.isNone_some, Bool.false_eq_true, if_false]
        exact hc
      have hthis : (GetEffectsList InterEffectId this (some pp) (some pc) (some event) (some d)
          hrLastError allocationSucceeds).this =
          { this with m_hEffectsChangedEvent := some d } := by
        simp only [GetEffectsList, hold, Option.isNone_some, Bool.false_eq_true, if_false]
        exact ht
      refine ⟨?_, fun _ => ?_, fun hne => by simp at hne, ?_⟩
      · rw [hcalls]
        rcases hrest with rfl | rfl <;> simp [Call.isHandleCall]
      · rw [hthis]
      · rw [hcalls]
        simp only [Option.isSome_some, if_true]
        refine hheld 1 _ rest (by omega) ?_ ?_ hrest
        · intro m
          rcases m with _ | _ | _ | m <;> simp [heldHandles]
        · simp [heldHandles]

/-- The statement of `GetEffectsList_registers` on an object that holds handle 7, registering
handle 9 whose duplicate is handle 11: handle 7 is closed, then handle 9 is duplicated, and the
object holds handle 11. -/
theorem GetEffectsList_registers_witness :
    ((some 9 : Option HANDLE) ≠ none → (some 11 : Option HANDLE) ≠ none) ∧
    (GetEffectsList GUID_NULL
      { exampleObject AUDIO_SIGNALPROCESSINGMODE_DEFAULT 1 with m_hEffectsChangedEvent := some 7 }
      (some none) (some 0) (some 9) (some 11) E_INVALIDARG true).calls.filter
        Call.isHandleCall = [Call.CloseHandle 7, Call.DuplicateHandle 9 (some 11)] ∧
    (GetEffectsList GUID_NULL
      { exampleObject AUDIO_SIGNALPROCESSINGMODE_DEFAULT 1 with m_hEffectsChangedEvent := some 7 }
      (some none) (some 0) (some 9) (some 11) E_INVALIDARG true).this.m_hEffectsChangedEvent =
      some 11 := by
  have hw := GetEffectsList_registers GUID_NULL
    { exampleObject AUDIO_SIGNALPROCESSINGMODE_DEFAULT 1 with m_hEffectsChangedEvent := some 7 }
    none 0 (some 9) (some 11) E_INVALIDARG true (fun _ => by simp)
  exact ⟨fun _ => by simp, hw.1, hw.2.1 (by simp)⟩

/-- Claim C17. `GetEffectsList` with non-null output pointers, a handle duplication that
succeeds if one is made and an allocation that succeeds returns `S_OK`; when no effect is
active (the mode is Raw or `m_fEnableInterMFX` is zero) it gives a NULL list and a count of
0, and otherwise a list holding the one GUID `InterEffectId` and a count of 1. -/
theorem GetEffectsList_list_and_count {B : Type} (InterEffectId : GUID) (this : CInterAPOMFX B)
    (pp : Option (List GUID)) (pc : UINT32) (Event duplicate : Option HANDLE)
    (hrLastError : HRESULT) (hdup : Event ≠ none → duplicate ≠ none) :
    (GetEffectsList InterEffectId this (some pp) (some pc) Event duplicate hrLastError
      true).hr = S_OK ∧
    ((this.m_AudioProcessingMode = AUDIO_SIGNALPROCESSINGMODE_RAW ∨ this.m_fEnableInterMFX = 0) →
      (GetEffectsList InterEffectId this (some pp) (some pc) Event duplicate hrLastError
        true).ppEffectsIds = some none ∧
      (GetEffectsList InterEffectId this (some pp) (some pc) Event duplicate hrLastError
        true).pcEffects = some 0) ∧
    (this.m_AudioProcessingMode ≠ AUDIO_SIGNALPROCESSINGMODE_RAW → this.m_fEnableInterMFX ≠ 0 →
      (GetEffectsList InterEffectId this (some pp) (some pc) Event duplicate hrLastError
        true).ppEffectsIds = some (some [InterEffectId]) ∧
      (GetEffectsList InterEffectId this (some pp) (some pc) Event duplicate hrLastError
        true).pcEffects = some 1) := by
  have hlist : ∀ (t : CInterAPOMFX B) (calls : List Call),
      t.m_AudioProcessingMode = this.m_AudioProcessingMode →
      t.m_fEnableInterMFX = this.m_fEnableInterMFX →
      (GetEffectsList_list InterEffectId t (some pp) (some pc) true calls).hr = S_OK ∧
      ((this.m_AudioProcessingMode = AUDIO_SIGNALPROCESSINGMODE_RAW ∨
          this.m_fEnableInterMFX = 0) →
        (GetEffectsList_list InterEffectId t (some pp) (some pc) true calls).ppEffectsIds =
          some none ∧
        (GetEffectsList_list InterEffectId t (some pp) (some pc) true calls).pcEffects =
          some 0) ∧
      (this.m_AudioProcessingMode ≠ AUDIO_SIGNALPROCESSINGMODE_RAW →
        this.m_fEnableInterMFX ≠ 0 →
        (GetEffectsList_list InterEffectId t (some pp) (some pc) true calls).ppEffectsIds =
          some (some [InterEffectId]) ∧
        (GetEffectsList_list InterEffectId t (some pp) (some pc) true calls).pcEffects =
          some 1) := by
    intro t calls hm he
    unfold GetEffectsList_list
    rw [hm, he]
    by_cases hraw : this.m_AudioProcessingMode = AUDIO_SIGNALPROCESSINGMODE_RAW
    · simp [IsEqualGUID, hraw]
    · by_cases hen : this.m_fEnableInterMFX = 0
      · simp [IsEqualGUID, hraw, hen]
      · simp [IsEqualGUID, hraw, hen, List.countP_cons, List.filter_cons]
  rcases Event with _ | event
  · simp only [GetEffectsList, Option.isNone_some, Bool.false_eq_true, if_false]
    exact hlist _ _ rfl rfl
  · have hd : duplicate ≠ none := hdup (by simp)
    obtain ⟨d, rfl⟩ := Option.ne_none_iff_exists'.mp hd
    simp only [GetEffectsList, Option.isNone_some, Bool.false_eq_true, if_false]
    exact hlist _ _ rfl rfl

/-- The statement of `GetEffectsList_list_and_count` on an enabled Default-mode object and on
a Raw one, registering handle 9 whose duplicate is handle 11. -/
theorem GetEffectsList_list_and_count_witness :
    (GetEffectsList ⟨42⟩ (exampleObject AUDIO_SIGNALPROCESSINGMODE_DEFAULT 1)
      (some none) (some 0) (some 9) (some 11) E_INVALIDARG true).ppEffectsIds =
      some (some [⟨42⟩]) ∧
    (GetEffectsList ⟨42⟩ (exampleObject AUDIO_SIGNALPROCESSINGMODE_DEFAULT 1)
      (some none) (some 0) (some 9) (some 11) E_INVALIDARG true).pcEffects = some 1 ∧
    (GetEffectsList ⟨42⟩ (exampleObject AUDIO_SIGNALPROCESSINGMODE_RAW 1)
      (some (some [])) (some 5) (some 9) (some 11) E_INVALIDARG true).ppEffectsIds =
      some none :=
  ⟨((GetEffectsList_list_and_count ⟨42⟩ (exampleObject AUDIO_SIGNALPROCESSINGMODE_DEFAULT 1)
      none 0 (some 9) (some 11) E_INVALIDARG (fun _ => by simp)).2.2 (by decide)
      (by decide)).1,
    ((GetEffectsList_list_and_count ⟨42⟩ (exampleObject AUDIO_SIGNALPROCESSINGMODE_DEFAULT 1)
      none 0 (some 9) (some 11) E_INVALIDARG (fun _ => by simp)).2.2 (by decide)
      (by decide)).2,
    ((GetEffectsList_list_and_count ⟨42⟩ (exampleObject AUDIO_SIGNALPROCESSINGMODE_RAW 1)
      (some []) 5 (some 9) (some 11) E_INVALIDARG (fun _ => by simp)).2.1
      (Or.inl rfl)).1⟩

/-! ### Lock, unlock and teardown -/

/-- A lock whose base class stage fails returns that stage's result. -/
theorem LockForProcess_of_base_failed {B : Type} (this : CInterAPOMFX B)
    (hrConnections : HRESULT) (inputConnection outputConnection : APO_CONNECTION_DESCRIPTOR)
    (hrAllocate : HRESULT) (nInterFrames : UINT32) (interAllocationSucceeds : Bool)
    (hf : FAILED (CBaseAudioProcessingObject_LockForProcess this hrConnections inputConnection
      outputConnection hrAllocate).hr = true) :
    LockForProcess this hrConnections inputConnection outputConnection hrAllocate nInterFrames
      interAllocationSucceeds =
      CBaseAudioProcessingObject_LockForProcess this hrConnections inputConnection
        outputConnection hrAllocate := by
  unfold LockForProcess
  simp only [hf, if_true]

/-- A lock fails, returns the failure code unchanged, mutates no state and makes no allocator
call when the base class's validation of the connections fails or when one of the two format
queries fails. `ValidateAndCacheConnectionInfo` itself reads the result codes of the two
queries only: the formats are compared by the validation that precedes it. -/
theorem LockForProcess_rejection {B : Type} (this : CInterAPOMFX B) (hrConnections : HRESULT)
    (inputConnection outputConnection : APO_CONNECTION_DESCRIPTOR) (hrAllocate : HRESULT)
    (nInterFrames : UINT32) (interAllocationSucceeds : Bool) :
    (FAILED hrConnections = true →
      LockForProcess this hrConnections inputConnection outputConnection hrAllocate
        nInterFrames interAllocationSucceeds = ⟨hrConnections, this, []⟩) ∧
    (FAILED hrConnections = false →
      FAILED inputConnection.GetUncompressedAudioFormat.1 = true →
      LockForProcess this hrConnections inputConnection outputConnection hrAllocate
        nInterFrames interAllocationSucceeds =
        ⟨inputConnection.GetUncompressedAudioFormat.1, this, []⟩) ∧
    (FAILED hrConnections = false →
      FAILED inputConnection.GetUncompressedAudioFormat.1 = false →
      FAILED outputConnection.GetUncompressedAudioFormat.1 = true →
      LockForProcess this hrConnections inputConnection outputConnection hrAllocate
        nInterFrames interAllocationSucceeds =
        ⟨outputConnection.GetUncompressedAudioFormat.1, this, []⟩) ∧
    (∀ inputFormat outputFormat : UNCOMPRESSEDAUDIOFORMAT,
      ValidateAndCacheConnectionInfo this
        ⟨(inputConnection.GetUncompressedAudioFormat.1, inputFormat)⟩
        ⟨(outputConnection.GetUncompressedAudioFormat.1, outputFormat)⟩ hrAllocate =
      ValidateAndCacheConnectionInfo this inputConnection outputConnection hrAllocate) := by
  refine ⟨?_, ?_, ?_, ?_⟩
  · intro hf
    rw [LockForProcess_of_base_failed]
    · simp [CBaseAudioProcessingObject_LockForProcess, hf]
    · simp [CBaseAudioProcessingObject_LockForProcess, hf]
  · intro hc hf
    rw [LockForProcess_of_base_failed]
    · simp [CBaseAudioProcessingObject_LockForProcess, hc, ValidateAndCacheConnectionInfo, hf,
        ValidateAndCacheConnectionInfo_calls]
    · simp [CBaseAudioProcessingObject_LockForProcess, hc, ValidateAndCacheConnectionInfo, hf]
  · intro hc hi hf
    rw [LockForProcess_of_base_failed]
    · simp [CBaseAudioProcessingObject_LockForProcess, hc, ValidateAndCacheConnectionInfo, hi,
        hf, ValidateAndCacheConnectionInfo_calls]
    · simp [CBaseAudioProcessingObject_LockForProcess, hc, ValidateAndCacheConnectionInfo, hi,
        hf]
  · intro inputFormat outputFormat
    simp [ValidateAndCacheConnectionInfo]

/-- Claim C12. A lock whose input and output formats differ in frame rate or in channel count
fails with `APOERR_INVALID_CONNECTION_FORMAT`, a failure code that is none of the codes of the
other failures this file names, and mutates no state: the object is left as it was (so it
stays unlocked and its coefficient buffer is neither allocated nor written) and no allocator
call is made. -/
theorem LockForProcess_format_mismatch {B : Type} (this : CInterAPOMFX B)
    (inputConnection outputConnection : APO_CONNECTION_DESCRIPTOR) (hrAllocate : HRESULT)
    (nInterFrames : UINT32) (interAllocationSucceeds : Bool)
    (hdiff : outputConnection.GetUncompressedAudioFormat.2.fFramesPerSecond ≠
        inputConnection.GetUncompressedAudioFormat.2.fFramesPerSecond ∨
      outputConnection.GetUncompressedAudioFormat.2.dwSamplesPerFrame ≠
        inputConnection.GetUncompressedAudioFormat.2.dwSamplesPerFrame) :
    LockForProcess this
        (CBaseAudioProcessingObject_ValidateConnections inputConnection outputConnection)
        inputConnection outputConnection hrAllocate nInterFrames interAllocationSucceeds =
      ⟨APOERR_INVALID_CONNECTION_FORMAT, this, []⟩ ∧
    FAILED APOERR_INVALID_CONNECTION_FORMAT = true ∧
    APOERR_INVALID_CONNECTION_FORMAT ≠ E_OUTOFMEMORY ∧
    APOERR_INVALID_CONNECTION_FORMAT ≠ E_POINTER ∧
    APOERR_INVALID_CONNECTION_FORMAT ≠ E_INVALIDARG := by
  have hv : CBaseAudioProcessingObject_ValidateConnections inputConnection outputConnection =
      APOERR_INVALID_CONNECTION_FORMAT := by
    unfold CBaseAudioProcessingObject_ValidateConnections
    rw [if_pos hdiff]
  have hf : FAILED APOERR_INVALID_CONNECTION_FORMAT = true := by decide
  refine ⟨?_, hf, by decide, by decide, by decide⟩
  rw [hv]
  exact (LockForProcess_rejection this APOERR_INVALID_CONNECTION_FORMAT inputConnection
    outputConnection hrAllocate nInterFrames interAllocationSucceeds).1 hf

/-- The statement of `LockForProcess_format_mismatch` at an unlocked two-channel object locked
with a 2-channel input at 48000 frames per second and a 1-channel output at 44100: the lock
fails with the format-mismatch code and leaves the object unlocked with no coefficient
buffer. A lock of the same object with the 2-channel format on both sides succeeds. -/
theorem LockForProcess_format_mismatch_witness :
    (LockForProcess
      { exampleObject AUDIO_SIGNALPROCESSINGMODE_DEFAULT 0 with m_u32SamplesPerFrame := 2 }
      (CBaseAudioProcessingObject_ValidateConnections (exampleDescriptor 2)
        ⟨(S_OK, ⟨1, 44100⟩)⟩)
      (exampleDescriptor 2) ⟨(S_OK, ⟨1, 44100⟩)⟩ S_OK 48000 true).hr =
      APOERR_INVALID_CONNECTION_FORMAT ∧
    (LockForProcess
      { exampleObject AUDIO_SIGNALPROCESSINGMODE_DEFAULT 0 with m_u32SamplesPerFrame := 2 }
      (CBaseAudioProcessingObject_ValidateConnections (exampleDescriptor 2)
        ⟨(S_OK, ⟨1, 44100⟩)⟩)
      (exampleDescriptor 2) ⟨(S_OK, ⟨1, 44100⟩)⟩ S_OK 48000 true).this.m_bIsLocked = false ∧
    (LockForProcess
      { exampleObject AUDIO_SIGNALPROCESSINGMODE_DEFAULT 0 with m_u32SamplesPerFrame := 2 }
      (CBaseAudioProcessingObject_ValidateConnections (exampleDescriptor 2)
        ⟨(S_OK, ⟨1, 44100⟩)⟩)
      (exampleDescriptor 2) ⟨(S_OK, ⟨1, 44100⟩)⟩ S_OK 48000
      true).this.m_pf32Coefficients = none ∧
    (LockForProcess
      { exampleObject AUDIO_SIGNALPROCESSINGMODE_DEFAULT 0 with m_u32SamplesPerFrame := 2 }
      (CBaseAudioProcessingObject_ValidateConnections (exampleDescriptor 2)
        ⟨(S_OK, ⟨1, 44100⟩)⟩)
      (exampleDescriptor 2) ⟨(S_OK, ⟨1, 44100⟩)⟩ S_OK 48000 true).calls = [] ∧
    (LockForProcess
      { exampleObject AUDIO_SIGNALPROCESSINGMODE_DEFAULT 0 with m_u32SamplesPerFrame := 2 }
      (CBaseAudioProcessingObject_ValidateConnections (exampleDescriptor 2)
        (exampleDescriptor 2))
      (exampleDescriptor 2) (exampleDescriptor 2) S_OK 48000 true).hr = S_OK := by
  have hw := (LockForProcess_format_mismatch
    { exampleObject AUDIO_SIGNALPROCESSINGMODE_DEFAULT 0 with m_u32SamplesPerFrame := 2 }
    (exampleDescriptor 2) ⟨(S_OK, ⟨1, 44100⟩)⟩ S_OK 48000 true (Or.inr (by decide))).1
  refine ⟨?_, ?_, ?_, ?_, ?_⟩
  · rw [hw]
  · rw [hw]
    rfl
  · rw [hw]
    rfl
  · rw [hw]
  · simp [LockForProcess, CBaseAudioProcessingObject_LockForProcess,
      CBaseAudioProcessingObject_ValidateConnections, ValidateAndCacheConnectionInfo,
      exampleDescriptor, FAILED, S_OK, chainRuns, exampleObject]

/-- Claim C13, the code at a failing input. A two-channel object in Default mode with the
effect enabled is locked; the base class stage succeeds (the coefficient buffer is allocated
and the object locked) and the allocation of the inter buffer fails. `LockForProcess` calls
`WriteSilence` on the null buffer for 96000 samples before it tests the pointer, then returns
`E_OUTOFMEMORY` with the object still locked and the coefficient buffer still allocated. -/
theorem LockForProcess_inter_allocation_failure :
    (LockForProcess
      { exampleObject AUDIO_SIGNALPROCESSINGMODE_DEFAULT 1 with m_u32SamplesPerFrame := 2 }
      S_OK (exampleDescriptor 2) (exampleDescriptor 2) S_OK 48000 false).hr = E_OUTOFMEMORY ∧
    (LockForProcess
      { exampleObject AUDIO_SIGNALPROCESSINGMODE_DEFAULT 1 with m_u32SamplesPerFrame := 2 }
      S_OK (exampleDescriptor 2) (exampleDescriptor 2) S_OK 48000 false).calls =
      [Call.AERT_Allocate S_OK, Call.CoTaskMemAlloc false, Call.WriteSilence true 96000] ∧
    (LockForProcess
      { exampleObject AUDIO_SIGNALPROCESSINGMODE_DEFAULT 1 with m_u32SamplesPerFrame := 2 }
      S_OK (exampleDescriptor 2) (exampleDescriptor 2) S_OK 48000 false).this.m_bIsLocked =
      true ∧
    (LockForProcess
      { exampleObject AUDIO_SIGNALPROCESSINGMODE_DEFAULT 1 with m_u32SamplesPerFrame := 2 }
      S_OK (exampleDescriptor 2) (exampleDescriptor 2) S_OK 48000
      false).this.m_pf32Coefficients ≠ none ∧
    (LockForProcess
      { exampleObject AUDIO_SIGNALPROCESSINGMODE_DEFAULT 1 with m_u32SamplesPerFrame := 2 }
      S_OK (exampleDescriptor 2) (exampleDescriptor 2) S_OK 48000
      false).this.m_pf32InterBuffer = none := by
  refine ⟨rfl, rfl, rfl, ?_, rfl⟩
  simp [LockForProcess, CBaseAudioProcessingObject_LockForProcess,
    ValidateAndCacheConnectionInfo, exampleDescriptor, FAILED, S_OK, chainRuns, IsEqualGUID,
    exampleObject, AUDIO_SIGNALPROCESSINGMODE_DEFAULT, AUDIO_SIGNALPROCESSINGMODE_RAW]

/-- The destructor frees one locked memory block if the object holds a coefficient buffer and
none otherwise. -/
theorem CInterAPOMFX_destructor_aertFreed {B : Type} (this : CInterAPOMFX B) :
    aertFreed (CInterAPOMFX_destructor this).2 =
      if this.m_pf32Coefficients.isSome then 1 else 0 := by
  unfold CInterAPOMFX_destructor aertFreed
  rcases this.m_hEffectsChangedEvent with _ | e <;>
    rcases this.m_pf32Coefficients with _ | c <;>
    rcases this.m_pf32InterBuffer with _ | b <;>
    by_cases hi : (this.m_bIsInitialized = true ∧ this.m_spEnumerator = true) <;>
    simp [hi, List.countP_append, List.countP_cons]

/-- Claim C14, the code at a failing input. A two-channel object is locked, unlocked, locked
again and destroyed, every call succeeding. The second lock finds the first coefficient buffer
still allocated and replaces the pointer: after it two blocks are allocated and none is freed,
and over the whole life of the object two blocks are allocated and one is freed. -/
theorem lock_unlock_lock_leaks :
    (CBaseAudioProcessingObject_UnlockForProcess
      (LockForProcess
        { exampleObject AUDIO_SIGNALPROCESSINGMODE_DEFAULT 0 with m_u32SamplesPerFrame := 2 }
        S_OK (exampleDescriptor 2) (exampleDescriptor 2) S_OK 48000
        true).this).m_pf32Coefficients ≠ none ∧
    aertAllocated
      ((LockForProcess
        { exampleObject AUDIO_SIGNALPROCESSINGMODE_DEFAULT 0 with m_u32SamplesPerFrame := 2 }
        S_OK (exampleDescriptor 2) (exampleDescriptor 2) S_OK 48000 true).calls ++
      (LockForProcess
        (CBaseAudioProcessingObject_UnlockForProcess
          (LockForProcess
            { exampleObject AUDIO_SIGNALPROCESSINGMODE_DEFAULT 0 with m_u32SamplesPerFrame := 2 }
            S_OK (exampleDescriptor 2) (exampleDescriptor 2) S_OK 48000 true).this)
        S_OK (exampleDescriptor 2) (exampleDescriptor 2) S_OK 48000 true).calls) = 2 ∧
    aertFreed
      ((LockForProcess
        { exampleObject AUDIO_SIGNALPROCESSINGMODE_DEFAULT 0 with m_u32SamplesPerFrame := 2 }
        S_OK (exampleDescriptor 2) (exampleDescriptor 2) S_OK 48000 true).calls ++
      (LockForProcess
        (CBaseAudioProcessingObject_UnlockForProcess
          (LockForProcess
            { exampleObject AUDIO_SIGNALPROCESSINGMODE_DEFAULT 0 with m_u32SamplesPerFrame := 2 }
            S_OK (exampleDescriptor 2) (exampleDescriptor 2) S_OK 48000 true).this)
        S_OK (exampleDescriptor 2) (exampleDescriptor 2) S_OK 48000 true).calls) = 0 ∧
    aertFreed
      (CInterAPOMFX_destructor
        (LockForProcess
          (CBaseAudioProcessingObject_UnlockForProcess
            (LockForProcess
              { exampleObject AUDIO_SIGNALPROCESSINGMODE_DEFAULT 0 with
                m_u32SamplesPerFrame := 2 }
              S_OK (exampleDescriptor 2) (exampleDescriptor 2) S_OK 48000 true).this)
          S_OK (exampleDescriptor 2) (exampleDescriptor 2) S_OK 48000 true).this).2 = 1 := by
  have hl : ∀ t : CInterAPOMFX LONG, t.m_AudioProcessingMode = AUDIO_SIGNALPROCESSINGMODE_DEFAULT →
      t.m_fEnableInterMFX = 0 →
      (LockForProcess t S_OK (exampleDescriptor 2) (exampleDescriptor 2) S_OK 48000 true).calls =
        [Call.AERT_Allocate S_OK] ∧
      (LockForProcess t S_OK (exampleDescriptor 2) (exampleDescriptor 2) S_OK 48000
        true).this.m_pf32Coefficients ≠ none ∧
      (LockForProcess t S_OK (exampleDescriptor 2) (exampleDescriptor 2) S_OK 48000
        true).this.m_AudioProcessingMode = AUDIO_SIGNALPROCESSINGMODE_DEFAULT ∧
      (LockForProcess t S_OK (exampleDescriptor 2) (exampleDescriptor 2) S_OK 48000
        true).this.m_fEnableInterMFX = 0 := by
    intro t hm he
    simp [LockForProcess, CBaseAudioProcessingObject_LockForProcess,
      ValidateAndCacheConnectionInfo, ValidateAndCacheConnectionInfo_calls, exampleDescriptor,
      FAILED, S_OK, chainRuns, hm, he]
  obtain ⟨c1, n1, m1, e1⟩ := hl
    { exampleObject AUDIO_SIGNALPROCESSINGMODE_DEFAULT 0 with m_u32SamplesPerFrame := 2 } rfl rfl
  obtain ⟨c2, n2, _, _⟩ := hl
    (CBaseAudioProcessingObject_UnlockForProcess
      (LockForProcess
        { exampleObject AUDIO_SIGNALPROCESSINGMODE_DEFAULT 0 with m_u32SamplesPerFrame := 2 }
        S_OK (exampleDescriptor 2) (exampleDescriptor 2) S_OK 48000 true).this) m1 e1
  refine ⟨n1, ?_, ?_, ?_⟩
  · rw [c1, c2]; decide
  · rw [c1, c2]; decide
  · obtain ⟨l, hl2⟩ := Option.ne_none_iff_exists'.mp n2
    rw [CInterAPOMFX_destructor_aertFreed, hl2]
    rfl

/-- A result code does not both fail and succeed. -/
theorem not_SUCCEEDED_of_FAILED (hr : HRESULT) (hf : FAILED hr = true) :
    SUCCEEDED hr = false := by
  simp only [FAILED, decide_eq_true_eq] at hf
  simp only [SUCCEEDED, decide_eq_false_iff_not, not_le]
  exact hf

/-- A lock that succeeds leaves the coefficient buffer that `ValidateAndCacheConnectionInfo`
computes from the channel count, and leaves the channel count alone. -/
theorem LockForProcess_succeeded {B : Type} (this : CInterAPOMFX B) (hrConnections : HRESULT)
    (inputConnection outputConnection : APO_CONNECTION_DESCRIPTOR) (hrAllocate : HRESULT)
    (nInterFrames : UINT32) (interAllocationSucceeds : Bool)
    (hs : SUCCEEDED (LockForProcess this hrConnections inputConnection outputConnection
      hrAllocate nInterFrames interAllocationSucceeds).hr = true) :
    (LockForProcess this hrConnections inputConnection outputConnection hrAllocate
      nInterFrames interAllocationSucceeds).this.m_pf32Coefficients =
      some ((List.range this.m_u32SamplesPerFrame).map
        (coefficientAt (F32_div 1 (F32_of_UINT32 this.m_u32SamplesPerFrame)))) ∧
    (LockForProcess this hrConnections inputConnection outputConnection hrAllocate
      nInterFrames interAllocationSucceeds).this.m_u32SamplesPerFrame =
      this.m_u32SamplesPerFrame := by
  have hE : SUCCEEDED E_OUTOFMEMORY = false := by decide
  by_cases h1 : FAILED hrConnections = true
  · have := not_SUCCEEDED_of_FAILED _ h1
    simp [LockForProcess, CBaseAudioProcessingObject_LockForProcess, h1, this] at hs
  by_cases h2 : FAILED inputConnection.GetUncompressedAudioFormat.1 = true
  · have := not_SUCCEEDED_of_FAILED _ h2
    simp [LockForProcess, CBaseAudioProcessingObject_LockForProcess,
      ValidateAndCacheConnectionInfo, h1, h2, this] at hs
  by_cases h3 : FAILED outputConnection.GetUncompressedAudioFormat.1 = true
  · have := not_SUCCEEDED_of_FAILED _ h3
    simp [LockForProcess, CBaseAudioProcessingObject_LockForProcess,
      ValidateAndCacheConnectionInfo, h1, h2, h3, this] at hs
  by_cases h4 : FAILED hrAllocate = true
  · have := not_SUCCEEDED_of_FAILED _ h4
    simp [LockForProcess, CBaseAudioProcessingObject_LockForProcess,
      ValidateAndCacheConnectionInfo, h1, h2, h3, h4, this] at hs
  by_cases hc : chainRuns this = true
  · have hc2 : ∀ (l : Option (List FLOAT32)) (b : Bool), chainRuns
        { this with m_pf32Coefficients := l, m_bIsLocked := b } = true := fun _ _ => hc
    cases hok : interAllocationSucceeds
    · simp [LockForProcess, CBaseAudioProcessingObject_LockForProcess,
        ValidateAndCacheConnectionInfo, h1, h2, h3, h4, hc2, hok, hE] at hs
    · simp [LockForProcess, CBaseAudioProcessingObject_LockForProcess,
        ValidateAndCacheConnectionInfo, h1, h2, h3, h4, hc2]
  · have hc2 : ∀ (l : Option (List FLOAT32)) (b : Bool), ¬ chainRuns
        { this with m_pf32Coefficients := l, m_bIsLocked := b } = true := fun _ _ => hc
    simp [LockForProcess, CBaseAudioProcessingObject_LockForProcess,
      ValidateAndCacheConnectionInfo, h1, h2, h3, h4, hc2]

/-- Claim C15. After a lock that succeeds, the coefficient buffer is the list computed from
the channel count alone. Hence a lock of any object with the same channel count, whatever its
settings, buffers and history, that succeeds gives the same buffer entry for entry; in
particular unlocking and locking again gives the buffer of the first lock. -/
theorem LockForProcess_coefficients_roundtrip {B : Type} (this : CInterAPOMFX B)
    (hrConnections : HRESULT) (inputConnection outputConnection : APO_CONNECTION_DESCRIPTOR)
    (hrAllocate : HRESULT) (nInterFrames : UINT32) (interAllocationSucceeds : Bool)
    (hs : SUCCEEDED (LockForProcess this hrConnections inputConnection outputConnection
      hrAllocate nInterFrames interAllocationSucceeds).hr = true) :
    (LockForProcess this hrConnections inputConnection outputConnection hrAllocate
      nInterFrames interAllocationSucceeds).this.m_pf32Coefficients =
      some ((List.range this.m_u32SamplesPerFrame).map
        (coefficientAt (F32_div 1 (F32_of_UINT32 this.m_u32SamplesPerFrame)))) ∧
    (∀ (other : CInterAPOMFX B) (hrConnections2 : HRESULT)
        (inputConnection2 outputConnection2 : APO_CONNECTION_DESCRIPTOR) (hrAllocate2 : HRESULT)
        (nInterFrames2 : UINT32) (interAllocationSucceeds2 : Bool),
      other.m_u32SamplesPerFrame = this.m_u32SamplesPerFrame →
      SUCCEEDED (LockForProcess other hrConnections2 inputConnection2 outputConnection2
        hrAllocate2 nInterFrames2 interAllocationSucceeds2).hr = true →
      (LockForProcess other hrConnections2 inputConnection2 outputConnection2 hrAllocate2
        nInterFrames2 interAllocationSucceeds2).this.m_pf32Coefficients =
      (LockForProcess this hrConnections inputConnection outputConnection hrAllocate
        nInterFrames interAllocationSucceeds).this.m_pf32Coefficients) ∧
    (∀ (hrConnections2 : HRESULT) (hrAllocate2 : HRESULT) (nInterFrames2 : UINT32)
        (interAllocationSucceeds2 : Bool),
      SUCCEEDED (LockForProcess
        (CBaseAudioProcessingObject_UnlockForProcess
          (LockForProcess this hrConnections inputConnection outputConnection hrAllocate
            nInterFrames interAllocationSucceeds).this)
        hrConnections2 inputConnection outputConnection hrAllocate2 nInterFrames2
        interAllocationSucceeds2).hr = true →
      (LockForProcess
        (CBaseAudioProcessingObject_UnlockForProcess
          (LockForProcess this hrConnections inputConnection outputConnection hrAllocate
            nInterFrames interAllocationSucceeds).this)
        hrConnections2 inputConnection outputConnection hrAllocate2 nInterFrames2
        interAllocationSucceeds2).this.m_pf32Coefficients =
      (LockForProcess this hrConnections inputConnection outputConnection hrAllocate
        nInterFrames interAllocationSucceeds).this.m_pf32Coefficients) := by
  obtain ⟨h1, h2⟩ := LockForProcess_succeeded this hrConnections inputConnection
    outputConnection hrAllocate nInterFrames interAllocationSucceeds hs
  refine ⟨h1, ?_, ?_⟩
  · intro other hc2 i2 o2 ha2 n2 ok2 hN hs2
    rw [(LockForProcess_succeeded other hc2 i2 o2 ha2 n2 ok2 hs2).1, h1, hN]
  · intro hc2 ha2 n2 ok2 hs2
    rw [(LockForProcess_succeeded _ hc2 inputConnection outputConnection ha2 n2 ok2 hs2).1, h1]
    have hu : (CBaseAudioProcessingObject_UnlockForProcess
        (LockForProcess this hrConnections inputConnection outputConnection hrAllocate
          nInterFrames interAllocationSucceeds).this).m_u32SamplesPerFrame =
        this.m_u32SamplesPerFrame := h2
    rw [hu]

/-- The statement of `LockForProcess_coefficients_roundtrip` at a two-channel object with the
effect enabled: lock, unlock, lock again, every call succeeding; the second lock's buffer is
the first lock's. -/
theorem LockForProcess_coefficients_roundtrip_witness :
    SUCCEEDED (LockForProcess
      { exampleObject AUDIO_SIGNALPROCESSINGMODE_DEFAULT 1 with m_u32SamplesPerFrame := 2 }
      S_OK (exampleDescriptor 2) (exampleDescriptor 2) S_OK 48000 true).hr = true ∧
    (LockForProcess
      (CBaseAudioProcessingObject_UnlockForProcess
        (LockForProcess
          { exampleObject AUDIO_SIGNALPROCESSINGMODE_DEFAULT 1 with m_u32SamplesPerFrame := 2 }
          S_OK (exampleDescriptor 2) (exampleDescriptor 2) S_OK 48000 true).this)
      S_OK (exampleDescriptor 2) (exampleDescriptor 2) S_OK 48000
      true).this.m_pf32Coefficients =
    (LockForProcess
      { exampleObject AUDIO_SIGNALPROCESSINGMODE_DEFAULT 1 with m_u32SamplesPerFrame := 2 }
      S_OK (exampleDescriptor 2) (exampleDescriptor 2) S_OK 48000
      true).this.m_pf32Coefficients := by
  have h1 : SUCCEEDED (LockForProcess
      { exampleObject AUDIO_SIGNALPROCESSINGMODE_DEFAULT 1 with m_u32SamplesPerFrame := 2 }
      S_OK (exampleDescriptor 2) (exampleDescriptor 2) S_OK 48000 true).hr = true := rfl
  refine ⟨h1, ?_⟩
  exact (LockForProcess_coefficients_roundtrip
    { exampleObject AUDIO_SIGNALPROCESSINGMODE_DEFAULT 1 with m_u32SamplesPerFrame := 2 }
    S_OK (exampleDescriptor 2) (exampleDescriptor 2) S_OK 48000 true h1).2.2 S_OK S_OK 48000
    true rfl

/-! ### Initialize on an initialized object -/

/-- The method `Initialize` never reads `m_bIsInitialized`: on an object that is already
initialized it returns the code, and leaves the members, that it does on the same object not
yet initialized. -/
theorem Initialize_ignores_initialized {B : Type} (h : InterAPO_h B) (this : CInterAPOMFX B)
    (cbDataSize : UINT32) (pbyData : Option APOInitSystemEffects2)
    (hrCoCreateInstance hrRegister : HRESULT) :
    (Initialize h { this with m_bIsInitialized := true } cbDataSize pbyData hrCoCreateInstance
      hrRegister).1 =
      (Initialize h this cbDataSize pbyData hrCoCreateInstance hrRegister).1 ∧
    (Initialize h { this with m_bIsInitialized := true } cbDataSize pbyData hrCoCreateInstance
      hrRegister).2 =
      { (Initialize h this cbDataSize pbyData hrCoCreateInstance hrRegister).2 with
        m_bIsInitialized := true } := by
  have htail : ∀ (t : CInterAPOMFX B) (mode : GUID),
      (Initialize_tail h { t with m_bIsInitialized := true } mode hrCoCreateInstance
        hrRegister).1 = (Initialize_tail h t mode hrCoCreateInstance hrRegister).1 ∧
      (Initialize_tail h { t with m_bIsInitialized := true } mode hrCoCreateInstance
        hrRegister).2 =
        { (Initialize_tail h t mode hrCoCreateInstance hrRegister).2 with
          m_bIsInitialized := true } := by
    intro t mode
    obtain ⟨l, i, n, m, e, g, lo, mi, hi, eq, co, props, ev, en, ib, nf, ix⟩ := t
    unfold Initialize_tail Initialize_settings
    rcases props with _ | properties <;> split_ifs <;> simp [FilterMember.Prepare]
  unfold Initialize
  rcases pbyData with _ | init
  · simp only [Option.isNone_none, Option.isSome_none]
    split_ifs <;> simp
  · simp only [Option.isNone_some, Option.isSome_some]
    split_ifs <;> first
      | exact htail
          { this with m_spAPOSystemEffectsProperties := init.pAPOSystemEffectsProperties } _
      | simp

/-- Claim C18, the code at a failing input. `Initialize` with the legacy structure succeeds on
a fresh object and sets `m_bIsInitialized`; a second `Initialize` on that object, with a store
that no longer holds the enable key, returns `S_OK` again and re-reads the settings (the
stored enable value goes from 1 to 0). -/
theorem Initialize_twice_succeeds :
    (Initialize exampleHeader (exampleObject GUID_NULL 0) 56
      (some ⟨some (exampleStore [(exampleKeys.PKEY_Endpoint_Enable_Interface_MFX, 1)]), none,
        GUID_NULL⟩) S_OK S_OK).1 = S_OK ∧
    (Initialize exampleHeader (exampleObject GUID_NULL 0) 56
      (some ⟨some (exampleStore [(exampleKeys.PKEY_Endpoint_Enable_Interface_MFX, 1)]), none,
        GUID_NULL⟩) S_OK S_OK).2.m_bIsInitialized = true ∧
    (Initialize exampleHeader (exampleObject GUID_NULL 0) 56
      (some ⟨some (exampleStore [(exampleKeys.PKEY_Endpoint_Enable_Interface_MFX, 1)]), none,
        GUID_NULL⟩) S_OK S_OK).2.m_fEnableInterMFX = 1 ∧
    (Initialize exampleHeader
      (Initialize exampleHeader (exampleObject GUID_NULL 0) 56
        (some ⟨some (exampleStore [(exampleKeys.PKEY_Endpoint_Enable_Interface_MFX, 1)]), none,
          GUID_NULL⟩) S_OK S_OK).2
      56 (some ⟨some (exampleStore []), none, GUID_NULL⟩) S_OK S_OK).1 = S_OK ∧
    (Initialize exampleHeader
      (Initialize exampleHeader (exampleObject GUID_NULL 0) 56
        (some ⟨some (exampleStore [(exampleKeys.PKEY_Endpoint_Enable_Interface_MFX, 1)]), none,
          GUID_NULL⟩) S_OK S_OK).2
      56 (some ⟨some (exampleStore []), none, GUID_NULL⟩) S_OK S_OK).2.m_fEnableInterMFX =
      0 := by
  refine ⟨?_, ?_, ?_, ?_, ?_⟩ <;> decide

/-! ### Custom formats -/

/-- One pass of the loop of `CheckCustomFormats`: `S_OK` at an entry that equals the requested
format on the seven fields, the loop over the rest (entered with `S_FALSE`) otherwise. -/
theorem CheckCustomFormats_loop_cons (waveFormat : WAVEFORMATEX) (item : CUSTOM_FORMAT_ITEM)
    (rest : List CUSTOM_FORMAT_ITEM) (hResult : HRESULT) :
    CheckCustomFormats_loop waveFormat (item :: rest) hResult =
      if equalsOnSevenFields waveFormat item then S_OK
      else CheckCustomFormats_loop waveFormat rest S_FALSE := by
  unfold equalsOnSevenFields
  rw [CheckCustomFormats_loop]
  by_cases h1 : waveFormat.wFormatTag = item.wfxFmt.Format.wFormatTag <;>
  by_cases h2 : waveFormat.nChannels = item.wfxFmt.Format.nChannels <;>
  by_cases h3 : waveFormat.nSamplesPerSec = item.wfxFmt.Format.nSamplesPerSec <;>
  by_cases h4 : waveFormat.nAvgBytesPerSec = item.wfxFmt.Format.nAvgBytesPerSec <;>
  by_cases h5 : waveFormat.nBlockAlign = item.wfxFmt.Format.nBlockAlign <;>
  by_cases h6 : waveFormat.wBitsPerSample = item.wfxFmt.Format.wBitsPerSample <;>
  by_cases h7 : waveFormat.cbSize = item.wfxFmt.Format.cbSize <;>
  simp [h1, h2, h3, h4, h5, h6, h7, S_OK, S_FALSE]

/-- The loop of `CheckCustomFormats` entered with `S_FALSE` gives `S_OK` if some entry still to
try equals the requested format on the seven fields, and `S_FALSE` if none does. -/
theorem CheckCustomFormats_loop_S_FALSE (waveFormat : WAVEFORMATEX)
    (table : List CUSTOM_FORMAT_ITEM) :
    CheckCustomFormats_loop waveFormat table S_FALSE =
      if ∃ item ∈ table, equalsOnSevenFields waveFormat item then S_OK else S_FALSE := by
  induction table with
  | nil => simp [CheckCustomFormats_loop]
  | cons item rest ih =>
    rw [CheckCustomFormats_loop_cons, ih]
    by_cases h1 : equalsOnSevenFields waveFormat item
    · simp [h1]
    · simp [h1]

/-- Claim C25. `CheckCustomFormats` returns `S_OK` if and only if the requested format equals
an entry of `_rgCustomFormats` on the seven compared fields, and `S_FALSE` otherwise; and
whatever entries are tried first, and whatever the loop variable holds, the loop over a table
that has such an entry gives `S_OK`. -/
theorem CheckCustomFormats_matches (waveFormat : WAVEFORMATEX) :
    (CheckCustomFormats waveFormat = S_OK ↔
      ∃ item ∈ _rgCustomFormats, equalsOnSevenFields waveFormat item) ∧
    (¬ (∃ item ∈ _rgCustomFormats, equalsOnSevenFields waveFormat item) →
      CheckCustomFormats waveFormat = S_FALSE) ∧
    (∀ (earlier later : List CUSTOM_FORMAT_ITEM) (item : CUSTOM_FORMAT_ITEM)
        (hResult : HRESULT), equalsOnSevenFields waveFormat item →
      CheckCustomFormats_loop waveFormat (earlier ++ item :: later) hResult = S_OK) := by
  have hcons : ∀ (item : CUSTOM_FORMAT_ITEM) (rest : List CUSTOM_FORMAT_ITEM),
      CheckCustomFormats_loop waveFormat (item :: rest) S_OK =
        if ∃ i ∈ item :: rest, equalsOnSevenFields waveFormat i then S_OK else S_FALSE := by
    intro item rest
    rw [CheckCustomFormats_loop_cons, CheckCustomFormats_loop_S_FALSE]
    by_cases h1 : equalsOnSevenFields waveFormat item
    · simp [h1]
    · simp [h1]
  have hmain : CheckCustomFormats waveFormat =
      if ∃ item ∈ _rgCustomFormats, equalsOnSevenFields waveFormat item then S_OK
      else S_FALSE := hcons _ _
  refine ⟨?_, ?_, ?_⟩
  · rw [hmain]
    by_cases h1 : ∃ item ∈ _rgCustomFormats, equalsOnSevenFields waveFormat item
    · simp only [h1, if_true]
    · simp only [h1, if_false, iff_false]
      decide
  · intro h1
    rw [hmain, if_neg h1]
  · intro earlier later item hResult hitem
    induction earlier generalizing hResult with
    | nil => simp [CheckCustomFormats_loop_cons, hitem]
    | cons e es ih =>
      rw [List.cons_append, CheckCustomFormats_loop_cons]
      split_ifs
      · rfl
      · exact ih S_FALSE

/-! ### The three observers of the active effect -/

/-- Claim C24. The three observers decide on the same predicate, the mode is not Raw and
`m_fEnableInterMFX` is non-zero. A `GetEffectsList` call that succeeds reports the list
`[InterEffectId]` exactly when it holds and a null list exactly when it does not; `APOProcess`
on a Valid or Silent block runs the chain when it holds and the passthrough when it does not;
`GetLatency` reports `HNS_INTER` when it holds and 0 when it does not, hence a non-zero
latency exactly when it holds, the constant being non-zero. -/
theorem observers_agree {B : Type} (h : InterAPO_h B) (InterEffectId : GUID)
    (this : CInterAPOMFX B) (u32NumInputConnections : UINT32) (input : APO_CONNECTION_PROPERTY)
    (u32NumOutputConnections : UINT32) (output : APO_CONNECTION_PROPERTY) (mem : Memory)
    (pEffectsIds : Option (List GUID)) (cEffects : UINT32) (Event duplicate : Option HANDLE)
    (hrLastError : HRESULT) (time : HNSTIME)
    (hflags : input.u32BufferFlags = BUFFER_VALID ∨ input.u32BufferFlags = BUFFER_SILENT)
    (hdup : Event ≠ none → duplicate ≠ none) :
    ((GetEffectsList InterEffectId this (some pEffectsIds) (some cEffects) Event duplicate
        hrLastError true).ppEffectsIds = some (some [InterEffectId]) ↔
      (this.m_AudioProcessingMode ≠ AUDIO_SIGNALPROCESSINGMODE_RAW ∧
        this.m_fEnableInterMFX ≠ 0)) ∧
    ((GetEffectsList InterEffectId this (some pEffectsIds) (some cEffects) Event duplicate
        hrLastError true).ppEffectsIds = some none ↔
      ¬ (this.m_AudioProcessingMode ≠ AUDIO_SIGNALPROCESSINGMODE_RAW ∧
        this.m_fEnableInterMFX ≠ 0)) ∧
    (chainRuns this = true ↔
      (this.m_AudioProcessingMode ≠ AUDIO_SIGNALPROCESSINGMODE_RAW ∧
        this.m_fEnableInterMFX ≠ 0)) ∧
    ((this.m_AudioProcessingMode ≠ AUDIO_SIGNALPROCESSINGMODE_RAW ∧
        this.m_fEnableInterMFX ≠ 0) →
      APOProcess h this u32NumInputConnections input u32NumOutputConnections output mem =
        { APOProcess_chain h this input output (APOProcess_silence this input mem) with
          output := { (APOProcess_chain h this input output
            (APOProcess_silence this input mem)).output with
            u32ValidFrameCount := input.u32ValidFrameCount } }) ∧
    (¬ (this.m_AudioProcessingMode ≠ AUDIO_SIGNALPROCESSINGMODE_RAW ∧
        this.m_fEnableInterMFX ≠ 0) →
      APOProcess h this u32NumInputConnections input u32NumOutputConnections output mem =
        { APOProcess_passthrough this u32NumOutputConnections input output
            (APOProcess_silence this input mem) with
          output := { (APOProcess_passthrough this u32NumOutputConnections input output
            (APOProcess_silence this input mem)).output with
            u32ValidFrameCount := input.u32ValidFrameCount } }) ∧
    (GetLatency h this (some time)).2 =
      some (if this.m_AudioProcessingMode ≠ AUDIO_SIGNALPROCESSINGMODE_RAW ∧
        this.m_fEnableInterMFX ≠ 0 then h.HNS_INTER else 0) ∧
    (h.HNS_INTER ≠ 0 →
      ((GetLatency h this (some time)).2 ≠ some 0 ↔
        (this.m_AudioProcessingMode ≠ AUDIO_SIGNALPROCESSINGMODE_RAW ∧
          this.m_fEnableInterMFX ≠ 0))) := by
  have hne : input.u32BufferFlags ≠ BUFFER_INVALID := by
    rcases hflags with hf | hf <;> rw [hf] <;> decide
  have hlist : ∀ (t : CInterAPOMFX B) (calls : List Call),
      t.m_AudioProcessingMode = this.m_AudioProcessingMode →
      t.m_fEnableInterMFX = this.m_fEnableInterMFX →
      (GetEffectsList_list InterEffectId t (some pEffectsIds) (some cEffects) true
        calls).ppEffectsIds =
        if this.m_AudioProcessingMode ≠ AUDIO_SIGNALPROCESSINGMODE_RAW ∧
          this.m_fEnableInterMFX ≠ 0 then some (some [InterEffectId]) else some none := by
    intro t calls hm he
    unfold GetEffectsList_list
    rw [hm, he]
    by_cases h1 : this.m_AudioProcessingMode = AUDIO_SIGNALPROCESSINGMODE_RAW <;>
      by_cases h2 : this.m_fEnableInterMFX = 0 <;>
      simp [h1, h2, IsEqualGUID, List.countP_cons]
  have hget : (GetEffectsList InterEffectId this (some pEffectsIds) (some cEffects) Event
      duplicate hrLastError true).ppEffectsIds =
      if this.m_AudioProcessingMode ≠ AUDIO_SIGNALPROCESSINGMODE_RAW ∧
        this.m_fEnableInterMFX ≠ 0 then some (some [InterEffectId]) else some none := by
    unfold GetEffectsList
    rcases Event with _ | event
    · simp only [Option.isNone_some, Bool.false_eq_true, if_false]
      exact hlist _ _ rfl rfl
    · rcases duplicate with _ | d
      · exact absurd rfl (hdup (by simp))
      · simp only [Option.isNone_some, Bool.false_eq_true, if_false]
        exact hlist _ _ rfl rfl
  have hchain : chainRuns this = true ↔
      (this.m_AudioProcessingMode ≠ AUDIO_SIGNALPROCESSINGMODE_RAW ∧
        this.m_fEnableInterMFX ≠ 0) := by
    simp [chainRuns, IsEqualGUID]
  have hlat : (GetLatency h this (some time)).2 =
      some (if this.m_AudioProcessingMode ≠ AUDIO_SIGNALPROCESSINGMODE_RAW ∧
        this.m_fEnableInterMFX ≠ 0 then h.HNS_INTER else 0) := by
    by_cases h1 : this.m_AudioProcessingMode = AUDIO_SIGNALPROCESSINGMODE_RAW <;>
      by_cases h2 : this.m_fEnableInterMFX = 0 <;>
      simp [GetLatency, h1, h2, IsEqualGUID]
  refine ⟨?_, ?_, hchain, ?_, ?_, hlat, ?_⟩
  · rw [hget]
    split_ifs with h1 <;> simp [h1]
  · rw [hget]
    split_ifs with h1 <;> simp [h1]
  · intro hP
    unfold APOProcess
    rw [if_neg hne, if_pos hflags]
    simp only [hchain.mpr hP, if_true]
  · intro hP
    have hc : ¬ chainRuns this = true := fun hc => hP (hchain.mp hc)
    unfold APOProcess
    rw [if_neg hne, if_pos hflags]
    simp [hc]
  · intro h0
    rw [hlat]
    split_ifs with h1 <;> simp [h1, h0]

/-- The statement of `observers_agree` at an enabled object in Default mode: the list is
`[InterEffectId]` and the latency is not zero. -/
theorem observers_agree_witness :
    (GetEffectsList ⟨42⟩ (exampleObject AUDIO_SIGNALPROCESSINGMODE_DEFAULT 1) (some none)
      (some 0) none none E_INVALIDARG true).ppEffectsIds = some (some [⟨42⟩]) ∧
    chainRuns (exampleObject AUDIO_SIGNALPROCESSINGMODE_DEFAULT 1) = true ∧
    (GetLatency exampleHeader (exampleObject AUDIO_SIGNALPROCESSINGMODE_DEFAULT 1)
      (some 0)).2 ≠ some 0 :=
  have hw := observers_agree exampleHeader ⟨42⟩
    (exampleObject AUDIO_SIGNALPROCESSINGMODE_DEFAULT 1) 1 ⟨0, 1, BUFFER_VALID⟩ 1
    ⟨8, 0, BUFFER_INVALID⟩ (fun _ => 1) none 0 none none E_INVALIDARG 0 (Or.inl rfl)
    (fun hE => absurd rfl hE)
  ⟨hw.1.mpr ⟨by decide, by decide⟩, hw.2.2.1.mpr ⟨by decide, by decide⟩,
    (hw.2.2.2.2.2.2 (by decide)).mpr ⟨by decide, by decide⟩⟩

/-! ### Validation in Initialize -/

/-- The settings block of `Initialize` leaves the processing mode and the initialized flag
alone. -/
theorem Initialize_settings_mode {B : Type} (h : InterAPO_h B) (this : CInterAPOMFX B) :
    (Initialize_settings h this).m_AudioProcessingMode = this.m_AudioProcessingMode ∧
    (Initialize_settings h this).m_bIsInitialized = this.m_bIsInitialized := by
  obtain ⟨l, i, n, m, e, g, lo, mi, hi, eq, co, props, ev, en, ib, nf, ix⟩ := this
  unfold Initialize_settings
  rcases props with _ | properties <;> simp [FilterMember.Prepare]

/-- The tail of `Initialize` rejects a mode that is none of the six and changes nothing. -/
theorem Initialize_tail_invalid {B : Type} (h : InterAPO_h B) (this : CInterAPOMFX B)
    (processingMode : GUID) (hrCoCreateInstance hrRegister : HRESULT)
    (hm : processingMode ≠ AUDIO_SIGNALPROCESSINGMODE_DEFAULT ∧
      processingMode ≠ AUDIO_SIGNALPROCESSINGMODE_RAW ∧
      processingMode ≠ AUDIO_SIGNALPROCESSINGMODE_COMMUNICATIONS ∧
      processingMode ≠ AUDIO_SIGNALPROCESSINGMODE_SPEECH ∧
      processingMode ≠ AUDIO_SIGNALPROCESSINGMODE_MEDIA ∧
      processingMode ≠ AUDIO_SIGNALPROCESSINGMODE_MOVIE) :
    Initialize_tail h this processingMode hrCoCreateInstance hrRegister =
      (E_INVALIDARG, this) := by
  unfold Initialize_tail
  rw [if_pos hm]

/-- The tail of `Initialize` stores a mode that is one of the six. -/
theorem Initialize_tail_valid {B : Type} (h : InterAPO_h B) (this : CInterAPOMFX B)
    (processingMode : GUID) (hrCoCreateInstance hrRegister : HRESULT)
    (hm : ¬ (processingMode ≠ AUDIO_SIGNALPROCESSINGMODE_DEFAULT ∧
      processingMode ≠ AUDIO_SIGNALPROCESSINGMODE_RAW ∧
      processingMode ≠ AUDIO_SIGNALPROCESSINGMODE_COMMUNICATIONS ∧
      processingMode ≠ AUDIO_SIGNALPROCESSINGMODE_SPEECH ∧
      processingMode ≠ AUDIO_SIGNALPROCESSINGMODE_MEDIA ∧
      processingMode ≠ AUDIO_SIGNALPROCESSINGMODE_MOVIE)) :
    (Initialize_tail h this processingMode hrCoCreateInstance
      hrRegister).2.m_AudioProcessingMode = processingMode := by
  unfold Initialize_tail
  rw [if_neg hm]
  have hs := (Initialize_settings_mode h
    { this with m_AudioProcessingMode := processingMode }).1
  split_ifs <;> simpa using hs

/-- Claim C22, as stated, fails. Initialization data of the legacy `APOInitSystemEffects` size
with a null device collection is accepted: `Initialize` returns `S_OK` and sets the initialized
flag. -/
theorem Initialize_legacy_null_device_collection :
    (⟨some (exampleStore []), none, GUID_NULL⟩ : APOInitSystemEffects2).pDeviceCollection =
      none ∧
    (Initialize exampleHeader (exampleObject GUID_NULL 0) exampleHeader.sizeof_APOInitSystemEffects
      (some ⟨some (exampleStore []), none, GUID_NULL⟩) S_OK S_OK).1 = S_OK ∧
    (Initialize exampleHeader (exampleObject GUID_NULL 0) exampleHeader.sizeof_APOInitSystemEffects
      (some ⟨some (exampleStore []), none, GUID_NULL⟩) S_OK S_OK).2.m_bIsInitialized = true ∧
    (Initialize exampleHeader (exampleObject GUID_NULL 0) exampleHeader.sizeof_APOInitSystemEffects
      (some ⟨some (exampleStore []), none, GUID_NULL⟩) S_OK S_OK).2.m_AudioProcessingMode =
      AUDIO_SIGNALPROCESSINGMODE_DEFAULT := by
  refine ⟨rfl, ?_, ?_, ?_⟩ <;> decide

/-- Claim C22, amended. `Initialize` succeeds only if the processing mode it stores is one of
Default, Raw, Communications, Speech, Media and Movie, and data of the legacy size (and not
of the `APOInitSystemEffects2` size) stores Default. It returns `E_INVALIDARG` and leaves the
stored processing mode and the initialized flag as they were when exactly one of `pbyData`
and `cbDataSize` is null or zero, when `cbDataSize` is neither of the two structure sizes, and,
for data of the `APOInitSystemEffects2` size, when the device collection is null or the mode is
none of the six. -/
theorem Initialize_validation {B : Type} (h : InterAPO_h B) (this : CInterAPOMFX B)
    (cbDataSize : UINT32) (pbyData : Option APOInitSystemEffects2)
    (hrCoCreateInstance hrRegister : HRESULT) :
    (SUCCEEDED (Initialize h this cbDataSize pbyData hrCoCreateInstance hrRegister).1 = true →
      ((Initialize h this cbDataSize pbyData hrCoCreateInstance
          hrRegister).2.m_AudioProcessingMode = AUDIO_SIGNALPROCESSINGMODE_DEFAULT ∨
        (Initialize h this cbDataSize pbyData hrCoCreateInstance
          hrRegister).2.m_AudioProcessingMode = AUDIO_SIGNALPROCESSINGMODE_RAW ∨
        (Initialize h this cbDataSize pbyData hrCoCreateInstance
          hrRegister).2.m_AudioProcessingMode = AUDIO_SIGNALPROCESSINGMODE_COMMUNICATIONS ∨
        (Initialize h this cbDataSize pbyData hrCoCreateInstance
          hrRegister).2.m_AudioProcessingMode = AUDIO_SIGNALPROCESSINGMODE_SPEECH ∨
        (Initialize h this cbDataSize pbyData hrCoCreateInstance
          hrRegister).2.m_AudioProcessingMode = AUDIO_SIGNALPROCESSINGMODE_MEDIA ∨
        (Initialize h this cbDataSize pbyData hrCoCreateInstance
          hrRegister).2.m_AudioProcessingMode = AUDIO_SIGNALPROCESSINGMODE_MOVIE) ∧
      (cbDataSize ≠ h.sizeof_APOInitSystemEffects2 →
        cbDataSize = h.sizeof_APOInitSystemEffects ∧
        (Initialize h this cbDataSize pbyData hrCoCreateInstance
          hrRegister).2.m_AudioProcessingMode = AUDIO_SIGNALPROCESSINGMODE_DEFAULT)) ∧
    (((pbyData = none ∧ cbDataSize ≠ 0) ∨ (pbyData ≠ none ∧ cbDataSize = 0) ∨
        (cbDataSize ≠ h.sizeof_APOInitSystemEffects2 ∧
          cbDataSize ≠ h.sizeof_APOInitSystemEffects) ∨
        (cbDataSize = h.sizeof_APOInitSystemEffects2 ∧ ∃ init, pbyData = some init ∧
          (init.pDeviceCollection = none ∨
            (init.AudioProcessingMode ≠ AUDIO_SIGNALPROCESSINGMODE_DEFAULT ∧
              init.AudioProcessingMode ≠ AUDIO_SIGNALPROCESSINGMODE_RAW ∧
              init.AudioProcessingMode ≠ AUDIO_SIGNALPROCESSINGMODE_COMMUNICATIONS ∧
              init.AudioProcessingMode ≠ AUDIO_SIGNALPROCESSINGMODE_SPEECH ∧
              init.AudioProcessingMode ≠ AUDIO_SIGNALPROCESSINGMODE_MEDIA ∧
              init.AudioProcessingMode ≠ AUDIO_SIGNALPROCESSINGMODE_MOVIE)))) →
      (Initialize h this cbDataSize pbyData hrCoCreateInstance hrRegister).1 = E_INVALIDARG ∧
      (Initialize h this cbDataSize pbyData hrCoCreateInstance
        hrRegister).2.m_AudioProcessingMode = this.m_AudioProcessingMode ∧
      (Initialize h this cbDataSize pbyData hrCoCreateInstance
        hrRegister).2.m_bIsInitialized = this.m_bIsInitialized) := by
  have hE : SUCCEEDED E_INVALIDARG = false := by decide
  have hsix : ∀ m : GUID, ¬ (m ≠ AUDIO_SIGNALPROCESSINGMODE_DEFAULT ∧
      m ≠ AUDIO_SIGNALPROCESSINGMODE_RAW ∧ m ≠ AUDIO_SIGNALPROCESSINGMODE_COMMUNICATIONS ∧
      m ≠ AUDIO_SIGNALPROCESSINGMODE_SPEECH ∧ m ≠ AUDIO_SIGNALPROCESSINGMODE_MEDIA ∧
      m ≠ AUDIO_SIGNALPROCESSINGMODE_MOVIE) →
      (m = AUDIO_SIGNALPROCESSINGMODE_DEFAULT ∨ m = AUDIO_SIGNALPROCESSINGMODE_RAW ∨
        m = AUDIO_SIGNALPROCESSINGMODE_COMMUNICATIONS ∨ m = AUDIO_SIGNALPROCESSINGMODE_SPEECH ∨
        m = AUDIO_SIGNALPROCESSINGMODE_MEDIA ∨ m = AUDIO_SIGNALPROCESSINGMODE_MOVIE) := by
    intro m hm
    tauto
  have hdef : ¬ (AUDIO_SIGNALPROCESSINGMODE_DEFAULT ≠ AUDIO_SIGNALPROCESSINGMODE_DEFAULT ∧
      AUDIO_SIGNALPROCESSINGMODE_DEFAULT ≠ AUDIO_SIGNALPROCESSINGMODE_RAW ∧
      AUDIO_SIGNALPROCESSINGMODE_DEFAULT ≠ AUDIO_SIGNALPROCESSINGMODE_COMMUNICATIONS ∧
      AUDIO_SIGNALPROCESSINGMODE_DEFAULT ≠ AUDIO_SIGNALPROCESSINGMODE_SPEECH ∧
      AUDIO_SIGNALPROCESSINGMODE_DEFAULT ≠ AUDIO_SIGNALPROCESSINGMODE_MEDIA ∧
      AUDIO_SIGNALPROCESSINGMODE_DEFAULT ≠ AUDIO_SIGNALPROCESSINGMODE_MOVIE) :=
    fun hc => hc.1 rfl
  rcases pbyData with _ | init
  · -- a null pointer: every path ends in E_INVALIDARG with the object untouched
    have hnone : Initialize h this cbDataSize none hrCoCreateInstance hrRegister =
        (E_INVALIDARG, this) := by
      unfold Initialize
      by_cases h0 : cbDataSize = 0 <;> simp [h0]
    rw [hnone]
    refine ⟨fun hs => ?_, fun _ => ⟨rfl, rfl, rfl⟩⟩
    rw [hE] at hs
    exact absurd hs (by decide)
  · by_cases h0 : cbDataSize = 0
    · have hzero : Initialize h this cbDataSize (some init) hrCoCreateInstance hrRegister =
          (E_INVALIDARG, this) := by
        unfold Initialize
        simp [h0]
      rw [hzero]
      refine ⟨fun hs => ?_, fun _ => ⟨rfl, rfl, rfl⟩⟩
      rw [hE] at hs
      exact absurd hs (by decide)
    by_cases h2 : cbDataSize = h.sizeof_APOInitSystemEffects2
    · by_cases hd : init.pDeviceCollection = none
      · have hdev : Initialize h this cbDataSize (some init) hrCoCreateInstance hrRegister =
            (E_INVALIDARG, { this with
              m_spAPOSystemEffectsProperties := init.pAPOSystemEffectsProperties }) := by
          subst h2
          unfold Initialize
          simp [h0, hd, Ne.symm h0]
        rw [hdev]
        refine ⟨fun hs => ?_, fun _ => ⟨rfl, rfl, rfl⟩⟩
        rw [hE] at hs
        exact absurd hs (by decide)
      · have htail : Initialize h this cbDataSize (some init) hrCoCreateInstance hrRegister =
            Initialize_tail h { this with
              m_spAPOSystemEffectsProperties := init.pAPOSystemEffectsProperties }
              init.AudioProcessingMode hrCoCreateInstance hrRegister := by
          subst h2
          unfold Initialize
          simp [h0, hd, Ne.symm h0]
        rw [htail]
        by_cases hm : (init.AudioProcessingMode ≠ AUDIO_SIGNALPROCESSINGMODE_DEFAULT ∧
            init.AudioProcessingMode ≠ AUDIO_SIGNALPROCESSINGMODE_RAW ∧
            init.AudioProcessingMode ≠ AUDIO_SIGNALPROCESSINGMODE_COMMUNICATIONS ∧
            init.AudioProcessingMode ≠ AUDIO_SIGNALPROCESSINGMODE_SPEECH ∧
            init.AudioProcessingMode ≠ AUDIO_SIGNALPROCESSINGMODE_MEDIA ∧
            init.AudioProcessingMode ≠ AUDIO_SIGNALPROCESSINGMODE_MOVIE)
        · rw [Initialize_tail_invalid h _ _ _ _ hm]
          refine ⟨fun hs => ?_, fun _ => ⟨rfl, rfl, rfl⟩⟩
          rw [hE] at hs
          exact absurd hs (by decide)
        · refine ⟨fun _ => ⟨?_, fun hne => absurd h2 hne⟩, ?_⟩
          · rw [Initialize_tail_valid h _ _ _ _ hm]
            exact hsix _ hm
          · rintro (⟨hc, _⟩ | ⟨_, hc⟩ | ⟨hc, _⟩ | ⟨_, i2, hi2, hc⟩)
            · exact absurd hc (by simp)
            · exact absurd hc h0
            · exact absurd h2 hc
            · obtain rfl : init = i2 := Option.some.inj hi2
              rcases hc with hc | hc
              · exact absurd hc hd
              · exact absurd hc hm
    · by_cases h1 : cbDataSize = h.sizeof_APOInitSystemEffects
      · have htail : Initialize h this cbDataSize (some init) hrCoCreateInstance hrRegister =
            Initialize_tail h { this with
              m_spAPOSystemEffectsProperties := init.pAPOSystemEffectsProperties }
              AUDIO_SIGNALPROCESSINGMODE_DEFAULT hrCoCreateInstance hrRegister := by
          subst h1
          unfold Initialize
          simp [h0, h2, Ne.symm h0]
        rw [htail, Initialize_tail_valid h _ _ _ _ hdef]
        refine ⟨fun _ => ⟨Or.inl rfl, fun _ => ⟨h1, rfl⟩⟩, ?_⟩
        rintro (⟨hc, _⟩ | ⟨_, hc⟩ | ⟨_, hc⟩ | ⟨hc, _⟩)
        · exact absurd hc (by simp)
        · exact absurd hc h0
        · exact absurd h1 hc
        · exact absurd hc h2
      · have hsize : Initialize h this cbDataSize (some init) hrCoCreateInstance hrRegister =
            (E_INVALIDARG, this) := by
          unfold Initialize
          simp [h0, h2, h1]
        rw [hsize]
        refine ⟨fun hs => ?_, fun _ => ⟨rfl, rfl, rfl⟩⟩
        rw [hE] at hs
        exact absurd hs (by decide)

/-! ### Filters and levels -/

/-- One iteration of the notification loop on a row with a filter: the filter is prepared with
the derived setting if that differs from the stored one, and left alone if not. -/
theorem OnPropertyValueChanged_body_filter_self {B : Type} (h : InterAPO_h B)
    (properties : IPropertyStore) (st : ChangeLoop B) (k : PROPERTYKEY) (v : ControlMember)
    (g : FilterMember) :
    g.read (OnPropertyValueChanged_body h properties st ⟨k, v, some g⟩).this =
      if GetCurrentEffectsSetting properties k st.this.m_AudioProcessingMode ≠ v.read st.this
      then h.Prepare (g.read st.this)
        (GetCurrentEffectsSetting properties k st.this.m_AudioProcessingMode)
      else g.read st.this := by
  unfold OnPropertyValueChanged_body
  cases v <;> cases g
  all_goals
    simp only [ControlMember.read, ControlMember.write, FilterMember.Prepare, FilterMember.read]
    split_ifs <;> rfl

/-- One iteration of the notification loop leaves the filters of the other rows alone. -/
theorem OnPropertyValueChanged_body_filter_other {B : Type} (h : InterAPO_h B)
    (properties : IPropertyStore) (st : ChangeLoop B) (k : PROPERTYKEY) (v : ControlMember)
    (f : Option FilterMember) (g : FilterMember) (hf : f ≠ some g) :
    g.read (OnPropertyValueChanged_body h properties st ⟨k, v, f⟩).this = g.read st.this := by
  unfold OnPropertyValueChanged_body
  rcases f with _ | f
  · cases v <;> cases g
    all_goals
      simp only [ControlMember.read, ControlMember.write, FilterMember.read]
      split_ifs <;> rfl
  · cases f <;> cases g <;> first | exact absurd rfl hf | skip
    all_goals
      cases v
      all_goals
        simp only [ControlMember.read, ControlMember.write, FilterMember.Prepare,
          FilterMember.read]
        split_ifs <;> rfl

/-- What a notification for the enable key or the master key leaves in a filter and in its
band's level, by the row of the `controls` table that names them. -/
theorem OnPropertyValueChanged_filters {B : Type} (h : InterAPO_h B) (this : CInterAPOMFX B)
    (properties : IPropertyStore) (key : PROPERTYKEY)
    (hp : this.m_spAPOSystemEffectsProperties = some properties)
    (hk : PK_EQUAL key h.keys.PKEY_Endpoint_Enable_Interface_MFX = true ∨
      PK_EQUAL key PKEY_AudioEndpoint_Disable_SysFx = true) :
    ((OnPropertyValueChanged h this key).this.m_iInterEqLowMFX =
        GetCurrentEffectsSetting properties h.keys.PKEY_Endpoint_Inter_EQ_Low_SFX
          this.m_AudioProcessingMode ∧
      (OnPropertyValueChanged h this key).this.m_EqMFX.m_LowFilter =
        if GetCurrentEffectsSetting properties h.keys.PKEY_Endpoint_Inter_EQ_Low_SFX
          this.m_AudioProcessingMode ≠ this.m_iInterEqLowMFX
        then h.Prepare this.m_EqMFX.m_LowFilter
          (GetCurrentEffectsSetting properties h.keys.PKEY_Endpoint_Inter_EQ_Low_SFX
            this.m_AudioProcessingMode)
        else this.m_EqMFX.m_LowFilter) ∧
    ((OnPropertyValueChanged h this key).this.m_iInterEqMidMFX =
        GetCurrentEffectsSetting properties h.keys.PKEY_Endpoint_Inter_EQ_Mid_SFX
          this.m_AudioProcessingMode ∧
      (OnPropertyValueChanged h this key).this.m_EqMFX.m_MidFilter =
        if GetCurrentEffectsSetting properties h.keys.PKEY_Endpoint_Inter_EQ_Mid_SFX
          this.m_AudioProcessingMode ≠ this.m_iInterEqMidMFX
        then h.Prepare this.m_EqMFX.m_MidFilter
          (GetCurrentEffectsSetting properties h.keys.PKEY_Endpoint_Inter_EQ_Mid_SFX
            this.m_AudioProcessingMode)
        else this.m_EqMFX.m_MidFilter) ∧
    ((OnPropertyValueChanged h this key).this.m_iInterEqHighMFX =
        GetCurrentEffectsSetting properties h.keys.PKEY_Endpoint_Inter_EQ_High_SFX
          this.m_AudioProcessingMode ∧
      (OnPropertyValueChanged h this key).this.m_EqMFX.m_HighFilter =
        if GetCurrentEffectsSetting properties h.keys.PKEY_Endpoint_Inter_EQ_High_SFX
          this.m_AudioProcessingMode ≠ this.m_iInterEqHighMFX
        then h.Prepare this.m_EqMFX.m_HighFilter
          (GetCurrentEffectsSetting properties h.keys.PKEY_Endpoint_Inter_EQ_High_SFX
            this.m_AudioProcessingMode)
        else this.m_EqMFX.m_HighFilter) := by
  have hk2 : (PK_EQUAL key h.keys.PKEY_Endpoint_Enable_Interface_MFX ||
      PK_EQUAL key PKEY_AudioEndpoint_Disable_SysFx) = true := by
    rcases hk with hk | hk <;> simp [hk]
  simp only [OnPropertyValueChanged, hp, hk2, if_true, controls, List.foldl]
  refine ⟨⟨?_, ?_⟩, ⟨?_, ?_⟩, ⟨?_, ?_⟩⟩
  · change ControlMember.read _ ControlMember.m_iInterEqLowMFX = _
    simp (disch := decide) only [OnPropertyValueChanged_body_read_self,
      OnPropertyValueChanged_body_read_other, OnPropertyValueChanged_body_mode]
  · change FilterMember.read _ FilterMember.m_LowFilter = _
    simp (disch := decide) only [OnPropertyValueChanged_body_filter_self,
      OnPropertyValueChanged_body_filter_other, OnPropertyValueChanged_body_read_other,
      OnPropertyValueChanged_body_mode]
    rfl
  · change ControlMember.read _ ControlMember.m_iInterEqMidMFX = _
    simp (disch := decide) only [OnPropertyValueChanged_body_read_self,
      OnPropertyValueChanged_body_read_other, OnPropertyValueChanged_body_mode]
  · change FilterMember.read _ FilterMember.m_MidFilter = _
    simp (disch := decide) only [OnPropertyValueChanged_body_filter_self,
      OnPropertyValueChanged_body_filter_other, OnPropertyValueChanged_body_read_other,
      OnPropertyValueChanged_body_mode]
    rfl
  · change ControlMember.read _ ControlMember.m_iInterEqHighMFX = _
    simp (disch := decide) only [OnPropertyValueChanged_body_read_self,
      OnPropertyValueChanged_body_read_other, OnPropertyValueChanged_body_mode]
  · change FilterMember.read _ FilterMember.m_HighFilter = _
    simp (disch := decide) only [OnPropertyValueChanged_body_filter_self,
      OnPropertyValueChanged_body_filter_other, OnPropertyValueChanged_body_read_other,
      OnPropertyValueChanged_body_mode]
    rfl

/-- The four ways `Initialize` ends on a non-null `pbyData`: two early exits, and the tail
entered with the mode of the data or with Default. -/
theorem Initialize_some_paths {B : Type} (h : InterAPO_h B) (this : CInterAPOMFX B)
    (cbDataSize : UINT32) (init : APOInitSystemEffects2)
    (hrCoCreateInstance hrRegister : HRESULT) :
    Initialize h this cbDataSize (some init) hrCoCreateInstance hrRegister =
        (E_INVALIDARG, this) ∨
    Initialize h this cbDataSize (some init) hrCoCreateInstance hrRegister =
        (E_INVALIDARG, { this with
          m_spAPOSystemEffectsProperties := init.pAPOSystemEffectsProperties }) ∨
    (∃ processingMode, Initialize h this cbDataSize (some init) hrCoCreateInstance hrRegister =
        Initialize_tail h { this with
          m_spAPOSystemEffectsProperties := init.pAPOSystemEffectsProperties }
          processingMode hrCoCreateInstance hrRegister) := by
  unfold Initialize
  simp only [Option.isNone_some, Option.isSome_some]
  split_ifs
  all_goals first
    | exact Or.inl rfl
    | exact Or.inr (Or.inl rfl)
    | exact Or.inr (Or.inr ⟨_, rfl⟩)

/-- The tail of `Initialize` on an object that holds a property store: either the mode is
rejected and nothing changes, or each band's level is read from the store under its `_MFX`
key and each filter is prepared with that level. -/
theorem Initialize_tail_filters {B : Type} (h : InterAPO_h B) (this : CInterAPOMFX B)
    (properties : IPropertyStore) (processingMode : GUID)
    (hrCoCreateInstance hrRegister : HRESULT)
    (hp : this.m_spAPOSystemEffectsProperties = some properties) :
    Initialize_tail h this processingMode hrCoCreateInstance hrRegister =
      (E_INVALIDARG, this) ∨
    ((Initialize_tail h this processingMode hrCoCreateInstance hrRegister).2.m_iInterEqLowMFX =
        GetCurrentEffectsSetting properties h.keys.PKEY_Endpoint_Inter_EQ_Low_MFX
          processingMode ∧
      (Initialize_tail h this processingMode hrCoCreateInstance hrRegister).2.m_iInterEqMidMFX =
        GetCurrentEffectsSetting properties h.keys.PKEY_Endpoint_Inter_EQ_Mid_MFX
          processingMode ∧
      (Initialize_tail h this processingMode hrCoCreateInstance hrRegister).2.m_iInterEqHighMFX =
        GetCurrentEffectsSetting properties h.keys.PKEY_Endpoint_Inter_EQ_High_MFX
          processingMode ∧
      (Initialize_tail h this processingMode hrCoCreateInstance
        hrRegister).2.m_EqMFX.m_LowFilter =
        h.Prepare this.m_EqMFX.m_LowFilter
          (GetCurrentEffectsSetting properties h.keys.PKEY_Endpoint_Inter_EQ_Low_MFX
            processingMode) ∧
      (Initialize_tail h this processingMode hrCoCreateInstance
        hrRegister).2.m_EqMFX.m_MidFilter =
        h.Prepare this.m_EqMFX.m_MidFilter
          (GetCurrentEffectsSetting properties h.keys.PKEY_Endpoint_Inter_EQ_Mid_MFX
            processingMode) ∧
      (Initialize_tail h this processingMode hrCoCreateInstance
        hrRegister).2.m_EqMFX.m_HighFilter =
        h.Prepare this.m_EqMFX.m_HighFilter
          (GetCurrentEffectsSetting properties h.keys.PKEY_Endpoint_Inter_EQ_High_MFX
            processingMode)) := by
  by_cases hm : (processingMode ≠ AUDIO_SIGNALPROCESSINGMODE_DEFAULT ∧
      processingMode ≠ AUDIO_SIGNALPROCESSINGMODE_RAW ∧
      processingMode ≠ AUDIO_SIGNALPROCESSINGMODE_COMMUNICATIONS ∧
      processingMode ≠ AUDIO_SIGNALPROCESSINGMODE_SPEECH ∧
      processingMode ≠ AUDIO_SIGNALPROCESSINGMODE_MEDIA ∧
      processingMode ≠ AUDIO_SIGNALPROCESSINGMODE_MOVIE)
  · exact Or.inl (Initialize_tail_invalid h this processingMode _ _ hm)
  · right
    obtain ⟨l, i, n, m, e, g, lo, mi, hi, eq, co, props, ev, en, ib, nf, ix⟩ := this
    simp only at hp
    subst hp
    unfold Initialize_tail
    rw [if_neg hm]
    unfold Initialize_settings
    split_ifs <;> simp [FilterMember.Prepare]

/-- Claim C21, as stated, fails. The store holds EQ-low level 5 under both the `_MFX` and the
`_SFX` key; the stored level is 0 and the low filter was last prepared with 0. A notification
for either of the two keys leaves level and filter as they were: `Prepare` is not called,
although the band's effective value has changed from 0 to 5. -/
theorem OnPropertyValueChanged_band_key_no_Prepare :
    GetCurrentEffectsSetting
      (exampleStore [(exampleKeys.PKEY_Endpoint_Inter_EQ_Low_MFX, 5),
        (exampleKeys.PKEY_Endpoint_Inter_EQ_Low_SFX, 5)])
      exampleKeys.PKEY_Endpoint_Inter_EQ_Low_MFX AUDIO_SIGNALPROCESSINGMODE_DEFAULT = 5 ∧
    GetCurrentEffectsSetting
      (exampleStore [(exampleKeys.PKEY_Endpoint_Inter_EQ_Low_MFX, 5),
        (exampleKeys.PKEY_Endpoint_Inter_EQ_Low_SFX, 5)])
      exampleKeys.PKEY_Endpoint_Inter_EQ_Low_SFX AUDIO_SIGNALPROCESSINGMODE_DEFAULT = 5 ∧
    (OnPropertyValueChanged exampleHeader
      { exampleObject AUDIO_SIGNALPROCESSINGMODE_DEFAULT 0 with
        m_spAPOSystemEffectsProperties :=
          some (exampleStore [(exampleKeys.PKEY_Endpoint_Inter_EQ_Low_MFX, 5),
            (exampleKeys.PKEY_Endpoint_Inter_EQ_Low_SFX, 5)]) }
      exampleKeys.PKEY_Endpoint_Inter_EQ_Low_MFX).this.m_iInterEqLowMFX = 0 ∧
    (OnPropertyValueChanged exampleHeader
      { exampleObject AUDIO_SIGNALPROCESSINGMODE_DEFAULT 0 with
        m_spAPOSystemEffectsProperties :=
          some (exampleStore [(exampleKeys.PKEY_Endpoint_Inter_EQ_Low_MFX, 5),
            (exampleKeys.PKEY_Endpoint_Inter_EQ_Low_SFX, 5)]) }
      exampleKeys.PKEY_Endpoint_Inter_EQ_Low_MFX).this.m_EqMFX.m_LowFilter = 0 ∧
    (OnPropertyValueChanged exampleHeader
      { exampleObject AUDIO_SIGNALPROCESSINGMODE_DEFAULT 0 with
        m_spAPOSystemEffectsProperties :=
          some (exampleStore [(exampleKeys.PKEY_Endpoint_Inter_EQ_Low_MFX, 5),
            (exampleKeys.PKEY_Endpoint_Inter_EQ_Low_SFX, 5)]) }
      exampleKeys.PKEY_Endpoint_Inter_EQ_Low_SFX).this.m_iInterEqLowMFX = 0 ∧
    (OnPropertyValueChanged exampleHeader
      { exampleObject AUDIO_SIGNALPROCESSINGMODE_DEFAULT 0 with
        m_spAPOSystemEffectsProperties :=
          some (exampleStore [(exampleKeys.PKEY_Endpoint_Inter_EQ_Low_MFX, 5),
            (exampleKeys.PKEY_Endpoint_Inter_EQ_Low_SFX, 5)]) }
      exampleKeys.PKEY_Endpoint_Inter_EQ_Low_SFX).this.m_EqMFX.m_LowFilter = 0 := by
  refine ⟨by decide, by decide, rfl, rfl, rfl, rfl⟩

/-- Claim C21, amended. An `Initialize` on data with a property store either exits with
`E_INVALIDARG` before it reads the store, levels and filters untouched, or leaves each band's
filter prepared with the band's stored level. A notification for the enable key or the master
key, a store being held, stores each band's re-derived level, calls `Prepare` with that level
on the filter of every band whose re-derived level differs from the stored one and leaves the
filter of every other band as it was; the enable and gain rows have no filter. A notification
for any other key, or without a store, changes nothing. Hence every notification keeps each
filter configured with the band's stored level. -/
theorem filters_follow_levels {B : Type} (h : InterAPO_h B) (this : CInterAPOMFX B)
    (key : PROPERTYKEY) :
    (∀ (cbDataSize : UINT32) (init : APOInitSystemEffects2) (properties : IPropertyStore)
        (hrCoCreateInstance hrRegister : HRESULT),
      init.pAPOSystemEffectsProperties = some properties →
      ((Initialize h this cbDataSize (some init) hrCoCreateInstance hrRegister).1 =
          E_INVALIDARG ∧
        (Initialize h this cbDataSize (some init) hrCoCreateInstance hrRegister).2.m_EqMFX =
          this.m_EqMFX ∧
        (Initialize h this cbDataSize (some init) hrCoCreateInstance
          hrRegister).2.m_iInterEqLowMFX = this.m_iInterEqLowMFX ∧
        (Initialize h this cbDataSize (some init) hrCoCreateInstance
          hrRegister).2.m_iInterEqMidMFX = this.m_iInterEqMidMFX ∧
        (Initialize h this cbDataSize (some init) hrCoCreateInstance
          hrRegister).2.m_iInterEqHighMFX = this.m_iInterEqHighMFX) ∨
      ((Initialize h this cbDataSize (some init) hrCoCreateInstance
          hrRegister).2.m_EqMFX.m_LowFilter =
          h.Prepare this.m_EqMFX.m_LowFilter
            (Initialize h this cbDataSize (some init) hrCoCreateInstance
              hrRegister).2.m_iInterEqLowMFX ∧
        (Initialize h this cbDataSize (some init) hrCoCreateInstance
          hrRegister).2.m_EqMFX.m_MidFilter =
          h.Prepare this.m_EqMFX.m_MidFilter
            (Initialize h this cbDataSize (some init) hrCoCreateInstance
              hrRegister).2.m_iInterEqMidMFX ∧
        (Initialize h this cbDataSize (some init) hrCoCreateInstance
          hrRegister).2.m_EqMFX.m_HighFilter =
          h.Prepare this.m_EqMFX.m_HighFilter
            (Initialize h this cbDataSize (some init) hrCoCreateInstance
              hrRegister).2.m_iInterEqHighMFX ∧
        filtersPrepared h
          (Initialize h this cbDataSize (some init) hrCoCreateInstance hrRegister).2)) ∧
    (∀ properties, this.m_spAPOSystemEffectsProperties = some properties →
      (PK_EQUAL key h.keys.PKEY_Endpoint_Enable_Interface_MFX = true ∨
        PK_EQUAL key PKEY_AudioEndpoint_Disable_SysFx = true) →
      ((OnPropertyValueChanged h this key).this.m_iInterEqLowMFX =
          GetCurrentEffectsSetting properties h.keys.PKEY_Endpoint_Inter_EQ_Low_SFX
            this.m_AudioProcessingMode ∧
        (OnPropertyValueChanged h this key).this.m_EqMFX.m_LowFilter =
          if (OnPropertyValueChanged h this key).this.m_iInterEqLowMFX ≠ this.m_iInterEqLowMFX
          then h.Prepare this.m_EqMFX.m_LowFilter
            (OnPropertyValueChanged h this key).this.m_iInterEqLowMFX
          else this.m_EqMFX.m_LowFilter) ∧
      ((OnPropertyValueChanged h this key).this.m_iInterEqMidMFX =
          GetCurrentEffectsSetting properties h.keys.PKEY_Endpoint_Inter_EQ_Mid_SFX
            this.m_AudioProcessingMode ∧
        (OnPropertyValueChanged h this key).this.m_EqMFX.m_MidFilter =
          if (OnPropertyValueChanged h this key).this.m_iInterEqMidMFX ≠ this.m_iInterEqMidMFX
          then h.Prepare this.m_EqMFX.m_MidFilter
            (OnPropertyValueChanged h this key).this.m_iInterEqMidMFX
          else this.m_EqMFX.m_MidFilter) ∧
      ((OnPropertyValueChanged h this key).this.m_iInterEqHighMFX =
          GetCurrentEffectsSetting properties h.keys.PKEY_Endpoint_Inter_EQ_High_SFX
            this.m_AudioProcessingMode ∧
        (OnPropertyValueChanged h this key).this.m_EqMFX.m_HighFilter =
          if (OnPropertyValueChanged h this key).this.m_iInterEqHighMFX ≠
            this.m_iInterEqHighMFX
          then h.Prepare this.m_EqMFX.m_HighFilter
            (OnPropertyValueChanged h this key).this.m_iInterEqHighMFX
          else this.m_EqMFX.m_HighFilter)) ∧
    ((this.m_spAPOSystemEffectsProperties = none ∨
        ¬ (PK_EQUAL key h.keys.PKEY_Endpoint_Enable_Interface_MFX = true ∨
          PK_EQUAL key PKEY_AudioEndpoint_Disable_SysFx = true)) →
      (OnPropertyValueChanged h this key).this = this) ∧
    (filtersPrepared h this → filtersPrepared h (OnPropertyValueChanged h this key).this) := by
  have hother : (this.m_spAPOSystemEffectsProperties = none ∨
      ¬ (PK_EQUAL key h.keys.PKEY_Endpoint_Enable_Interface_MFX = true ∨
        PK_EQUAL key PKEY_AudioEndpoint_Disable_SysFx = true)) →
      (OnPropertyValueChanged h this key).this = this := by
    rintro (hn | hk)
    · simp [OnPropertyValueChanged, hn]
    · have hk2 : (PK_EQUAL key h.keys.PKEY_Endpoint_Enable_Interface_MFX ||
          PK_EQUAL key PKEY_AudioEndpoint_Disable_SysFx) = false := by
        simp only [not_or, Bool.not_eq_true] at hk
        simp [hk.1, hk.2]
      rcases hs : this.m_spAPOSystemEffectsProperties with _ | properties
      · simp [OnPropertyValueChanged, hs]
      · simp [OnPropertyValueChanged, hs, hk2]
  have hguard : ∀ properties, this.m_spAPOSystemEffectsProperties = some properties →
      (PK_EQUAL key h.keys.PKEY_Endpoint_Enable_Interface_MFX = true ∨
        PK_EQUAL key PKEY_AudioEndpoint_Disable_SysFx = true) → _ :=
    fun properties hp hk => OnPropertyValueChanged_filters h this properties key hp hk
  refine ⟨?_, ?_, hother, ?_⟩
  · intro cbDataSize init properties hrCoCreateInstance hrRegister hp
    rcases Initialize_some_paths h this cbDataSize init hrCoCreateInstance hrRegister with
      he | he | ⟨processingMode, he⟩
    · rw [he]
      exact Or.inl ⟨rfl, rfl, rfl, rfl, rfl⟩
    · rw [he]
      exact Or.inl ⟨rfl, rfl, rfl, rfl, rfl⟩
    · rw [he]
      rcases Initialize_tail_filters h
          { this with m_spAPOSystemEffectsProperties := init.pAPOSystemEffectsProperties }
          properties processingMode hrCoCreateInstance hrRegister hp with ht | ht
      · rw [ht]
        exact Or.inl ⟨rfl, rfl, rfl, rfl, rfl⟩
      · obtain ⟨l1, l2, l3, f1, f2, f3⟩ := ht
        right
        rw [l1, l2, l3]
        exact ⟨f1, f2, f3, ⟨_, by rw [f1, l1]⟩, ⟨_, by rw [f2, l2]⟩, ⟨_, by rw [f3, l3]⟩⟩
  · intro properties hp hk
    obtain ⟨⟨l1, f1⟩, ⟨l2, f2⟩, ⟨l3, f3⟩⟩ := hguard properties hp hk
    rw [l1, l2, l3]
    exact ⟨⟨rfl, f1⟩, ⟨rfl, f2⟩, ⟨rfl, f3⟩⟩
  · intro hinv
    by_cases hc : this.m_spAPOSystemEffectsProperties = none ∨
        ¬ (PK_EQUAL key h.keys.PKEY_Endpoint_Enable_Interface_MFX = true ∨
          PK_EQUAL key PKEY_AudioEndpoint_Disable_SysFx = true)
    · rw [hother hc]
      exact hinv
    · have hc1 : this.m_spAPOSystemEffectsProperties ≠ none := fun hn => hc (Or.inl hn)
      have hc2 : PK_EQUAL key h.keys.PKEY_Endpoint_Enable_Interface_MFX = true ∨
          PK_EQUAL key PKEY_AudioEndpoint_Disable_SysFx = true :=
        by_contra fun hn => hc (Or.inr hn)
      obtain ⟨properties, hp⟩ := Option.ne_none_iff_exists'.mp hc1
      obtain ⟨⟨l1, f1⟩, ⟨l2, f2⟩, ⟨l3, f3⟩⟩ := hguard properties hp hc2
      obtain ⟨⟨b1, p1⟩, ⟨b2, p2⟩, ⟨b3, p3⟩⟩ := hinv
      refine ⟨?_, ?_, ?_⟩
      · rw [f1, l1]
        split_ifs with hne
        · exact ⟨_, rfl⟩
        · exact ⟨b1, by rw [p1, not_not.mp hne]⟩
      · rw [f2, l2]
        split_ifs with hne
        · exact ⟨_, rfl⟩
        · exact ⟨b2, by rw [p2, not_not.mp hne]⟩
      · rw [f3, l3]
        split_ifs with hne
        · exact ⟨_, rfl⟩
        · exact ⟨b3, by rw [p3, not_not.mp hne]⟩

/-! ### The effects lock -/

/-- While the lock is held, calls that are neither `Enter` nor `Leave` pass the scan and leave
the count as it is. -/
theorem lockScan_append_of_no_lock_call (mid rest : List Call) (held : Nat) (hh : 0 < held)
    (hmid : ∀ c ∈ mid, c ≠ Call.EffectsLock_Enter ∧ c ≠ Call.EffectsLock_Leave) :
    lockScan held (mid ++ rest) = lockScan held rest := by
  induction mid with
  | nil => rfl
  | cons c cs ih =>
    have hc := hmid c (List.mem_cons_self _ _)
    have hcs : ∀ d ∈ cs, d ≠ Call.EffectsLock_Enter ∧ d ≠ Call.EffectsLock_Leave :=
      fun d hd => hmid d (List.mem_cons_of_mem _ hd)
    have h0 : held ≠ 0 := Nat.pos_iff_ne_zero.mp hh
    cases c <;> first
      | exact absurd rfl hc.1
      | exact absurd rfl hc.2
      | simp [lockScan, h0, ih hcs]

/-- One scope: `Enter`, calls that are neither `Enter` nor `Leave`, `Leave`. The scan passes
with the lock free at the end, and the lock is acquired once. -/
theorem lockScan_single_scope (mid : List Call)
    (hmid : ∀ c ∈ mid, c ≠ Call.EffectsLock_Enter ∧ c ≠ Call.EffectsLock_Leave) :
    lockScan 0 (Call.EffectsLock_Enter :: (mid ++ [Call.EffectsLock_Leave])) = some 0 ∧
    (Call.EffectsLock_Enter :: (mid ++ [Call.EffectsLock_Leave])).count
      Call.EffectsLock_Enter = 1 ∧
    (Call.EffectsLock_Enter :: (mid ++ [Call.EffectsLock_Leave])).count
      Call.EffectsLock_Leave = 1 := by
  have hE : mid.count Call.EffectsLock_Enter = 0 :=
    List.count_eq_zero.mpr fun hm => (hmid _ hm).1 rfl
  have hL : mid.count Call.EffectsLock_Leave = 0 :=
    List.count_eq_zero.mpr fun hm => (hmid _ hm).2 rfl
  refine ⟨?_, ?_, ?_⟩
  · rw [lockScan, lockScan_append_of_no_lock_call mid _ 1 (by decide) hmid]
    rfl
  · simp [List.count_cons, List.count_append, hE]
  · simp [List.count_cons, List.count_append, hL]

/-- The calls of one iteration of the notification loop are exchanges and `Prepare` calls, and
they leave the object as the iteration leaves it. -/
theorem OnPropertyValueChanged_body_calls_spec {B : Type} (h : InterAPO_h B)
    (properties : IPropertyStore) (st : ChangeLoop B) (c : KeyControl) :
    (∀ d ∈ OnPropertyValueChanged_body_calls h properties st c,
      d ≠ Call.EffectsLock_Enter ∧ d ≠ Call.EffectsLock_Leave ∧ d.isSetEvent = false) ∧
    (OnPropertyValueChanged_body_calls h properties st c).foldl (Call.apply h) st.this =
      (OnPropertyValueChanged_body h properties st c).this := by
  obtain ⟨k, v, f⟩ := c
  unfold OnPropertyValueChanged_body_calls OnPropertyValueChanged_body
  by_cases hne : GetCurrentEffectsSetting properties k st.this.m_AudioProcessingMode =
      v.read st.this
  · simp [hne, Call.apply, Call.isSetEvent]
  · rcases f with _ | f <;> simp [hne, Call.apply, Call.isSetEvent]

/-- The calls of the notification loop are exchanges and `Prepare` calls, and they leave the
object as the loop leaves it. -/
theorem OnPropertyValueChanged_loop_calls_spec {B : Type} (h : InterAPO_h B)
    (properties : IPropertyStore) (cs : List KeyControl) (st : ChangeLoop B) :
    (∀ d ∈ OnPropertyValueChanged_loop_calls h properties st cs,
      d ≠ Call.EffectsLock_Enter ∧ d ≠ Call.EffectsLock_Leave ∧ d.isSetEvent = false) ∧
    (OnPropertyValueChanged_loop_calls h properties st cs).foldl (Call.apply h) st.this =
      (cs.foldl (OnPropertyValueChanged_body h properties) st).this := by
  induction cs generalizing st with
  | nil => exact ⟨fun d hd => absurd hd (List.not_mem_nil d), rfl⟩
  | cons c cs ih =>
    obtain ⟨hb1, hb2⟩ := OnPropertyValueChanged_body_calls_spec h properties st c
    obtain ⟨hi1, hi2⟩ := ih (OnPropertyValueChanged_body h properties st c)
    constructor
    · intro d hd
      rw [OnPropertyValueChanged_loop_calls, List.mem_append] at hd
      rcases hd with hd | hd
      · exact hb1 d hd
      · exact hi1 d hd
    · rw [OnPropertyValueChanged_loop_calls, List.foldl_append, hb2, hi2]
      rfl

/-- The calls `GetEffectsList` makes: none, or one scope of the effects lock. -/
theorem GetEffectsList_calls_scope {B : Type} (InterEffectId : GUID) (this : CInterAPOMFX B)
    (ppEffectsIds : Option (Option (List GUID))) (pcEffects : Option UINT32)
    (Event : Option HANDLE) (duplicate : Option HANDLE) (hrLastError : HRESULT)
    (allocationSucceeds : Bool) :
    (GetEffectsList InterEffectId this ppEffectsIds pcEffects Event duplicate hrLastError
      allocationSucceeds).calls = [] ∨
    ∃ mid, (∀ c ∈ mid, c ≠ Call.EffectsLock_Enter ∧ c ≠ Call.EffectsLock_Leave) ∧
      (GetEffectsList InterEffectId this ppEffectsIds pcEffects Event duplicate hrLastError
        allocationSucceeds).calls =
        Call.EffectsLock_Enter :: (mid ++ [Call.EffectsLock_Leave]) := by
  have hlist : ∀ (t : CInterAPOMFX B) (mid : List Call),
      (∀ c ∈ mid, c ≠ Call.EffectsLock_Enter ∧ c ≠ Call.EffectsLock_Leave) →
      ∃ mid2, (∀ c ∈ mid2, c ≠ Call.EffectsLock_Enter ∧ c ≠ Call.EffectsLock_Leave) ∧
        (GetEffectsList_list InterEffectId t ppEffectsIds pcEffects allocationSucceeds
          (Call.EffectsLock_Enter :: mid)).calls =
          Call.EffectsLock_Enter :: (mid2 ++ [Call.EffectsLock_Leave]) := by
    intro t mid hmid
    have hmid2 : ∀ c ∈ mid ++ [Call.CoTaskMemAlloc allocationSucceeds],
        c ≠ Call.EffectsLock_Enter ∧ c ≠ Call.EffectsLock_Leave := by
      intro c hc
      rcases List.mem_append.mp hc with hc | hc
      · exact hmid c hc
      · rw [List.mem_singleton.mp hc]
        exact ⟨by simp, by simp⟩
    have hcalls : (GetEffectsList_list InterEffectId t ppEffectsIds pcEffects
          allocationSucceeds (Call.EffectsLock_Enter :: mid)).calls =
          Call.EffectsLock_Enter :: (mid ++ [Call.EffectsLock_Leave]) ∨
        (GetEffectsList_list InterEffectId t ppEffectsIds pcEffects
          allocationSucceeds (Call.EffectsLock_Enter :: mid)).calls =
          Call.EffectsLock_Enter ::
            ((mid ++ [Call.CoTaskMemAlloc allocationSucceeds]) ++ [Call.EffectsLock_Leave]) := by
      by_cases h1 : IsEqualGUID t.m_AudioProcessingMode AUDIO_SIGNALPROCESSINGMODE_RAW = true <;>
        by_cases h2 : t.m_fEnableInterMFX = 0 <;>
        cases allocationSucceeds <;>
        simp [GetEffectsList_list, h1, h2, List.countP_cons]
    rcases hcalls with hc | hc
    · exact ⟨mid, hmid, hc⟩
    · exact ⟨mid ++ [Call.CoTaskMemAlloc allocationSucceeds], hmid2, hc⟩
  unfold GetEffectsList
  split_ifs
  · exact Or.inl rfl
  · exact Or.inl rfl
  · right
    rcases this.m_hEffectsChangedEvent with _ | old <;> rcases Event with _ | event <;>
      try rcases duplicate with _ | d
    all_goals first
      | exact hlist _ [] (by simp)
      | exact hlist _ [Call.CloseHandle old] (by simp)
      | exact hlist _ [Call.DuplicateHandle event (some d)] (by simp)
      | exact hlist _ [Call.CloseHandle old, Call.DuplicateHandle event (some d)] (by simp)
      | exact ⟨[Call.DuplicateHandle event none], by simp, rfl⟩
      | exact ⟨[Call.CloseHandle old, Call.DuplicateHandle event none], by simp, rfl⟩

/-- The calls of a notification that passes the key test: `Enter`, the calls of the loop, the
`SetEvent` if anything changed and a handle is held, `Leave`. -/
theorem OnPropertyValueChanged_calls_guarded {B : Type} (h : InterAPO_h B)
    (this : CInterAPOMFX B) (properties : IPropertyStore) (key : PROPERTYKEY)
    (hp : this.m_spAPOSystemEffectsProperties = some properties)
    (hk : (PK_EQUAL key h.keys.PKEY_Endpoint_Enable_Interface_MFX ||
      PK_EQUAL key PKEY_AudioEndpoint_Disable_SysFx) = true) :
    OnPropertyValueChanged_calls h this key =
      Call.EffectsLock_Enter ::
        ((OnPropertyValueChanged_loop_calls h properties ⟨this, 0⟩ (controls h.keys) ++
          (match ((controls h.keys).foldl (OnPropertyValueChanged_body h properties)
              ⟨this, 0⟩).this.m_hEffectsChangedEvent with
            | some event =>
              if 0 < ((controls h.keys).foldl (OnPropertyValueChanged_body h properties)
                ⟨this, 0⟩).nChanges then [Call.SetEvent event] else []
            | none => [])) ++ [Call.EffectsLock_Leave]) := by
  unfold OnPropertyValueChanged_calls
  simp only [hp, hk, if_true]
  rcases ((controls h.keys).foldl (OnPropertyValueChanged_body h properties)
      ⟨this, 0⟩).this.m_hEffectsChangedEvent with _ | event
  · simp
  · by_cases hn : 0 < ((controls h.keys).foldl (OnPropertyValueChanged_body h properties)
        ⟨this, 0⟩).nChanges <;> simp [hn]

/-- Claim C23. The calls of `OnPropertyValueChanged` pass the lock scan from a free lock and
leave it free: every exchange on a control, every `Prepare` and the `SetEvent` come while the
lock is held, the lock is never released while free, and it is acquired at most once and
released as often as acquired. The calls account for the whole effect of the method: applied
in order they leave the object the method leaves, and the `SetEvent` calls among them are the
signals it counts. The calls of `GetEffectsList`, on every path, pass the scan likewise. -/
theorem effects_lock_discipline {B : Type} (h : InterAPO_h B) (this : CInterAPOMFX B)
    (key : PROPERTYKEY) (InterEffectId : GUID) (ppEffectsIds : Option (Option (List GUID)))
    (pcEffects : Option UINT32) (Event duplicate : Option HANDLE) (hrLastError : HRESULT)
    (allocationSucceeds : Bool) :
    lockScan 0 (OnPropertyValueChanged_calls h this key) = some 0 ∧
    (OnPropertyValueChanged_calls h this key).count Call.EffectsLock_Enter ≤ 1 ∧
    (OnPropertyValueChanged_calls h this key).count Call.EffectsLock_Leave =
      (OnPropertyValueChanged_calls h this key).count Call.EffectsLock_Enter ∧
    (OnPropertyValueChanged_calls h this key).foldl (Call.apply h) this =
      (OnPropertyValueChanged h this key).this ∧
    (((OnPropertyValueChanged_calls h this key).countP Call.isSetEvent : Nat) : LONG) =
      (OnPropertyValueChanged h this key).nSetEvent ∧
    lockScan 0 (GetEffectsList InterEffectId this ppEffectsIds pcEffects Event duplicate
      hrLastError allocationSucceeds).calls = some 0 ∧
    (GetEffectsList InterEffectId this ppEffectsIds pcEffects Event duplicate
      hrLastError allocationSucceeds).calls.count Call.EffectsLock_Enter ≤ 1 ∧
    (GetEffectsList InterEffectId this ppEffectsIds pcEffects Event duplicate
      hrLastError allocationSucceeds).calls.count Call.EffectsLock_Leave =
      (GetEffectsList InterEffectId this ppEffectsIds pcEffects Event duplicate
        hrLastError allocationSucceeds).calls.count Call.EffectsLock_Enter := by
  have hnotify : lockScan 0 (OnPropertyValueChanged_calls h this key) = some 0 ∧
      (OnPropertyValueChanged_calls h this key).count Call.EffectsLock_Enter ≤ 1 ∧
      (OnPropertyValueChanged_calls h this key).count Call.EffectsLock_Leave =
        (OnPropertyValueChanged_calls h this key).count Call.EffectsLock_Enter ∧
      (OnPropertyValueChanged_calls h this key).foldl (Call.apply h) this =
        (OnPropertyValueChanged h this key).this ∧
      (((OnPropertyValueChanged_calls h this key).countP Call.isSetEvent : Nat) : LONG) =
        (OnPropertyValueChanged h this key).nSetEvent := by
    rcases hp : this.m_spAPOSystemEffectsProperties with _ | properties
    · simp [OnPropertyValueChanged_calls, OnPropertyValueChanged, hp, lockScan]
    by_cases hk : (PK_EQUAL key h.keys.PKEY_Endpoint_Enable_Interface_MFX ||
        PK_EQUAL key PKEY_AudioEndpoint_Disable_SysFx) = true
    · obtain ⟨hl1, hl2⟩ := OnPropertyValueChanged_loop_calls_spec h properties
        (controls h.keys) ⟨this, 0⟩
      have hsig : ∀ (handle : Option HANDLE) (n : LONG) (c : Call),
          c ∈ (match handle with
            | some event => if 0 < n then [Call.SetEvent event] else []
            | none => []) →
          c ≠ Call.EffectsLock_Enter ∧ c ≠ Call.EffectsLock_Leave := by
        intro handle n c hc
        rcases handle with _ | event
        · exact absurd hc (List.not_mem_nil c)
        · by_cases hn : 0 < n
          · simp only [hn, if_true, List.mem_singleton] at hc
            rw [hc]
            exact ⟨by simp, by simp⟩
          · simp only [hn, if_false] at hc
            exact absurd hc (List.not_mem_nil c)
      have hmid : ∀ c ∈ OnPropertyValueChanged_loop_calls h properties ⟨this, 0⟩
            (controls h.keys) ++
          (match ((controls h.keys).foldl (OnPropertyValueChanged_body h properties)
              ⟨this, 0⟩).this.m_hEffectsChangedEvent with
            | some event =>
              if 0 < ((controls h.keys).foldl (OnPropertyValueChanged_body h properties)
                ⟨this, 0⟩).nChanges then [Call.SetEvent event] else []
            | none => []),
          c ≠ Call.EffectsLock_Enter ∧ c ≠ Call.EffectsLock_Leave := by
        intro c hc
        rcases List.mem_append.mp hc with hc | hc
        · exact ⟨(hl1 c hc).1, (hl1 c hc).2.1⟩
        · exact hsig _ _ c hc
      obtain ⟨hs1, hs2, hs3⟩ := lockScan_single_scope _ hmid
      have hcount : (OnPropertyValueChanged_loop_calls h properties ⟨this, 0⟩
          (controls h.keys)).countP Call.isSetEvent = 0 := by
        rw [List.countP_eq_zero]
        intro c hc
        simp [(hl1 c hc).2.2]
      rw [OnPropertyValueChanged_calls_guarded h this properties key hp hk]
      refine ⟨hs1, le_of_eq hs2, by rw [hs2, hs3], ?_, ?_⟩
      · rw [List.foldl_cons, List.foldl_append, List.foldl_append]
        have hE : Call.apply h this Call.EffectsLock_Enter = this := rfl
        rw [hE, hl2]
        simp only [OnPropertyValueChanged, hp, hk, if_true]
        rcases ((controls h.keys).foldl (OnPropertyValueChanged_body h properties)
            ⟨this, 0⟩).this.m_hEffectsChangedEvent with _ | event
        · rfl
        · by_cases hn : 0 < ((controls h.keys).foldl
              (OnPropertyValueChanged_body h properties) ⟨this, 0⟩).nChanges
          · simp only [hn, if_true]
            rfl
          · simp only [hn, if_false]
            rfl
      · rw [List.countP_cons, List.countP_append, List.countP_append, hcount]
        simp only [OnPropertyValueChanged, hp, hk, if_true]
        rcases ((controls h.keys).foldl (OnPropertyValueChanged_body h properties)
            ⟨this, 0⟩).this.m_hEffectsChangedEvent with _ | event
        · simp [Call.isSetEvent]
        · by_cases hn : 0 < ((controls h.keys).foldl
              (OnPropertyValueChanged_body h properties) ⟨this, 0⟩).nChanges <;>
            simp [hn, Call.isSetEvent]
    · simp [OnPropertyValueChanged_calls, OnPropertyValueChanged, hp, hk, lockScan]
  have hlist : lockScan 0 (GetEffectsList InterEffectId this ppEffectsIds pcEffects Event
        duplicate hrLastError allocationSucceeds).calls = some 0 ∧
      (GetEffectsList InterEffectId this ppEffectsIds pcEffects Event duplicate
        hrLastError allocationSucceeds).calls.count Call.EffectsLock_Enter ≤ 1 ∧
      (GetEffectsList InterEffectId this ppEffectsIds pcEffects Event duplicate
        hrLastError allocationSucceeds).calls.count Call.EffectsLock_Leave =
        (GetEffectsList InterEffectId this ppEffectsIds pcEffects Event duplicate
          hrLastError allocationSucceeds).calls.count Call.EffectsLock_Enter := by
    rcases GetEffectsList_calls_scope InterEffectId this ppEffectsIds pcEffects Event
        duplicate hrLastError allocationSucceeds with hc | ⟨mid, hmid, hc⟩
    · rw [hc]
      exact ⟨rfl, by simp, rfl⟩
    · obtain ⟨hs1, hs2, hs3⟩ := lockScan_single_scope mid hmid
      rw [hc]
      exact ⟨hs1, le_of_eq hs2, by rw [hs2, hs3]⟩
  exact ⟨hnotify.1, hnotify.2.1, hnotify.2.2.1, hnotify.2.2.2.1, hnotify.2.2.2.2,
    hlist.1, hlist.2.1, hlist.2.2⟩

end SysVAD
